import Mathlib

/-!
Verification of the Crypto++ Keccak message-digest component (`keccak.h`).

The header in `src/keccak.h` declares the class `Keccak` (fields `m_state`,
`m_digestSize`, `m_counter`, methods `Update`, `Restart`, `TruncatedFinal`,
`DigestSize`, `AlgorithmName`, `r`) and the four variant facades
`Keccak_224/256/384/512`.  The method bodies and the Keccak-f[1600]
permutation live in a translation unit that is not part of the sources,
so they are modelled from the specification (spec.md §4.1–§4.3), faithful
to its words; the constants, rates and facade data come from `keccak.h`
itself.
-/

/-- The 64-bit lane mask, `2^64 - 1`. -/
def mask64 : Nat := 2 ^ 64 - 1

/-- Left-rotation of a 64-bit lane by `n < 64` bit positions. -/
def rotl (a n : Nat) : Nat := ((a <<< n) ||| (a >>> (64 - n))) % 2 ^ 64

/-- Modelled from the spec: the 24 round constants of Keccak-f[1600]
(spec.md §4.1 step 5, "a fixed table of 24 precomputed constants");
`keccak.cpp`, which holds the table, is missing from the sources, so the
standard Keccak table is reproduced verbatim as the spec instructs. -/
def roundConstants : List Nat :=
  [1, 32898, 9223372036854808714, 9223372039002292224] ++
    [32907, 2147483649, 9223372039002292353, 9223372036854808585] ++
    [138, 136, 2147516425, 2147483658] ++
    [2147516555, 9223372036854775947, 9223372036854808713, 9223372036854808579] ++
    [9223372036854808578, 9223372036854775936, 32778, 9223372039002259466] ++
    [9223372039002292353, 9223372036854808704, 2147483649, 9223372039002292232]

/-- Modelled from the spec: the 5×5 table of rho rotation offsets
(spec.md §4.1 step 2), laid out at index `x + 5*y`; reproduced verbatim
from the public Keccak specification as spec.md instructs, since
`keccak.cpp` is missing from the sources. -/
def rhoOff : List Nat :=
  [0, 1, 62, 28, 27] ++ [36, 44, 6, 55, 20] ++ [3, 10, 43, 25, 39] ++
    [41, 45, 15, 21, 8] ++ [18, 2, 61, 56, 14]

/-- Modelled from the spec: the theta step (spec.md §4.1 step 1): column
parities, each lane XOR-ed with the parities of the two neighbouring
columns, one of them rotated by 1.  State is a 25-lane list at `x + 5*y`. -/
def thetaStep (A : List Nat) : List Nat :=
  let C := (List.range 5).map fun x =>
    A.getD x 0 ^^^ A.getD (x + 5) 0 ^^^ A.getD (x + 10) 0 ^^^
      A.getD (x + 15) 0 ^^^ A.getD (x + 20) 0
  let D := (List.range 5).map fun x =>
    C.getD ((x + 4) % 5) 0 ^^^ rotl (C.getD ((x + 1) % 5) 0) 1
  (List.range 25).map fun i => A.getD i 0 ^^^ D.getD (i % 5) 0

/-- Modelled from the spec: the rho step (spec.md §4.1 step 2): each lane
rotated left by its fixed offset. -/
def rhoStep (A : List Nat) : List Nat :=
  (List.range 25).map fun i => rotl (A.getD i 0) (rhoOff.getD i 0)

/-- Modelled from the spec: the pi step (spec.md §4.1 step 3): lanes are
relabelled by `(x,y) ← (y, 2x+3y mod 5)`; equivalently the new lane at
`(x,y)` is the old lane at `(x+3y mod 5, x)`. -/
def piStep (A : List Nat) : List Nat :=
  (List.range 25).map fun i => A.getD ((i % 5 + 3 * (i / 5)) % 5 + 5 * (i % 5)) 0

/-- Modelled from the spec: the chi step (spec.md §4.1 step 4): each lane
XOR-ed with (NOT next lane in row) AND (lane after that). -/
def chiStep (A : List Nat) : List Nat :=
  (List.range 25).map fun i =>
    A.getD i 0 ^^^
      ((mask64 ^^^ A.getD ((i % 5 + 1) % 5 + 5 * (i / 5)) 0) &&&
        A.getD ((i % 5 + 2) % 5 + 5 * (i / 5)) 0)

/-- Modelled from the spec: the iota step (spec.md §4.1 step 5): lane
(0,0) XOR-ed with the round constant. -/
def iotaStep (rc : Nat) : List Nat → List Nat
  | [] => []
  | a :: rest => (a ^^^ rc) :: rest

/-- Modelled from the spec: one Keccak round, the five sub-steps in
sequence (spec.md §4.1, "these five steps run in sequence once per round"). -/
def keccakRound (A : List Nat) (i : Nat) : List Nat :=
  iotaStep (roundConstants.getD i 0) (chiStep (piStep (rhoStep (thetaStep A))))

/-- Modelled from the spec: the Keccak-f[1600] permutation, 24 rounds
(spec.md §4.1, "24 rounds total ... this round count is fixed by the
design"); the permutation body is in the missing `keccak.cpp`. -/
def keccakF (A : List Nat) : List Nat :=
  (List.range 24).foldl keccakRound A

/-- The published result of Keccak-f[1600] on the all-zero state
(the reference intermediate-values vector), lanes at index `x + 5*y`. -/
def zeroStatePermuted : List Nat :=
  [0xf1258f7940e1dde7, 0x84d5ccf933c0478a, 0xd598261ea65aa9ee, 0xbd1547306f80494d,
   0x8b284e056253d057, 0xff97a42d7f8e6fd4, 0x90fee5a0a44647c4, 0x8c5bda0cd6192e76,
   0xad30a6f71b19059c, 0x30935ab7d08ffc64, 0xeb5aa93f2317d635, 0xa9a6e6260d712103,
   0x81a57c16dbcf555f, 0x43b831cd0347c826, 0x01f22f1a11a5569f, 0x05e5635a21d9ae61,
   0x64befef28cc970f2, 0x613670957bc46611, 0xb87c5a554fd00ecb, 0x8c3ee88a1ccf32c8,
   0x940c7922ae3a2614, 0x1841f924a2c509e4, 0x16f53526e70465c2, 0x75f644e97f30a13b,
   0xeaf1ff7b5ceca249]

/-- A little-endian 64-bit lane assembled from up to eight bytes,
first byte least significant (spec.md §6: byte order is little-endian). -/
def laneOfBytes (bs : List Nat) : Nat :=
  bs.foldr (fun b acc => b % 256 + 256 * acc) 0

/-- A byte sequence grouped into little-endian 64-bit lanes, eight bytes
per lane, a trailing short group forming a final partial lane. -/
def bytesToLanes : List Nat → List Nat
  | [] => []
  | b0 :: b1 :: b2 :: b3 :: b4 :: b5 :: b6 :: b7 :: rest =>
      laneOfBytes [b0, b1, b2, b3, b4, b5, b6, b7] :: bytesToLanes rest
  | short => [laneOfBytes short]

/-- Lane-wise XOR of a mask into the front of the state, lanes beyond the
mask left unchanged. -/
def xorLanes : List Nat → List Nat → List Nat
  | st, [] => st
  | [], _ :: _ => []
  | s :: st, m :: ms => (s ^^^ m) :: xorLanes st ms

/-- Modelled from the spec: XOR a block of bytes, interpreted as
little-endian 64-bit lanes, into the low bytes of the state
(spec.md §4.2 `update`); the absorbing code is in the missing `keccak.cpp`. -/
def xorIntoState (st : List Nat) (block : List Nat) : List Nat :=
  xorLanes st (bytesToLanes block)

/-- The eight little-endian bytes of a 64-bit lane. -/
def laneToBytes (a : Nat) : List Nat :=
  [a % 256, a >>> 8 % 256, a >>> 16 % 256, a >>> 24 % 256,
   a >>> 32 % 256, a >>> 40 % 256, a >>> 48 % 256, a >>> 56 % 256]

/-- The state rendered as bytes, little-endian lane order (spec.md §6). -/
def lanesToBytes : List Nat → List Nat
  | [] => []
  | a :: rest => laneToBytes a ++ lanesToBytes rest

/-- The mutable data of the C++ class `Keccak` (`keccak.h` lines 62–65):
`m_state` is the `FixedSizeSecBlock<word64, 25>` lane array and
`m_digestSize` the configured digest size.  The residual not-yet-absorbed
input is modelled from the spec (spec.md §3 "Residual Buffer") as the byte
list `m_buffer`; the header's `m_counter` is its count of valid bytes. -/
structure Keccak where
  m_digestSize : Nat
  m_state : List Nat
  m_buffer : List Nat
  deriving DecidableEq

/-- The header's byte counter `m_counter`: the number of valid residual
bytes (spec.md §3, a Residual Buffer "plus a count of valid bytes"). -/
def Keccak.m_counter (h : Keccak) : Nat := h.m_buffer.length

/-- The rate in bytes, from `keccak.h` line 62:
`unsigned int r() const {return 200 - 2 * m_digestSize;}`. -/
def Keccak.r (h : Keccak) : Nat := 200 - 2 * h.m_digestSize

/-- `DigestSize`, from `keccak.h` line 51: returns `m_digestSize`. -/
def Keccak.DigestSize (h : Keccak) : Nat := h.m_digestSize

/-- `AlgorithmName`, from `keccak.h` line 52:
`"Keccak-" + IntToString(m_digestSize*8)`. -/
def Keccak.AlgorithmName (h : Keccak) : String :=
  "Keccak-" ++ toString (h.m_digestSize * 8)

/-- Modelled from the spec: `Restart` zeroes the State and Residual
Buffer and resets the byte counter to zero (spec.md §4.2 `restart`);
the body is in the missing `keccak.cpp`. -/
def Keccak.Restart (h : Keccak) : Keccak :=
  { h with m_state := List.replicate 25 0, m_buffer := [] }

/-- The constructor `Keccak(unsigned int digestSize)` from `keccak.h`
line 50: stores the digest size and calls `Restart()`. -/
def Keccak.init (digestSize : Nat) : Keccak :=
  Keccak.Restart { m_digestSize := digestSize, m_state := [], m_buffer := [] }

/-- Modelled from the spec: one incoming byte of `update` (spec.md §4.2):
the byte joins the Residual Buffer, and whenever the buffer reaches `rate`
bytes those bytes are XOR-ed into the state as little-endian lanes, the
permutation is invoked, and the buffer is cleared. -/
def absorbByte (rate : Nat) (s : List Nat × List Nat) (b : Nat) :
    List Nat × List Nat :=
  let buf := s.2 ++ [b]
  if buf.length = rate then (keccakF (xorIntoState s.1 buf), []) else (s.1, buf)

/-- Modelled from the spec: `Update` absorbs a byte sequence of arbitrary
length, streaming it byte by byte through the Residual Buffer and draining
the buffer each time it reaches `rate` bytes (spec.md §4.2 `update`);
the body is in the missing `keccak.cpp`. -/
def Keccak.Update (h : Keccak) (input : List Nat) : Keccak :=
  let p := input.foldl (absorbByte h.r) (h.m_state, h.m_buffer)
  { h with m_state := p.1, m_buffer := p.2 }

/-- Modelled from the spec: the final padded block (spec.md §4.2
`truncatedFinal`): the domain-separation byte `0x01` is appended to the
residual bytes, the block is zero-padded up to `rate` bytes, and the top
bit of its final byte is set by OR with `0x80` (multi-rate padding). -/
def padBlock (rate : Nat) (buf : List Nat) : List Nat :=
  let base := buf ++ 0x01 :: List.replicate (rate - (buf.length + 1)) 0
  base.take (rate - 1) ++ [base.getD (rate - 1) 0 ||| 0x80]

/-- Modelled from the spec: the squeeze loop of `truncatedFinal`
(spec.md §4.2): up to `rate` low state bytes are copied per block, the
permutation re-run if more output remains.  The first argument after the
rate is recursion fuel, instantiated with the requested size. -/
def squeeze (rate : Nat) : Nat → List Nat → Nat → List Nat
  | 0, _, _ => []
  | fuel + 1, st, n =>
    if n ≤ rate then (lanesToBytes st).take n
    else (lanesToBytes st).take rate ++ squeeze rate fuel (keccakF st) (n - rate)

/-- Modelled from the spec: `TruncatedFinal` (spec.md §4.2
`truncatedFinal`): XOR the padded final block into the state, permute
once, extract `size` output bytes in little-endian lane order, and
restart implicitly; the body is in the missing `keccak.cpp`.  Returns
the output bytes together with the post-call object state. -/
def Keccak.TruncatedFinal (h : Keccak) (size : Nat) : List Nat × Keccak :=
  let st := keccakF (xorIntoState h.m_state (padBlock h.r h.m_buffer))
  (squeeze h.r size st size, h.Restart)

/-- The full digest of a message on a fresh instance of digest size `d`:
construct, `Update` once, `TruncatedFinal` with `size = d`. -/
def kDigest (d : Nat) (msg : List Nat) : List Nat :=
  (((Keccak.init d).Update msg).TruncatedFinal d).1

/-- `DIGESTSIZE = 28` of `Keccak_224` (`keccak.h` line 74). -/
def Keccak_224.DIGESTSIZE : Nat := 28

/-- `BLOCKSIZE = 200 - 2 * DIGESTSIZE` of `Keccak_224` (`keccak.h` line 75). -/
def Keccak_224.BLOCKSIZE : Nat := 200 - 2 * Keccak_224.DIGESTSIZE

/-- The `Keccak_224()` constructor (`keccak.h` line 78): `Keccak(DIGESTSIZE)`. -/
def Keccak_224.init : Keccak := Keccak.init Keccak_224.DIGESTSIZE

/-- `Keccak_224::BlockSize()` (`keccak.h` line 80): returns `BLOCKSIZE`. -/
def Keccak_224.BlockSize : Nat := Keccak_224.BLOCKSIZE

/-- `DIGESTSIZE = 32` of `Keccak_256` (`keccak.h` line 91). -/
def Keccak_256.DIGESTSIZE : Nat := 32

/-- `BLOCKSIZE = 200 - 2 * DIGESTSIZE` of `Keccak_256` (`keccak.h` line 92). -/
def Keccak_256.BLOCKSIZE : Nat := 200 - 2 * Keccak_256.DIGESTSIZE

/-- The `Keccak_256()` constructor (`keccak.h` line 95): `Keccak(DIGESTSIZE)`. -/
def Keccak_256.init : Keccak := Keccak.init Keccak_256.DIGESTSIZE

/-- `Keccak_256::BlockSize()` (`keccak.h` line 97): returns `BLOCKSIZE`. -/
def Keccak_256.BlockSize : Nat := Keccak_256.BLOCKSIZE

/-- `DIGESTSIZE = 48` of `Keccak_384` (`keccak.h` line 108). -/
def Keccak_384.DIGESTSIZE : Nat := 48

/-- `BLOCKSIZE = 200 - 2 * DIGESTSIZE` of `Keccak_384` (`keccak.h` line 109). -/
def Keccak_384.BLOCKSIZE : Nat := 200 - 2 * Keccak_384.DIGESTSIZE

/-- The `Keccak_384()` constructor (`keccak.h` line 112): `Keccak(DIGESTSIZE)`. -/
def Keccak_384.init : Keccak := Keccak.init Keccak_384.DIGESTSIZE

/-- `Keccak_384::BlockSize()` (`keccak.h` line 114): returns `BLOCKSIZE`. -/
def Keccak_384.BlockSize : Nat := Keccak_384.BLOCKSIZE

/-- `DIGESTSIZE = 64` of `Keccak_512` (`keccak.h` line 125). -/
def Keccak_512.DIGESTSIZE : Nat := 64

/-- `BLOCKSIZE = 200 - 2 * DIGESTSIZE` of `Keccak_512` (`keccak.h` line 126). -/
def Keccak_512.BLOCKSIZE : Nat := 200 - 2 * Keccak_512.DIGESTSIZE

/-- The `Keccak_512()` constructor (`keccak.h` line 129): `Keccak(DIGESTSIZE)`. -/
def Keccak_512.init : Keccak := Keccak.init Keccak_512.DIGESTSIZE

/-- `Keccak_512::BlockSize()` (`keccak.h` line 131): returns `BLOCKSIZE`. -/
def Keccak_512.BlockSize : Nat := Keccak_512.BLOCKSIZE

/-- The three-byte ASCII message "abc". -/
def abcBytes : List Nat := [0x61, 0x62, 0x63]

/-!
Reference formulation of Keccak-f[1600], written independently of the
modelled implementation: the state is a function `Fin 5 → Fin 5 → Nat`,
the round constants are generated by the standard degree-8 LFSR, the
rho offsets by the standard `(x,y) ← (y, 2x+3y)` walk, and each step is
the textbook equation of the Keccak specification.
-/

/-- A reference Keccak state: lane `(x, y)` addressed by two coordinates. -/
def RefState := Fin 5 → Fin 5 → Nat

/-- One step of the degree-8 LFSR `x^8 + x^6 + x^5 + x^4 + 1` over GF(2)
used by the standard to define the round constants. -/
def lfsrStep (R : Nat) : Nat := ((R <<< 1) ^^^ ((R >>> 7) * 0x71)) % 256

/-- Bit `rc(t)` of the standard: the low bit of the LFSR register after
`t` steps from the initial register value 1. -/
def rcBit (t : Nat) : Nat := (lfsrStep^[t] 1) % 2

/-- Round constant `RC[i]` as the standard defines it: bit `2^j − 1` of
the lane is `rc(j + 7i)` for `j = 0..6`. -/
def refRC (i : Nat) : Nat :=
  (List.range 7).foldl (fun acc j => acc ||| (rcBit (j + 7 * i) <<< (2 ^ j - 1))) 0

/-- The 24 round constants generated by the LFSR definition. -/
def refRCTable : List Nat := (List.range 24).map refRC

/-- The rho-offset walk of the standard: starting from `(x,y) = (1,0)`,
step `t` assigns offset `((t+1)(t+2)/2) mod 64` to lane `x + 5y` and
moves to `(y, (2x+3y) mod 5)`.  Returns the assignments as index/offset
pairs. -/
def rhoWalk : Nat → Nat → Nat → Nat → List (Nat × Nat)
  | 0, _, _, _ => []
  | fuel + 1, x, y, t =>
      (x + 5 * y, ((t + 1) * (t + 2) / 2) % 64) :: rhoWalk fuel y ((2 * x + 3 * y) % 5) (t + 1)

/-- The rho-offset table generated by the walk, index `x + 5y`, lane 0
unrotated. -/
def refRhoTable : List Nat :=
  (List.range 25).map fun i =>
    ((rhoWalk 24 1 0 0).lookup i).getD 0

/-- Reference column parity `C[x]` of the theta step. -/
def refC (A : RefState) (x : Fin 5) : Nat :=
  A x 0 ^^^ A x 1 ^^^ A x 2 ^^^ A x 3 ^^^ A x 4

/-- Reference theta: `A[x,y] ← A[x,y] ⊕ (C[x−1] ⊕ rotl(C[x+1], 1))`. -/
def refTheta (A : RefState) : RefState := fun x y =>
  A x y ^^^ (refC A (x - 1) ^^^ rotl (refC A (x + 1)) 1)

/-- Reference rho: each lane rotated by the walk-generated offset. -/
def refRho (A : RefState) : RefState := fun x y =>
  rotl (A x y) (refRhoTable.getD (x.val + 5 * y.val) 0)

/-- Reference pi: `A′[x, y] = A[(x + 3y) mod 5, x]`, the textbook inverse
of the relabelling `(x, y) ← (y, 2x + 3y mod 5)`. -/
def refPi (A : RefState) : RefState := fun x y => A (x + 3 * y) x

/-- Reference chi: `A[x,y] ← A[x,y] ⊕ ((¬A[x+1,y]) ∧ A[x+2,y])`. -/
def refChi (A : RefState) : RefState := fun x y =>
  A x y ^^^ ((mask64 ^^^ A (x + 1) y) &&& A (x + 2) y)

/-- Reference iota: lane (0,0) XOR-ed with the given round constant. -/
def refIotaRC (rc : Nat) (A : RefState) : RefState := fun x y =>
  if x = 0 ∧ y = 0 then A 0 0 ^^^ rc else A x y

/-- One reference round: theta, rho, pi, chi, iota in that order, with
the LFSR-generated constant of round `i`. -/
def refRound (A : RefState) (i : Nat) : RefState :=
  refIotaRC (refRCTable.getD i 0) (refChi (refPi (refRho (refTheta A))))

/-- The reference Keccak-f[1600]: exactly 24 rounds. -/
def refKeccakF (A : RefState) : RefState :=
  (List.range 24).foldl refRound A

/-- A 25-lane list state read as a reference state, lane `(x,y)` at index
`x + 5y`. -/
def toFun (st : List Nat) : RefState := fun x y =>
  st.getD (x.val + 5 * y.val) 0

/-- A reference state written back as a 25-lane list. -/
def fromFun (A : RefState) : List Nat :=
  (List.range 25).map fun i => A ⟨i % 5, by omega⟩ ⟨i / 5 % 5, by omega⟩

/-- The published Keccak-224 digest of the empty message,
`f71837502ba8e10837bdd8d365adb85591895602fc552b48b7390abd`, as bytes. -/
def kat224Empty : List Nat :=
  [247, 24, 55, 80, 43, 168, 225, 8, 55, 189, 216, 211, 101, 173, 184, 85,
   145, 137, 86, 2, 252, 85, 43, 72, 183, 57, 10, 189]

/-- The published Keccak-224 digest of `"abc"`,
`c30411768506ebe1c2871b1ee2e87d38df342317300a9b97a95ec6a8`, as bytes. -/
def kat224Abc : List Nat :=
  [195, 4, 17, 118, 133, 6, 235, 225, 194, 135, 27, 30, 226, 232, 125, 56,
   223, 52, 35, 23, 48, 10, 155, 151, 169, 94, 198, 168]

/-- The published Keccak-256 digest of the empty message,
`c5d2460186f7233c927e7db2dcc703c0e500b653ca82273b7bfad8045d85a470`, as bytes. -/
def kat256Empty : List Nat :=
  [197, 210, 70, 1, 134, 247, 35, 60, 146, 126, 125, 178, 220, 199, 3, 192,
   229, 0, 182, 83, 202, 130, 39, 59, 123, 250, 216, 4, 93, 133, 164, 112]

/-- The published Keccak-256 digest of `"abc"`,
`4e03657aea45a94fc7d47ba826c8d667c0d1e6e33a64a036ec44f58fa12d6c45`, as bytes. -/
def kat256Abc : List Nat :=
  [78, 3, 101, 122, 234, 69, 169, 79, 199, 212, 123, 168, 38, 200, 214, 103,
   192, 209, 230, 227, 58, 100, 160, 54, 236, 68, 245, 143, 161, 45, 108, 69]

/-- The published Keccak-384 digest of the empty message, as bytes. -/
def kat384Empty : List Nat :=
  [44, 35, 20, 106, 99, 162, 154, 207, 153, 231, 59, 136, 248, 194, 78, 170,
   125, 198, 10, 167, 113, 120, 12, 204, 0, 106, 251, 250, 143, 226, 71, 155,
   45, 210, 178, 19, 98, 51, 116, 65, 172, 18, 181, 21, 145, 25, 87, 255]

/-- The published Keccak-384 digest of `"abc"`, as bytes. -/
def kat384Abc : List Nat :=
  [247, 223, 17, 101, 240, 51, 51, 123, 224, 152, 231, 210, 136, 173, 106, 47,
   116, 64, 157, 122, 96, 180, 156, 54, 100, 34, 24, 222, 22, 27, 31, 153,
   248, 198, 129, 228, 175, 175, 49, 163, 77, 178, 159, 183, 99, 227, 194, 142]

/-- The published Keccak-512 digest of the empty message, as bytes. -/
def kat512Empty : List Nat :=
  [14, 171, 66, 222, 76, 60, 235, 146, 53, 252, 145, 172, 255, 231, 70, 178,
   156, 41, 168, 195, 102, 183, 198, 14, 78, 103, 196, 102, 243, 106, 67, 4,
   192, 15, 169, 202, 249, 216, 121, 118, 186, 70, 155, 203, 224, 103, 19, 180,
   53, 240, 145, 239, 39, 105, 251, 22, 12, 218, 179, 61, 54, 112, 104, 14]

/-- The published Keccak-512 digest of `"abc"`, as bytes. -/
def kat512Abc : List Nat :=
  [24, 88, 125, 194, 234, 16, 107, 154, 21, 99, 227, 43, 51, 18, 66, 28,
   161, 100, 199, 241, 240, 123, 201, 34, 169, 200, 61, 119, 206, 163, 161, 229,
   208, 198, 153, 16, 115, 144, 37, 55, 45, 193, 74, 201, 100, 38, 41, 55,
   149, 64, 193, 126, 42, 101, 177, 157, 119, 170, 81, 26, 157, 0, 187, 150]

set_option maxRecDepth 100000

set_option maxHeartbeats 4000000

/-- Reading back a written reference state recovers it. -/
theorem toFun_fromFun (A : RefState) : toFun (fromFun A) = A := by
  funext x y
  fin_cases x <;> fin_cases y <;> rfl

/-- The modelled theta step agrees with the reference theta equation. -/
theorem thetaStep_ref (st : List Nat) : thetaStep st = fromFun (refTheta (toFun st)) := rfl

/-- The modelled rho step agrees with the reference rho equation. -/
theorem rhoStep_ref (A : RefState) : rhoStep (fromFun A) = fromFun (refRho A) := rfl

/-- The modelled pi step agrees with the reference pi equation. -/
theorem piStep_ref (A : RefState) : piStep (fromFun A) = fromFun (refPi A) := rfl

/-- The modelled chi step agrees with the reference chi equation. -/
theorem chiStep_ref (A : RefState) : chiStep (fromFun A) = fromFun (refChi A) := rfl

/-- The modelled iota step agrees with the reference iota equation. -/
theorem iotaStep_ref (rc : Nat) (A : RefState) :
    iotaStep rc (fromFun A) = fromFun (refIotaRC rc A) := rfl

/-- The verbatim round-constant table equals the LFSR-generated one. -/
theorem roundConstants_eq_ref : roundConstants = refRCTable := by decide

/-- The verbatim rho-offset table equals the walk-generated one. -/
theorem rhoOff_eq_ref : rhoOff = refRhoTable := by decide

/-- One modelled round agrees with one reference round. -/
theorem keccakRound_ref (st : List Nat) (i : Nat) :
    keccakRound st i = fromFun (refRound (toFun st) i) := by
  show iotaStep (roundConstants.getD i 0) (chiStep (piStep (rhoStep (thetaStep st)))) = _
  rw [thetaStep_ref, rhoStep_ref, piStep_ref, chiStep_ref, iotaStep_ref,
    roundConstants_eq_ref]
  rfl

/-- Folding modelled rounds from a written reference state agrees with
folding reference rounds. -/
theorem foldl_keccakRound_ref (l : List Nat) (A : RefState) :
    l.foldl keccakRound (fromFun A) = fromFun (l.foldl refRound A) := by
  induction l generalizing A with
  | nil => rfl
  | cons i rest ih =>
      simp only [List.foldl_cons]
      rw [keccakRound_ref, toFun_fromFun, ih]

/-- Folding modelled rounds over a nonempty round list agrees with the
reference fold from any starting list state. -/
theorem foldl_cons_keccakRound_ref (i : Nat) (l : List Nat) (st : List Nat) :
    (i :: l).foldl keccakRound st = fromFun ((i :: l).foldl refRound (toFun st)) := by
  simp only [List.foldl_cons]
  rw [keccakRound_ref, foldl_keccakRound_ref]

/-- The modelled permutation agrees with the reference permutation on
every state. -/
theorem keccakF_ref (st : List Nat) : keccakF st = fromFun (refKeccakF (toFun st)) := by
  show (List.range 24).foldl keccakRound st = fromFun ((List.range 24).foldl refRound (toFun st))
  rw [List.range_succ_eq_map]
  exact foldl_cons_keccakRound_ref 0 _ st

/-- Two consecutive `Update` calls absorb the same as one call on the
concatenation: the residual stream is folded byte by byte either way. -/
theorem Update_append (h : Keccak) (a b : List Nat) :
    (h.Update a).Update b = h.Update (a ++ b) := by
  show Keccak.Update _ b = _
  simp only [Keccak.Update, List.foldl_append]
  rfl

/-- `Update` with the empty input leaves the object unchanged. -/
theorem Update_nil (h : Keccak) : h.Update [] = h := rfl

/-- The round indices of the permutation, `List.range 24` in literal form. -/
theorem range24_eq : List.range 24 = [0, 1, 2, 3, 4, 5, 6, 7, 8, 9, 10, 11, 12, 13, 14, 15, 16, 17, 18, 19, 20, 21, 22, 23] := rfl

/-- Round 0 of the permutation on the `z` state. -/
theorem permRound_z_0 : keccakRound (List.replicate 25 0) 0 = [1, 0, 0, 0, 0, 0, 0, 0, 0, 0, 0, 0, 0, 0, 0, 0, 0, 0, 0, 0, 0, 0, 0, 0, 0] := by decide

/-- Round 1 of the permutation on the `z` state. -/
theorem permRound_z_1 : keccakRound [1, 0, 0, 0, 0, 0, 0, 0, 0, 0, 0, 0, 0, 0, 0, 0, 0, 0, 0, 0, 0, 0, 0, 0, 0] 1 = [32899, 17592186044416, 32768, 1, 17592186077184, 0, 35184374185984, 0, 35184372088832, 2097152, 2, 512, 0, 514, 0, 268436480, 0, 1024, 268435456, 0, 1099511627776, 0, 1099511627780, 0, 4] := by decide

/-- Round 2 of the permutation on the `z` state. -/
theorem permRound_z_2 : keccakRound [32899, 17592186044416, 32768, 1, 17592186077184, 0, 35184374185984, 0, 35184372088832, 2097152, 2, 512, 0, 514, 0, 268436480, 0, 1024, 268435456, 0, 1099511627776, 0, 1099511627780, 0, 4] 2 = [9236970796698600460, 4092250545529553158, 626057523912327425, 2306538108895626371, 1173341635645358336, 1293304092434976, 1266393375296193026, 4612686711565066480, 3572814934320349200, 6918386853474468034, 181437471070544, 17451689225912448, 14123431978033217603, 9612137362626578, 14131171423402623105, 109225863298950544, 4469910934709993472, 291608492588557700, 4143342752895270928, 722898250671538564, 9260980282462904729, 14339470011802853602, 37581858268459548, 4683770000893804961, 432358761588732518] := by decide

/-- Round 3 of the permutation on the `z` state. -/
theorem permRound_z_3 : keccakRound [9236970796698600460, 4092250545529553158, 626057523912327425, 2306538108895626371, 1173341635645358336, 1293304092434976, 1266393375296193026, 4612686711565066480, 3572814934320349200, 6918386853474468034, 181437471070544, 17451689225912448, 14123431978033217603, 9612137362626578, 14131171423402623105, 109225863298950544, 4469910934709993472, 291608492588557700, 4143342752895270928, 722898250671538564, 9260980282462904729, 14339470011802853602, 37581858268459548, 4683770000893804961, 432358761588732518] 3 = [592319258926211651, 14940587067404002452, 6163873250186209783, 9133172271835791495, 13983250434949586883, 10037245043040796116, 14625807227073111006, 9517639169617348992, 10802803781493464979, 1170967630360556906, 4833658608200494670, 14411270558251773425, 10413092914151648788, 6324505867985343017, 15456637871614865798, 15961727220218474669, 12219779720573097889, 13453918774002596887, 11249665490274026413, 16763947842887530834, 9348458261315236693, 11269932799224724130, 5725669273397430228, 16793563075160212879, 7296601056617420707] := by decide

/-- Round 4 of the permutation on the `z` state. -/
theorem permRound_z_4 : keccakRound [592319258926211651, 14940587067404002452, 6163873250186209783, 9133172271835791495, 13983250434949586883, 10037245043040796116, 14625807227073111006, 9517639169617348992, 10802803781493464979, 1170967630360556906, 4833658608200494670, 14411270558251773425, 10413092914151648788, 6324505867985343017, 15456637871614865798, 15961727220218474669, 12219779720573097889, 13453918774002596887, 11249665490274026413, 16763947842887530834, 9348458261315236693, 11269932799224724130, 5725669273397430228, 16793563075160212879, 7296601056617420707] 4 = [7638250137956199023, 17990125325728205105, 7906499215270811140, 10861036725959346835, 11195520138696188958, 8358174899797462070, 8135952663530915624, 1143978644753002443, 15662404937588594201, 16535557756827863490, 2821756897662528488, 12114361851460063201, 8845673958919045506, 13942698502943567537, 11656387723772272466, 13322614738909770079, 2086432298574777049, 17543636310180418713, 1178364895537752846, 10832164025006223835, 2030143342952750111, 12360607886846421348, 10479039689777663018, 16563260862735374768, 7279885679800479721] := by decide

/-- Round 5 of the permutation on the `z` state. -/
theorem permRound_z_5 : keccakRound [7638250137956199023, 17990125325728205105, 7906499215270811140, 10861036725959346835, 11195520138696188958, 8358174899797462070, 8135952663530915624, 1143978644753002443, 15662404937588594201, 16535557756827863490, 2821756897662528488, 12114361851460063201, 8845673958919045506, 13942698502943567537, 11656387723772272466, 13322614738909770079, 2086432298574777049, 17543636310180418713, 1178364895537752846, 10832164025006223835, 2030143342952750111, 12360607886846421348, 10479039689777663018, 16563260862735374768, 7279885679800479721] 5 = [4891766363406797400, 15439122233753343804, 13823342620960621853, 11746433691194652646, 4017314498112237324, 815207819430446539, 4967747420293129338, 3818588911347179217, 12982395987346120149, 8831006501622048216, 3273200702990303769, 11925911941096385939, 11818410238024184151, 6855937196075990472, 6813782227838587502, 5749709705375199086, 198532287281302992, 3986921420170929948, 2084732521627207926, 3955984847012879536, 17540298648724239738, 14973796877054370773, 9207394463793105740, 13336242423054526618, 2223831538796077986] := by decide

/-- Round 6 of the permutation on the `z` state. -/
theorem permRound_z_6 : keccakRound [4891766363406797400, 15439122233753343804, 13823342620960621853, 11746433691194652646, 4017314498112237324, 815207819430446539, 4967747420293129338, 3818588911347179217, 12982395987346120149, 8831006501622048216, 3273200702990303769, 11925911941096385939, 11818410238024184151, 6855937196075990472, 6813782227838587502, 5749709705375199086, 198532287281302992, 3986921420170929948, 2084732521627207926, 3955984847012879536, 17540298648724239738, 14973796877054370773, 9207394463793105740, 13336242423054526618, 2223831538796077986] 6 = [898454936699210940, 8026835929569667841, 7594412717710188589, 17691297879001667639, 12039682773981733750, 4806751406901749727, 11830785691895369039, 6215100860000502273, 3084694277248389144, 16700214332683074198, 1701067029580549681, 2935021215067160996, 10064659787097191500, 7604822824502759976, 1494105689337672248, 12626178481354463734, 2395136601172298592, 4068135589652482799, 15567196270789777948, 4732526861918809121, 2821496240805205513, 5710775155925759758, 9794593245826189275, 17281148776925903127, 7447477925633355381] := by decide

/-- Round 7 of the permutation on the `z` state. -/
theorem permRound_z_7 : keccakRound [898454936699210940, 8026835929569667841, 7594412717710188589, 17691297879001667639, 12039682773981733750, 4806751406901749727, 11830785691895369039, 6215100860000502273, 3084694277248389144, 16700214332683074198, 1701067029580549681, 2935021215067160996, 10064659787097191500, 7604822824502759976, 1494105689337672248, 12626178481354463734, 2395136601172298592, 4068135589652482799, 15567196270789777948, 4732526861918809121, 2821496240805205513, 5710775155925759758, 9794593245826189275, 17281148776925903127, 7447477925633355381] 7 = [16652500485267009945, 10958849981877258258, 8853714237097736841, 2003963211515332167, 18104358148906917239, 11379445100294208094, 10437317241808364805, 8212908831415405867, 9091928497337800534, 14059751231478270153, 15001885449949867721, 6759228644865529140, 11075707692260412524, 3034373526708073059, 4872532784904879032, 4459999803740524546, 41374170015054282, 7214229506690688943, 13879932992727109603, 15786098323946766905, 12482833305138999423, 7737943208738395468, 10835449165856946809, 6784889229701620112, 2508743159882295470] := by decide

/-- Round 8 of the permutation on the `z` state. -/
theorem permRound_z_8 : keccakRound [16652500485267009945, 10958849981877258258, 8853714237097736841, 2003963211515332167, 18104358148906917239, 11379445100294208094, 10437317241808364805, 8212908831415405867, 9091928497337800534, 14059751231478270153, 15001885449949867721, 6759228644865529140, 11075707692260412524, 3034373526708073059, 4872532784904879032, 4459999803740524546, 41374170015054282, 7214229506690688943, 13879932992727109603, 15786098323946766905, 12482833305138999423, 7737943208738395468, 10835449165856946809, 6784889229701620112, 2508743159882295470] 8 = [3501041463853948136, 10866310098799002248, 13309280585677824928, 8654994258840324854, 6845067337239913332, 10088136376365509866, 8098513356096791269, 6638350475764314625, 16001711104195941451, 10607400498603605150, 5131225480281754274, 5160469520704435485, 15018657285952792984, 16484085553422753372, 5931322006392875968, 3577803676181472141, 4870467447592949037, 5364253307864407449, 3089172411618606127, 16799288664504418060, 17410098619877022889, 17855808120993975832, 4231817637990851498, 8355222551094640687, 5005734266266153514] := by decide

/-- Round 9 of the permutation on the `z` state. -/
theorem permRound_z_9 : keccakRound [3501041463853948136, 10866310098799002248, 13309280585677824928, 8654994258840324854, 6845067337239913332, 10088136376365509866, 8098513356096791269, 6638350475764314625, 16001711104195941451, 10607400498603605150, 5131225480281754274, 5160469520704435485, 15018657285952792984, 16484085553422753372, 5931322006392875968, 3577803676181472141, 4870467447592949037, 5364253307864407449, 3089172411618606127, 16799288664504418060, 17410098619877022889, 17855808120993975832, 4231817637990851498, 8355222551094640687, 5005734266266153514] 9 = [3588163770990522304, 16479335626328639697, 11358907911893817070, 9119139129432285044, 13070366473402436328, 892731343442222162, 3690821324981009122, 15080028204771130150, 10354797854562857201, 10559463638913953956, 1883451539796691472, 2574107618984411294, 8774546256790412988, 17323304761403437493, 6567054393697289103, 8473902787459112510, 11348671707764966528, 10848509050259388225, 11998475766630087972, 13057299392584623156, 7315709613345793070, 2954040636079341264, 13505517057123953559, 6991998196266149583, 1779899004829303985] := by decide

/-- Round 10 of the permutation on the `z` state. -/
theorem permRound_z_10 : keccakRound [3588163770990522304, 16479335626328639697, 11358907911893817070, 9119139129432285044, 13070366473402436328, 892731343442222162, 3690821324981009122, 15080028204771130150, 10354797854562857201, 10559463638913953956, 1883451539796691472, 2574107618984411294, 8774546256790412988, 17323304761403437493, 6567054393697289103, 8473902787459112510, 11348671707764966528, 10848509050259388225, 11998475766630087972, 13057299392584623156, 7315709613345793070, 2954040636079341264, 13505517057123953559, 6991998196266149583, 1779899004829303985] 10 = [8317352591327817587, 3347101423491892088, 13812284588227636790, 6672945709382097013, 14828349229463845968, 17723229868831098326, 17401130588186959855, 16478565068789518457, 6492452647977334912, 11881899180789479218, 16234817029224417455, 15219752985751753243, 7353976000907867650, 14188031598247865105, 15212311666827251122, 11629652489896499652, 9435989968869629838, 3918343313233240239, 7628695717460153542, 12309003921403265649, 345338872853187944, 12040357248728011954, 3576113714317971609, 6768822272106030756, 5816751084285246094] := by decide

/-- Round 11 of the permutation on the `z` state. -/
theorem permRound_z_11 : keccakRound [8317352591327817587, 3347101423491892088, 13812284588227636790, 6672945709382097013, 14828349229463845968, 17723229868831098326, 17401130588186959855, 16478565068789518457, 6492452647977334912, 11881899180789479218, 16234817029224417455, 15219752985751753243, 7353976000907867650, 14188031598247865105, 15212311666827251122, 11629652489896499652, 9435989968869629838, 3918343313233240239, 7628695717460153542, 12309003921403265649, 345338872853187944, 12040357248728011954, 3576113714317971609, 6768822272106030756, 5816751084285246094] 11 = [4650443609753860646, 9514407034135748299, 1325603491995511509, 5593257647634540243, 4316689694591141959, 7056436588513633967, 3922974518795920519, 9361284003398536963, 12348570714043139801, 9410505497913992340, 3614675582850630850, 6265106893083717952, 15812212848177019826, 5971330993120196744, 10998285978683370913, 11166777828240479175, 7385351289822635840, 13873470266315090419, 6746683412968993695, 16204117485081817578, 8627448812002334210, 5809981248579074143, 17919282347891220598, 3921880343594863541, 4864618403575458388] := by decide

/-- Round 12 of the permutation on the `z` state. -/
theorem permRound_z_12 : keccakRound [4650443609753860646, 9514407034135748299, 1325603491995511509, 5593257647634540243, 4316689694591141959, 7056436588513633967, 3922974518795920519, 9361284003398536963, 12348570714043139801, 9410505497913992340, 3614675582850630850, 6265106893083717952, 15812212848177019826, 5971330993120196744, 10998285978683370913, 11166777828240479175, 7385351289822635840, 13873470266315090419, 6746683412968993695, 16204117485081817578, 8627448812002334210, 5809981248579074143, 17919282347891220598, 3921880343594863541, 4864618403575458388] 12 = [7245703133969760514, 7308377745558090787, 3024039199793975669, 10475161913693405315, 2229594443943537715, 1378705438878885022, 8836084697270343616, 11673226748516941160, 18083512963210699487, 12838525556441833447, 5648153304207930123, 200746312536593849, 7587304358451870209, 653040454587139786, 1931695478642165446, 3646385758086716037, 12146637998669364084, 17157368884712978469, 149421579872863289, 4990703509122231361, 15561585888115575213, 8444020517878950322, 591672357007603357, 17168445266072961336, 4351942371301754975] := by decide

/-- Round 13 of the permutation on the `z` state. -/
theorem permRound_z_13 : keccakRound [7245703133969760514, 7308377745558090787, 3024039199793975669, 10475161913693405315, 2229594443943537715, 1378705438878885022, 8836084697270343616, 11673226748516941160, 18083512963210699487, 12838525556441833447, 5648153304207930123, 200746312536593849, 7587304358451870209, 653040454587139786, 1931695478642165446, 3646385758086716037, 12146637998669364084, 17157368884712978469, 149421579872863289, 4990703509122231361, 15561585888115575213, 8444020517878950322, 591672357007603357, 17168445266072961336, 4351942371301754975] 13 = [17439252233509255564, 225517064072369678, 15197560361869801136, 8492230603760171635, 10118468664873174202, 12554236390675866429, 12173151878110805572, 9455058762890676721, 9002967087103684324, 9992720627576564325, 17592825898690150793, 4755568919312351197, 9828710851794728048, 16554068888394836059, 8580092000238620822, 4104430996807219279, 11083037563608643568, 16029629053423442691, 18027075810091538878, 321245942758965115, 12925451596010538097, 3580536083181318658, 13705588460631989968, 2207116526748302063, 11336349477551892250] := by decide

/-- Round 14 of the permutation on the `z` state. -/
theorem permRound_z_14 : keccakRound [17439252233509255564, 225517064072369678, 15197560361869801136, 8492230603760171635, 10118468664873174202, 12554236390675866429, 12173151878110805572, 9455058762890676721, 9002967087103684324, 9992720627576564325, 17592825898690150793, 4755568919312351197, 9828710851794728048, 16554068888394836059, 8580092000238620822, 4104430996807219279, 11083037563608643568, 16029629053423442691, 18027075810091538878, 321245942758965115, 12925451596010538097, 3580536083181318658, 13705588460631989968, 2207116526748302063, 11336349477551892250] 14 = [499396319318338511, 16598296433848699861, 15691981808115297129, 10697062245742628075, 17662185775433183365, 15198026603042879035, 17681084710937697917, 17755093159386811165, 14547892052690005938, 15104501572478572213, 286948984759750043, 4662839012690330110, 7340557698684567957, 6044892770335615963, 10415756869583199755, 17381047550606275810, 5486050556617844861, 5053899052200358206, 1279029575438066304, 5815463311262729061, 11540426632486290650, 3026182386453255318, 16537225085018891701, 7167013066012819519, 10141258868901884673] := by decide

/-- Round 15 of the permutation on the `z` state. -/
theorem permRound_z_15 : keccakRound [499396319318338511, 16598296433848699861, 15691981808115297129, 10697062245742628075, 17662185775433183365, 15198026603042879035, 17681084710937697917, 17755093159386811165, 14547892052690005938, 15104501572478572213, 286948984759750043, 4662839012690330110, 7340557698684567957, 6044892770335615963, 10415756869583199755, 17381047550606275810, 5486050556617844861, 5053899052200358206, 1279029575438066304, 5815463311262729061, 11540426632486290650, 3026182386453255318, 16537225085018891701, 7167013066012819519, 10141258868901884673] 15 = [186002755084198633, 7875549592229816171, 9703448628059580448, 6646444096150176270, 3615341345388919404, 3313702318915902065, 10134537690255397471, 8650438741776573648, 4390978572871648799, 14217650920017756974, 9087041697269418990, 14373159467704673966, 5255045852942200727, 10258247457295693610, 15892810380627109876, 14111119864122843793, 7843847541910009792, 8089379539919030870, 1834752850737808486, 14947608865877749509, 110835202157518283, 4177540581383386439, 8393105401651434609, 3159292081379106824, 13891385438665554005] := by decide

/-- Round 16 of the permutation on the `z` state. -/
theorem permRound_z_16 : keccakRound [186002755084198633, 7875549592229816171, 9703448628059580448, 6646444096150176270, 3615341345388919404, 3313702318915902065, 10134537690255397471, 8650438741776573648, 4390978572871648799, 14217650920017756974, 9087041697269418990, 14373159467704673966, 5255045852942200727, 10258247457295693610, 15892810380627109876, 14111119864122843793, 7843847541910009792, 8089379539919030870, 1834752850737808486, 14947608865877749509, 110835202157518283, 4177540581383386439, 8393105401651434609, 3159292081379106824, 13891385438665554005] 16 = [6716291398528649463, 16391965146650181165, 2794497005640006125, 11710730763712689336, 4037405288066120869, 3403361017319292852, 13180373384165051230, 10233231434755573125, 10963788867206603626, 8589604176294192504, 3829608956599346575, 17426361824248781213, 16313352582187060622, 4388287183312660536, 9780889371646087808, 11263013982753163662, 1208546673079813604, 8050592666418949312, 272947985853373533, 9534150378871926847, 10754727055769708014, 16852918939728349808, 6914530605635947640, 3357021228669245880, 8102025041947792827] := by decide

/-- Round 17 of the permutation on the `z` state. -/
theorem permRound_z_17 : keccakRound [6716291398528649463, 16391965146650181165, 2794497005640006125, 11710730763712689336, 4037405288066120869, 3403361017319292852, 13180373384165051230, 10233231434755573125, 10963788867206603626, 8589604176294192504, 3829608956599346575, 17426361824248781213, 16313352582187060622, 4388287183312660536, 9780889371646087808, 11263013982753163662, 1208546673079813604, 8050592666418949312, 272947985853373533, 9534150378871926847, 10754727055769708014, 16852918939728349808, 6914530605635947640, 3357021228669245880, 8102025041947792827] 17 = [18149280721822949722, 539526793548296401, 11661866098113585304, 7100884252528479893, 7469495395882332108, 5460818120427043918, 8742384449443698268, 1361554367008491383, 7085858075342652681, 11138928806790670707, 10459659801701106666, 6179385343127973987, 5123603521173107509, 9266642088453662825, 3610247510912169124, 17535552123380205002, 6248378395162313301, 9561200739418372520, 9600864127987880469, 5804043717017853077, 8306236823340613794, 9785417608908625087, 4206999055586865845, 7900798310843028543, 14412064137475721620] := by decide

/-- Round 18 of the permutation on the `z` state. -/
theorem permRound_z_18 : keccakRound [18149280721822949722, 539526793548296401, 11661866098113585304, 7100884252528479893, 7469495395882332108, 5460818120427043918, 8742384449443698268, 1361554367008491383, 7085858075342652681, 11138928806790670707, 10459659801701106666, 6179385343127973987, 5123603521173107509, 9266642088453662825, 3610247510912169124, 17535552123380205002, 6248378395162313301, 9561200739418372520, 9600864127987880469, 5804043717017853077, 8306236823340613794, 9785417608908625087, 4206999055586865845, 7900798310843028543, 14412064137475721620] 18 = [6457439440067997249, 13777849160320812261, 616247764888011782, 18194773996632560686, 4317179055567775779, 10083899805088772974, 7405719902982344870, 16100953298539987401, 12973085787754562031, 11972577103329552289, 7125480735910323634, 8219049419739706134, 3736733898207096611, 5913531013532143610, 3781114905091265875, 6693617783122012049, 10606185885997594585, 1219971372489852293, 10293467154871768158, 14810438646472817735, 11677429713754339580, 7135791663349222731, 13948538720430871162, 8962078475333775097, 10458764881410098076] := by decide

/-- Round 19 of the permutation on the `z` state. -/
theorem permRound_z_19 : keccakRound [6457439440067997249, 13777849160320812261, 616247764888011782, 18194773996632560686, 4317179055567775779, 10083899805088772974, 7405719902982344870, 16100953298539987401, 12973085787754562031, 11972577103329552289, 7125480735910323634, 8219049419739706134, 3736733898207096611, 5913531013532143610, 3781114905091265875, 6693617783122012049, 10606185885997594585, 1219971372489852293, 10293467154871768158, 14810438646472817735, 11677429713754339580, 7135791663349222731, 13948538720430871162, 8962078475333775097, 10458764881410098076] 19 = [1881051358956524749, 8572342599578983420, 11933814230067883054, 16408968794787853844, 14082361430812143700, 7538106832265153721, 8793108538781928194, 10043264159957555297, 3887159526106900527, 10326454849488601812, 7145899200533365357, 3103641480972357220, 6151549654018979848, 7808537864706395097, 426832309038534551, 1752534105689487068, 12346090185973467920, 12393401280729133898, 3970681348523150730, 6388263871030754969, 12292229775085606426, 2429580131723667355, 12176686534785315901, 6767971518393992046, 5431456042628866740] := by decide

/-- Round 20 of the permutation on the `z` state. -/
theorem permRound_z_20 : keccakRound [1881051358956524749, 8572342599578983420, 11933814230067883054, 16408968794787853844, 14082361430812143700, 7538106832265153721, 8793108538781928194, 10043264159957555297, 3887159526106900527, 10326454849488601812, 7145899200533365357, 3103641480972357220, 6151549654018979848, 7808537864706395097, 426832309038534551, 1752534105689487068, 12346090185973467920, 12393401280729133898, 3970681348523150730, 6388263871030754969, 12292229775085606426, 2429580131723667355, 12176686534785315901, 6767971518393992046, 5431456042628866740] 20 = [14670043827740809541, 10264481673677809263, 17289506751991670883, 14686210873594737935, 17309737919434675575, 8558224471215489306, 9867857203901322237, 665584300878412199, 12663381835802215442, 4375065056720982241, 6610362230856625798, 17129996464193748975, 17482660416114875713, 16106443241972327496, 12838202336223410952, 10866956683475865697, 5817714534208750732, 14903195188729727398, 1181230696816515997, 7674637775517888862, 11697750878443596454, 17842043107102873364, 12213993094098217275, 14655586352935638098, 15842378043616538049] := by decide

/-- Round 21 of the permutation on the `z` state. -/
theorem permRound_z_21 : keccakRound [14670043827740809541, 10264481673677809263, 17289506751991670883, 14686210873594737935, 17309737919434675575, 8558224471215489306, 9867857203901322237, 665584300878412199, 12663381835802215442, 4375065056720982241, 6610362230856625798, 17129996464193748975, 17482660416114875713, 16106443241972327496, 12838202336223410952, 10866956683475865697, 5817714534208750732, 14903195188729727398, 1181230696816515997, 7674637775517888862, 11697750878443596454, 17842043107102873364, 12213993094098217275, 14655586352935638098, 15842378043616538049] 21 = [2149020316059959583, 4480083049744348910, 1273588417966463296, 15766972460458433346, 8560527992384500625, 3686627936143892766, 8755611411202149012, 2832524706795739853, 11201653529761616664, 9520020058357152317, 17377655190274623177, 3088928373660210309, 9529232775671115915, 16066398500001929518, 13818642385023979371, 6938803179744280570, 6153620101357422073, 9113291186175413007, 598736750830588311, 6631432716220780029, 12726974436539949356, 5810384416721007283, 3145999531509890666, 14700409590898811427, 835051425122426489] := by decide

/-- Round 22 of the permutation on the `z` state. -/
theorem permRound_z_22 : keccakRound [2149020316059959583, 4480083049744348910, 1273588417966463296, 15766972460458433346, 8560527992384500625, 3686627936143892766, 8755611411202149012, 2832524706795739853, 11201653529761616664, 9520020058357152317, 17377655190274623177, 3088928373660210309, 9529232775671115915, 16066398500001929518, 13818642385023979371, 6938803179744280570, 6153620101357422073, 9113291186175413007, 598736750830588311, 6631432716220780029, 12726974436539949356, 5810384416721007283, 3145999531509890666, 14700409590898811427, 835051425122426489] 22 = [1021834983209491063, 271587765569717919, 4776059245685303294, 6929972956618907976, 15632760037079799599, 335373011243745427, 4458191160998101431, 1054086133152375554, 2747216341432570284, 16716089959809353091, 18427037088977732910, 8502882582543089190, 15262916258997799331, 1649067881221390653, 16305756012321036251, 6396788823285448910, 16280709970257755463, 968684198036765735, 17453107891981340679, 14208300252181521039, 8344225276973693085, 15466940913106191879, 9691424745450112199, 11326521537916162858, 14617465633943149704] := by decide

/-- Round 23 of the permutation on the `z` state. -/
theorem permRound_z_23 : keccakRound [1021834983209491063, 271587765569717919, 4776059245685303294, 6929972956618907976, 15632760037079799599, 335373011243745427, 4458191160998101431, 1054086133152375554, 2747216341432570284, 16716089959809353091, 18427037088977732910, 8502882582543089190, 15262916258997799331, 1649067881221390653, 16305756012321036251, 6396788823285448910, 16280709970257755463, 968684198036765735, 17453107891981340679, 14208300252181521039, 8344225276973693085, 15466940913106191879, 9691424745450112199, 11326521537916162858, 14617465633943149704] 23 = [17376452488221285863, 9571781953733019530, 15391093639620504046, 13624874521033984333, 10027350355371872343, 18417369716475457492, 10448040663659726788, 10113917136857017974, 12479658147685402012, 3500241080921619556, 16959053435453822517, 12224711289652453635, 9342009439668884831, 4879704952849025062, 140226327413610143, 424854978622500449, 7259519967065370866, 7004910057750291985, 13293599522548616907, 10105770293752443592, 10668034807192757780, 1747952066141424100, 1654286879329379778, 8500057116360352059, 16929593379567477321] := by decide

/-- The full permutation on the `z` state, round lemmas chained. -/
theorem permF_z : keccakF (List.replicate 25 0) = [17376452488221285863, 9571781953733019530, 15391093639620504046, 13624874521033984333, 10027350355371872343, 18417369716475457492, 10448040663659726788, 10113917136857017974, 12479658147685402012, 3500241080921619556, 16959053435453822517, 12224711289652453635, 9342009439668884831, 4879704952849025062, 140226327413610143, 424854978622500449, 7259519967065370866, 7004910057750291985, 13293599522548616907, 10105770293752443592, 10668034807192757780, 1747952066141424100, 1654286879329379778, 8500057116360352059, 16929593379567477321] := by
  show List.foldl keccakRound (List.replicate 25 0) (List.range 24) = [17376452488221285863, 9571781953733019530, 15391093639620504046, 13624874521033984333, 10027350355371872343, 18417369716475457492, 10448040663659726788, 10113917136857017974, 12479658147685402012, 3500241080921619556, 16959053435453822517, 12224711289652453635, 9342009439668884831, 4879704952849025062, 140226327413610143, 424854978622500449, 7259519967065370866, 7004910057750291985, 13293599522548616907, 10105770293752443592, 10668034807192757780, 1747952066141424100, 1654286879329379778, 8500057116360352059, 16929593379567477321]
  rw [range24_eq,
    List.foldl_cons,
    permRound_z_0,
    List.foldl_cons,
    permRound_z_1,
    List.foldl_cons,
    permRound_z_2,
    List.foldl_cons,
    permRound_z_3,
    List.foldl_cons,
    permRound_z_4,
    List.foldl_cons,
    permRound_z_5,
    List.foldl_cons,
    permRound_z_6,
    List.foldl_cons,
    permRound_z_7,
    List.foldl_cons,
    permRound_z_8,
    List.foldl_cons,
    permRound_z_9,
    List.foldl_cons,
    permRound_z_10,
    List.foldl_cons,
    permRound_z_11,
    List.foldl_cons,
    permRound_z_12,
    List.foldl_cons,
    permRound_z_13,
    List.foldl_cons,
    permRound_z_14,
    List.foldl_cons,
    permRound_z_15,
    List.foldl_cons,
    permRound_z_16,
    List.foldl_cons,
    permRound_z_17,
    List.foldl_cons,
    permRound_z_18,
    List.foldl_cons,
    permRound_z_19,
    List.foldl_cons,
    permRound_z_20,
    List.foldl_cons,
    permRound_z_21,
    List.foldl_cons,
    permRound_z_22,
    List.foldl_cons,
    permRound_z_23,
    List.foldl_nil]

/-- Round 0 of the permutation on the `e224` state. -/
theorem permRound_e224_0 : keccakRound [1, 0, 0, 0, 0, 0, 0, 0, 0, 0, 0, 0, 0, 0, 0, 0, 0, 9223372036854775808, 0, 0, 0, 0, 0, 0, 0] 0 = [0, 1048576, 32768, 1048577, 32768, 134217728, 2097152, 0, 134217728, 2097152, 16777216, 512, 16777216, 512, 0, 268435456, 16384, 36028797018963968, 268451840, 36028797018963968, 1099511627776, 18014398509481984, 1099511627776, 0, 18014398509481984] := by decide

/-- Round 1 of the permutation on the `e224` state. -/
theorem permRound_e224_1 : keccakRound [0, 1048576, 32768, 1048577, 32768, 134217728, 2097152, 0, 134217728, 2097152, 16777216, 512, 16777216, 512, 0, 268435456, 16384, 36028797018963968, 268451840, 36028797018963968, 1099511627776, 18014398509481984, 1099511627776, 0, 18014398509481984] 1 = [9687260399254144138, 3459371616040919474, 9705277563995177368, 2324464578664080384, 1188961932677235106, 150052551303110672, 577203077815206752, 4758053006518401152, 2888241262021837680, 6920523153060010176, 144824373983838210, 10376293705013363072, 288936279796744194, 9368056953254707456, 1441153032079376768, 98101159164117012, 9511699171757850720, 3659642916323716, 94749419886411888, 9511954261089534336, 9813625612974494101, 9225764574157119712, 946051142432129045, 6755401588543904, 360441905777254464] := by decide

/-- Round 2 of the permutation on the `e224` state. -/
theorem permRound_e224_2 : keccakRound [9687260399254144138, 3459371616040919474, 9705277563995177368, 2324464578664080384, 1188961932677235106, 150052551303110672, 577203077815206752, 4758053006518401152, 2888241262021837680, 6920523153060010176, 144824373983838210, 10376293705013363072, 288936279796744194, 9368056953254707456, 1441153032079376768, 98101159164117012, 9511699171757850720, 3659642916323716, 94749419886411888, 9511954261089534336, 9813625612974494101, 9225764574157119712, 946051142432129045, 6755401588543904, 360441905777254464] 2 = [4101608121410366155, 4388399164334042624, 12610370959187106382, 5952099033627156500, 639992096156344338, 18327420288347440094, 14929004506517295345, 18061755239389961533, 15030152449076237966, 15546964673872084401, 4140274905296391033, 1044917548048520943, 8988976720124690444, 5239361509804153665, 1091378320573518381, 9539964201716309418, 3233740598651677592, 17494940032056047696, 1288353229113905599, 5154283253232329550, 14972433833197481472, 16070651752897894949, 10190733098046192766, 251400060871975555, 4659473008056189724] := by decide

/-- Round 3 of the permutation on the `e224` state. -/
theorem permRound_e224_3 : keccakRound [4101608121410366155, 4388399164334042624, 12610370959187106382, 5952099033627156500, 639992096156344338, 18327420288347440094, 14929004506517295345, 18061755239389961533, 15030152449076237966, 15546964673872084401, 4140274905296391033, 1044917548048520943, 8988976720124690444, 5239361509804153665, 1091378320573518381, 9539964201716309418, 3233740598651677592, 17494940032056047696, 1288353229113905599, 5154283253232329550, 14972433833197481472, 16070651752897894949, 10190733098046192766, 251400060871975555, 4659473008056189724] 3 = [5881266146009987669, 11269604593831105521, 12673427538108026884, 1729809829135721151, 9845436656203365660, 8572353483895161063, 9839973765257835331, 10985666922746525215, 9158531063910823559, 14947827697690269698, 2808072083463819460, 202640178283566307, 17125683083421463621, 4464268958276240631, 9676066115862270700, 3094314084024491857, 16515777450574295724, 655567351601167476, 5306098343227565333, 17220458696073466002, 43703642279657144, 77820686806751883, 10215918621795730609, 3731908457349011606, 3114205621770663170] := by decide

/-- Round 4 of the permutation on the `e224` state. -/
theorem permRound_e224_4 : keccakRound [5881266146009987669, 11269604593831105521, 12673427538108026884, 1729809829135721151, 9845436656203365660, 8572353483895161063, 9839973765257835331, 10985666922746525215, 9158531063910823559, 14947827697690269698, 2808072083463819460, 202640178283566307, 17125683083421463621, 4464268958276240631, 9676066115862270700, 3094314084024491857, 16515777450574295724, 655567351601167476, 5306098343227565333, 17220458696073466002, 43703642279657144, 77820686806751883, 10215918621795730609, 3731908457349011606, 3114205621770663170] 4 = [17351912588301246609, 13744565959969801790, 6240826210615784661, 2229697780601994574, 1395596643397539893, 11199635125084403847, 16329627198062570927, 17803014531872838174, 2712502508854023455, 9784960960593629283, 3760528184314189856, 15520473071765208139, 9290818970892531194, 11274565136323115017, 16151096248597194594, 232366732830223813, 18172752421441329680, 1760572363806321285, 3918328037381594120, 1254151132161760974, 10671946782019741115, 17068391624989475356, 5413413716647158427, 4678043224510793481, 3799803496027722382] := by decide

/-- Round 5 of the permutation on the `e224` state. -/
theorem permRound_e224_5 : keccakRound [17351912588301246609, 13744565959969801790, 6240826210615784661, 2229697780601994574, 1395596643397539893, 11199635125084403847, 16329627198062570927, 17803014531872838174, 2712502508854023455, 9784960960593629283, 3760528184314189856, 15520473071765208139, 9290818970892531194, 11274565136323115017, 16151096248597194594, 232366732830223813, 18172752421441329680, 1760572363806321285, 3918328037381594120, 1254151132161760974, 10671946782019741115, 17068391624989475356, 5413413716647158427, 4678043224510793481, 3799803496027722382] 5 = [9708195589324241963, 11795381521257320349, 3562627297713644906, 18429429554034676332, 12886988670644591757, 11274795253172866355, 9881049555837839369, 15165882548093280385, 10124331736008734900, 14986852906781351795, 2662009151068664145, 6069971692684762290, 57687921822778776, 12344606744621954560, 6970044272542828042, 16203500796557775747, 18274584228474032848, 5890786928756225532, 11357584523033359596, 16109406150313382474, 728967210772056711, 17031068152005618704, 4458231858670446056, 10284876067583447864, 7242561700012278827] := by decide

/-- Round 6 of the permutation on the `e224` state. -/
theorem permRound_e224_6 : keccakRound [9708195589324241963, 11795381521257320349, 3562627297713644906, 18429429554034676332, 12886988670644591757, 11274795253172866355, 9881049555837839369, 15165882548093280385, 10124331736008734900, 14986852906781351795, 2662009151068664145, 6069971692684762290, 57687921822778776, 12344606744621954560, 6970044272542828042, 16203500796557775747, 18274584228474032848, 5890786928756225532, 11357584523033359596, 16109406150313382474, 728967210772056711, 17031068152005618704, 4458231858670446056, 10284876067583447864, 7242561700012278827] 6 = [6794622816898622629, 15642184745312598817, 5472857581370556502, 10754504410790596084, 4493397478019797780, 6097182107273004813, 13859343442565592043, 10199227641511512704, 10695563797649370173, 8699022858075576848, 17431260831796489242, 15666642325368211099, 15017826094343718062, 563470134440229309, 13435187098751457983, 10138287451065814628, 12308777491809620022, 13964260266620676857, 6560020023715418219, 4903709375034616052, 8276914168607721445, 13346162525763740856, 13308000608686199488, 1699740750853648218, 1179612774146334282] := by decide

/-- Round 7 of the permutation on the `e224` state. -/
theorem permRound_e224_7 : keccakRound [6794622816898622629, 15642184745312598817, 5472857581370556502, 10754504410790596084, 4493397478019797780, 6097182107273004813, 13859343442565592043, 10199227641511512704, 10695563797649370173, 8699022858075576848, 17431260831796489242, 15666642325368211099, 15017826094343718062, 563470134440229309, 13435187098751457983, 10138287451065814628, 12308777491809620022, 13964260266620676857, 6560020023715418219, 4903709375034616052, 8276914168607721445, 13346162525763740856, 13308000608686199488, 1699740750853648218, 1179612774146334282] 7 = [10598354449626823891, 1859322539283223354, 10196815502373592013, 2939299066421288794, 17784307559109941016, 4852579392238169256, 11211686886648545280, 9008985920536438165, 8594254729284791397, 2840597715298387090, 4995588492425356204, 3367082138032547698, 5739798876690212319, 12742791738133960228, 2725694995645915731, 16375560252265304916, 17778376742004591239, 4711881941282012297, 14056681047813415249, 324601890275056912, 515677951508327687, 779263175743179384, 5672437685518791234, 8952374339704431600, 12894944655812672237] := by decide

/-- Round 8 of the permutation on the `e224` state. -/
theorem permRound_e224_8 : keccakRound [10598354449626823891, 1859322539283223354, 10196815502373592013, 2939299066421288794, 17784307559109941016, 4852579392238169256, 11211686886648545280, 9008985920536438165, 8594254729284791397, 2840597715298387090, 4995588492425356204, 3367082138032547698, 5739798876690212319, 12742791738133960228, 2725694995645915731, 16375560252265304916, 17778376742004591239, 4711881941282012297, 14056681047813415249, 324601890275056912, 515677951508327687, 779263175743179384, 5672437685518791234, 8952374339704431600, 12894944655812672237] 8 = [8107928122815079062, 1691060638807201402, 1351600603858642825, 15979549412468129280, 15402843421620489342, 16637768864250590187, 2110833805857674912, 25041190579516933, 14237972865767024769, 3446329936775339312, 3865292971143145490, 6363589051706390273, 13059936813137674268, 345296965659118270, 16002253809335469382, 15583490847036043027, 3139059718195498540, 14534960338561087904, 18347309997142383235, 17424658165013028342, 10968290238522466307, 17343874395994702842, 4597737178939035630, 15222233315408683065, 5323775183431169660] := by decide

/-- Round 9 of the permutation on the `e224` state. -/
theorem permRound_e224_9 : keccakRound [8107928122815079062, 1691060638807201402, 1351600603858642825, 15979549412468129280, 15402843421620489342, 16637768864250590187, 2110833805857674912, 25041190579516933, 14237972865767024769, 3446329936775339312, 3865292971143145490, 6363589051706390273, 13059936813137674268, 345296965659118270, 16002253809335469382, 15583490847036043027, 3139059718195498540, 14534960338561087904, 18347309997142383235, 17424658165013028342, 10968290238522466307, 17343874395994702842, 4597737178939035630, 15222233315408683065, 5323775183431169660] 9 = [9162451301975042311, 7977869265353245247, 14238376044485004145, 11267622028549465136, 8554730913209100736, 4298965597877164065, 2637200395120623295, 16749382670063525465, 14967112026533443003, 4221297383457538049, 13596789583656973362, 11942937828948001981, 13679939937929181568, 8418133905438640389, 8932379610896161533, 5069492390429200228, 16458270775212035367, 15896204800970940513, 6778657672097797688, 4800692615143041059, 17213459342417860870, 12618545967114412752, 8761178057142665075, 15549122645326067880, 14118643664367454910] := by decide

/-- Round 10 of the permutation on the `e224` state. -/
theorem permRound_e224_10 : keccakRound [9162451301975042311, 7977869265353245247, 14238376044485004145, 11267622028549465136, 8554730913209100736, 4298965597877164065, 2637200395120623295, 16749382670063525465, 14967112026533443003, 4221297383457538049, 13596789583656973362, 11942937828948001981, 13679939937929181568, 8418133905438640389, 8932379610896161533, 5069492390429200228, 16458270775212035367, 15896204800970940513, 6778657672097797688, 4800692615143041059, 17213459342417860870, 12618545967114412752, 8761178057142665075, 15549122645326067880, 14118643664367454910] 10 = [9243874806007022654, 13623270359351765048, 6341824750708771596, 9938918640206793562, 5598022041540696904, 10563641426556712127, 5033251260057416123, 10260442966321551538, 1120387881352909375, 15300714660238662544, 7320264172894296, 1591042603025558473, 12863138375776433042, 15086953501191797063, 1731459520503760368, 2642697401903117821, 7455217952207419983, 6348766614830365533, 4037616044335149662, 1359489406597225832, 9919484746203699201, 14423145431992801950, 1445958100250137778, 16522477926096302957, 8634663460404411032] := by decide

/-- Round 11 of the permutation on the `e224` state. -/
theorem permRound_e224_11 : keccakRound [9243874806007022654, 13623270359351765048, 6341824750708771596, 9938918640206793562, 5598022041540696904, 10563641426556712127, 5033251260057416123, 10260442966321551538, 1120387881352909375, 15300714660238662544, 7320264172894296, 1591042603025558473, 12863138375776433042, 15086953501191797063, 1731459520503760368, 2642697401903117821, 7455217952207419983, 6348766614830365533, 4037616044335149662, 1359489406597225832, 9919484746203699201, 14423145431992801950, 1445958100250137778, 16522477926096302957, 8634663460404411032] 11 = [16614345933268241355, 8140012769743286312, 11788548194623236116, 5575156030378436058, 18355378584994026671, 17747521002265953388, 9420028192540465926, 8531517997571306802, 12834226689697280054, 5228180618911511427, 11722251479559036990, 18117059417568719441, 14148148535893773840, 11257355554277177079, 2072007495139572590, 1788981560452977709, 17998817378523374009, 526929170329299872, 5578862717595459257, 13700081532841142137, 1970564417356539885, 9536225578185102541, 1753322193900781852, 13401764951911993828, 13566383919668691188] := by decide

/-- Round 12 of the permutation on the `e224` state. -/
theorem permRound_e224_12 : keccakRound [16614345933268241355, 8140012769743286312, 11788548194623236116, 5575156030378436058, 18355378584994026671, 17747521002265953388, 9420028192540465926, 8531517997571306802, 12834226689697280054, 5228180618911511427, 11722251479559036990, 18117059417568719441, 14148148535893773840, 11257355554277177079, 2072007495139572590, 1788981560452977709, 17998817378523374009, 526929170329299872, 5578862717595459257, 13700081532841142137, 1970564417356539885, 9536225578185102541, 1753322193900781852, 13401764951911993828, 13566383919668691188] 12 = [2589203987630704925, 6009476330774780016, 7837590998884592528, 310572635220243866, 13785557110952613500, 10726521720890324350, 6356826382539868559, 6497214988427090349, 2255892963613718637, 91426467358262834, 11627151907993890351, 7357762966804030723, 11226397405216184183, 4512779418243930176, 17765566922521390033, 17822995554650889501, 18421269608963344326, 18400832039068954783, 6467141974395088415, 18005399149273427741, 6358231902302498596, 621195781315864407, 4938159289838374673, 4711331709940538877, 11705440398563802779] := by decide

/-- Round 13 of the permutation on the `e224` state. -/
theorem permRound_e224_13 : keccakRound [2589203987630704925, 6009476330774780016, 7837590998884592528, 310572635220243866, 13785557110952613500, 10726521720890324350, 6356826382539868559, 6497214988427090349, 2255892963613718637, 91426467358262834, 11627151907993890351, 7357762966804030723, 11226397405216184183, 4512779418243930176, 17765566922521390033, 17822995554650889501, 18421269608963344326, 18400832039068954783, 6467141974395088415, 18005399149273427741, 6358231902302498596, 621195781315864407, 4938159289838374673, 4711331709940538877, 11705440398563802779] 13 = [12119198901041171988, 15188131257585862813, 8979551864248229249, 6847926388279683844, 10173430408925535045, 15758431144414659100, 5641459760925305512, 2408954688751265132, 16236460090756901114, 15045168424803017432, 11489925132385689099, 12655583279960914442, 13355552985305635675, 956054662764274598, 2727333036479332303, 244036271243123180, 10007838171327076387, 10114591011595611096, 2921692727100682188, 11777057472813342544, 17398005978800784593, 17081835552651798393, 2262697936578586621, 4588533479648579946, 9007579796174633344] := by decide

/-- Round 14 of the permutation on the `e224` state. -/
theorem permRound_e224_14 : keccakRound [12119198901041171988, 15188131257585862813, 8979551864248229249, 6847926388279683844, 10173430408925535045, 15758431144414659100, 5641459760925305512, 2408954688751265132, 16236460090756901114, 15045168424803017432, 11489925132385689099, 12655583279960914442, 13355552985305635675, 956054662764274598, 2727333036479332303, 244036271243123180, 10007838171327076387, 10114591011595611096, 2921692727100682188, 11777057472813342544, 17398005978800784593, 17081835552651798393, 2262697936578586621, 4588533479648579946, 9007579796174633344] 14 = [574497611689642207, 14441400478702129717, 12972228575324550035, 12301361176236011623, 10847412179248917437, 5268597426352760645, 11885325774303305427, 410703879047037104, 2378515526883282176, 2637569482502070078, 14739600765923537338, 8440562939955298055, 9355086500247417969, 9406872301666816826, 15912971220424505081, 5375744331067859557, 2020093806942257619, 565457019884694260, 8223790028296603702, 15574611292765448751, 15643611466145456474, 3903887336589867521, 15361679912833886104, 11341910016098122480, 5859791087958548389] := by decide

/-- Round 15 of the permutation on the `e224` state. -/
theorem permRound_e224_15 : keccakRound [574497611689642207, 14441400478702129717, 12972228575324550035, 12301361176236011623, 10847412179248917437, 5268597426352760645, 11885325774303305427, 410703879047037104, 2378515526883282176, 2637569482502070078, 14739600765923537338, 8440562939955298055, 9355086500247417969, 9406872301666816826, 15912971220424505081, 5375744331067859557, 2020093806942257619, 565457019884694260, 8223790028296603702, 15574611292765448751, 15643611466145456474, 3903887336589867521, 15361679912833886104, 11341910016098122480, 5859791087958548389] 15 = [6445216973844309866, 11559428541585397526, 8424471182890028324, 1240964769304670397, 13534316407972472249, 12894049084640633266, 10308298194097673069, 7239958928106630130, 15246713372405965155, 9889996917057685663, 4136073903561451054, 13820882744068828963, 10857084042343325120, 10403806872053488313, 2541054574084829019, 15068098956825275335, 10804146003436352387, 11976189905783559682, 3610358565215763290, 3121162452801054919, 4797151940832255279, 7639718025912111157, 8816981599833735606, 5026448049384026615, 12002531734314741215] := by decide

/-- Round 16 of the permutation on the `e224` state. -/
theorem permRound_e224_16 : keccakRound [6445216973844309866, 11559428541585397526, 8424471182890028324, 1240964769304670397, 13534316407972472249, 12894049084640633266, 10308298194097673069, 7239958928106630130, 15246713372405965155, 9889996917057685663, 4136073903561451054, 13820882744068828963, 10857084042343325120, 10403806872053488313, 2541054574084829019, 15068098956825275335, 10804146003436352387, 11976189905783559682, 3610358565215763290, 3121162452801054919, 4797151940832255279, 7639718025912111157, 8816981599833735606, 5026448049384026615, 12002531734314741215] 16 = [15847526306405934038, 13151484723085092328, 13019301288230868559, 11494842852078927094, 18383140199947226204, 11622818317476666318, 751979415559258639, 6777852167277008354, 4292956300514044960, 9319713629112080728, 10623494390037131676, 14112099873820586648, 3936928121491300711, 3494787025247502740, 1137378213084791527, 2881414542676531827, 12143240179569814783, 9404045442007793017, 2296803804640461442, 1019097779141016671, 13170367445492258201, 15925390330808424865, 2567426524602985627, 18104454749619780971, 9095779433503585790] := by decide

/-- Round 17 of the permutation on the `e224` state. -/
theorem permRound_e224_17 : keccakRound [15847526306405934038, 13151484723085092328, 13019301288230868559, 11494842852078927094, 18383140199947226204, 11622818317476666318, 751979415559258639, 6777852167277008354, 4292956300514044960, 9319713629112080728, 10623494390037131676, 14112099873820586648, 3936928121491300711, 3494787025247502740, 1137378213084791527, 2881414542676531827, 12143240179569814783, 9404045442007793017, 2296803804640461442, 1019097779141016671, 13170367445492258201, 15925390330808424865, 2567426524602985627, 18104454749619780971, 9095779433503585790] 17 = [16993349398557175142, 83731779087347407, 14713683200117349820, 9596715083821824091, 7922464529412718046, 8141535822581657895, 7252956162513961286, 13023351979234653417, 3565916603761660912, 11241851341188438125, 7520164191723342636, 3440959157920337251, 13542797055675352561, 8069885417745689487, 15529667422370180285, 9049546352378997090, 16704744900928108744, 17558426110955017063, 12931290442134631573, 5009461019125645034, 3428166914811721826, 14207275107721464145, 14161367607200522484, 146619063996665206, 13762930646395544172] := by decide

/-- Round 18 of the permutation on the `e224` state. -/
theorem permRound_e224_18 : keccakRound [16993349398557175142, 83731779087347407, 14713683200117349820, 9596715083821824091, 7922464529412718046, 8141535822581657895, 7252956162513961286, 13023351979234653417, 3565916603761660912, 11241851341188438125, 7520164191723342636, 3440959157920337251, 13542797055675352561, 8069885417745689487, 15529667422370180285, 9049546352378997090, 16704744900928108744, 17558426110955017063, 12931290442134631573, 5009461019125645034, 3428166914811721826, 14207275107721464145, 14161367607200522484, 146619063996665206, 13762930646395544172] 18 = [16977827408938571315, 17402153187176003342, 8442913621692055339, 10491356300349275563, 13338302031758066741, 12591603622042068257, 391351129344930695, 2795224184811702802, 12111615089624110978, 3347213387492678151, 10515124544637716227, 18442481102756876646, 6967243649808818715, 13044294966359545469, 12732581457089826762, 7928557895899061963, 17167726503075465611, 8026572475176666424, 4889669902273036061, 15029708526233945021, 5514821666508496668, 16658694411623430579, 15072657227500776637, 5781734344742595516, 10440214564450461165] := by decide

/-- Round 19 of the permutation on the `e224` state. -/
theorem permRound_e224_19 : keccakRound [16977827408938571315, 17402153187176003342, 8442913621692055339, 10491356300349275563, 13338302031758066741, 12591603622042068257, 391351129344930695, 2795224184811702802, 12111615089624110978, 3347213387492678151, 10515124544637716227, 18442481102756876646, 6967243649808818715, 13044294966359545469, 12732581457089826762, 7928557895899061963, 17167726503075465611, 8026572475176666424, 4889669902273036061, 15029708526233945021, 5514821666508496668, 16658694411623430579, 15072657227500776637, 5781734344742595516, 10440214564450461165] 19 = [1788814540993292845, 2880309817916750241, 8616287321242005555, 13441298983126348111, 5369354938842310667, 9468975324927461553, 1214449666678849489, 12718789594497241407, 1902841240521500327, 2675982154295409232, 8776095503659203398, 11565314064013839269, 14032058239177635796, 8205622851722708387, 8139360858426130335, 17843485175459286098, 2665524173263298415, 790858463228685398, 7691419471323401702, 5425549874046995447, 15231993396573168329, 15309046534951685875, 95728438216251599, 4451168434815543391, 424423989028571338] := by decide

/-- Round 20 of the permutation on the `e224` state. -/
theorem permRound_e224_20 : keccakRound [1788814540993292845, 2880309817916750241, 8616287321242005555, 13441298983126348111, 5369354938842310667, 9468975324927461553, 1214449666678849489, 12718789594497241407, 1902841240521500327, 2675982154295409232, 8776095503659203398, 11565314064013839269, 14032058239177635796, 8205622851722708387, 8139360858426130335, 17843485175459286098, 2665524173263298415, 790858463228685398, 7691419471323401702, 5425549874046995447, 15231993396573168329, 15309046534951685875, 95728438216251599, 4451168434815543391, 424423989028571338] 20 = [13212117358566850275, 655603814922087514, 11098549991566714306, 14826275339394208851, 8027417524628800438, 10642926683167278709, 4143424212000073163, 6002866936697352459, 2105938062234264842, 5283039801327197414, 17575889693103394756, 15464961058853757110, 6231832227327576756, 16440965962581279360, 5442997704241255189, 11782009828129144080, 10698241012375446775, 17867408374784839855, 18310844057216193688, 17360774483107994032, 11714683571084022358, 10988723827066730568, 14164523534085683825, 6243859698356006722, 3705380776197708232] := by decide

/-- Round 21 of the permutation on the `e224` state. -/
theorem permRound_e224_21 : keccakRound [13212117358566850275, 655603814922087514, 11098549991566714306, 14826275339394208851, 8027417524628800438, 10642926683167278709, 4143424212000073163, 6002866936697352459, 2105938062234264842, 5283039801327197414, 17575889693103394756, 15464961058853757110, 6231832227327576756, 16440965962581279360, 5442997704241255189, 11782009828129144080, 10698241012375446775, 17867408374784839855, 18310844057216193688, 17360774483107994032, 11714683571084022358, 10988723827066730568, 14164523534085683825, 6243859698356006722, 3705380776197708232] 21 = [4993244883637180463, 6038635205954990731, 6447602181700436416, 12937942118898524112, 17295907084411135192, 11741568714036147980, 637280195812204633, 1013674632278003204, 12575918063990571965, 14611179530764520221, 1543596294060816897, 16491896017698209760, 4300480236100935997, 12321136990860935888, 12098591342627547119, 3853627304252757484, 15147384825695822783, 10461360869607602467, 16635756476506903480, 1883223952906181824, 4807446490354245652, 16966935214935038068, 16842857863338971147, 16322787497461530307, 17459601314162127564] := by decide

/-- Round 22 of the permutation on the `e224` state. -/
theorem permRound_e224_22 : keccakRound [4993244883637180463, 6038635205954990731, 6447602181700436416, 12937942118898524112, 17295907084411135192, 11741568714036147980, 637280195812204633, 1013674632278003204, 12575918063990571965, 14611179530764520221, 1543596294060816897, 16491896017698209760, 4300480236100935997, 12321136990860935888, 12098591342627547119, 3853627304252757484, 15147384825695822783, 10461360869607602467, 16635756476506903480, 1883223952906181824, 4807446490354245652, 16966935214935038068, 16842857863338971147, 16322787497461530307, 17459601314162127564] 22 = [4545951757723956217, 17710277264006302653, 56909311984283896, 15394300281233801916, 2534365728370055926, 3117959892859387231, 17953584637420975438, 12229444899287175841, 3118978813964608365, 3541947759015042095, 17797443168500914787, 17426868256724573721, 13694257594546795933, 3047750944797074407, 7224559899668656051, 10017068624454261205, 9522667405429789704, 12619752352891953573, 4672284118621597757, 1940009695923598517, 5343852452620232325, 1241887492589428818, 7938370933915838185, 2384642474845700922, 797276022350339441] := by decide

/-- Round 23 of the permutation on the `e224` state. -/
theorem permRound_e224_23 : keccakRound [4545951757723956217, 17710277264006302653, 56909311984283896, 15394300281233801916, 2534365728370055926, 3117959892859387231, 17953584637420975438, 12229444899287175841, 3118978813964608365, 3541947759015042095, 17797443168500914787, 17426868256724573721, 13694257594546795933, 3047750944797074407, 7224559899668656051, 10017068624454261205, 9522667405429789704, 12619752352891953573, 4672284118621597757, 1940009695923598517, 5343852452620232325, 1241887492589428818, 7938370933915838185, 2384642474845700922, 797276022350339441] 23 = [639977526046169335, 6176877541796134199, 5200344735588714897, 184317614146337207, 947224849151605598, 17690555048348094065, 7152627473104795388, 310077286062331240, 15264203663305987589, 5605615975320758927, 17707077238806127155, 15348960925259993642, 14979467640463683963, 17392654569590402792, 10049955265851681786, 3594318790459527748, 14842555531677300746, 12462989639408612840, 15279529805162299716, 7072978078338705432, 14019330126752490126, 14841906852019607801, 3067193569906991710, 1975519385132658204, 7279292453026660139] := by decide

/-- The full permutation on the `e224` state, round lemmas chained. -/
theorem permF_e224 : keccakF [1, 0, 0, 0, 0, 0, 0, 0, 0, 0, 0, 0, 0, 0, 0, 0, 0, 9223372036854775808, 0, 0, 0, 0, 0, 0, 0] = [639977526046169335, 6176877541796134199, 5200344735588714897, 184317614146337207, 947224849151605598, 17690555048348094065, 7152627473104795388, 310077286062331240, 15264203663305987589, 5605615975320758927, 17707077238806127155, 15348960925259993642, 14979467640463683963, 17392654569590402792, 10049955265851681786, 3594318790459527748, 14842555531677300746, 12462989639408612840, 15279529805162299716, 7072978078338705432, 14019330126752490126, 14841906852019607801, 3067193569906991710, 1975519385132658204, 7279292453026660139] := by
  show List.foldl keccakRound [1, 0, 0, 0, 0, 0, 0, 0, 0, 0, 0, 0, 0, 0, 0, 0, 0, 9223372036854775808, 0, 0, 0, 0, 0, 0, 0] (List.range 24) = [639977526046169335, 6176877541796134199, 5200344735588714897, 184317614146337207, 947224849151605598, 17690555048348094065, 7152627473104795388, 310077286062331240, 15264203663305987589, 5605615975320758927, 17707077238806127155, 15348960925259993642, 14979467640463683963, 17392654569590402792, 10049955265851681786, 3594318790459527748, 14842555531677300746, 12462989639408612840, 15279529805162299716, 7072978078338705432, 14019330126752490126, 14841906852019607801, 3067193569906991710, 1975519385132658204, 7279292453026660139]
  rw [range24_eq,
    List.foldl_cons,
    permRound_e224_0,
    List.foldl_cons,
    permRound_e224_1,
    List.foldl_cons,
    permRound_e224_2,
    List.foldl_cons,
    permRound_e224_3,
    List.foldl_cons,
    permRound_e224_4,
    List.foldl_cons,
    permRound_e224_5,
    List.foldl_cons,
    permRound_e224_6,
    List.foldl_cons,
    permRound_e224_7,
    List.foldl_cons,
    permRound_e224_8,
    List.foldl_cons,
    permRound_e224_9,
    List.foldl_cons,
    permRound_e224_10,
    List.foldl_cons,
    permRound_e224_11,
    List.foldl_cons,
    permRound_e224_12,
    List.foldl_cons,
    permRound_e224_13,
    List.foldl_cons,
    permRound_e224_14,
    List.foldl_cons,
    permRound_e224_15,
    List.foldl_cons,
    permRound_e224_16,
    List.foldl_cons,
    permRound_e224_17,
    List.foldl_cons,
    permRound_e224_18,
    List.foldl_cons,
    permRound_e224_19,
    List.foldl_cons,
    permRound_e224_20,
    List.foldl_cons,
    permRound_e224_21,
    List.foldl_cons,
    permRound_e224_22,
    List.foldl_cons,
    permRound_e224_23,
    List.foldl_nil]

/-- Round 0 of the permutation on the `a224` state. -/
theorem permRound_a224_0 : keccakRound [23290465, 0, 0, 0, 0, 0, 0, 0, 0, 0, 0, 0, 0, 0, 0, 0, 0, 9223372036854775808, 0, 0, 0, 0, 0, 0, 0] 0 = [23290464, 3901806127164162070, 763180908544, 5464673, 3901806890345070614, 134217728, 7803661097971482668, 0, 7803612254460444716, 48843511037952, 63358144, 11924718080, 16777216, 11878401728, 0, 6251976082423808, 16384, 36028820868399104, 6251986592743424, 36028797018963968, 7143378611590922241, 18014398509481984, 7161393010193566081, 0, 18014398602643840] := by decide

/-- Round 1 of the permutation on the `a224` state. -/
theorem permRound_a224_1 : keccakRound [23290464, 3901806127164162070, 763180908544, 5464673, 3901806890345070614, 134217728, 7803661097971482668, 0, 7803612254460444716, 48843511037952, 63358144, 11924718080, 16777216, 11878401728, 0, 6251976082423808, 16384, 36028820868399104, 6251986592743424, 36028797018963968, 7143378611590922241, 18014398509481984, 7161393010193566081, 0, 18014398602643840] 1 = [2788700227078909450, 1331059159317265589, 10689812912049164550, 14239014072810324483, 17820872824497371816, 16759125176337476500, 16924305361105819587, 403107522046871812, 8013081408845774700, 4347280096363767935, 4433539465937846075, 508989283891366826, 6789648373237046320, 10607186541242066561, 15425836529877976640, 10522924172835301975, 17816386640284156162, 5719295096450945027, 3603054152289149259, 16739385138535620242, 2640049346923045496, 13527178428287600973, 321154150393750007, 15798140432397715121, 15191327877195160459] := by decide

/-- Round 2 of the permutation on the `a224` state. -/
theorem permRound_a224_2 : keccakRound [2788700227078909450, 1331059159317265589, 10689812912049164550, 14239014072810324483, 17820872824497371816, 16759125176337476500, 16924305361105819587, 403107522046871812, 8013081408845774700, 4347280096363767935, 4433539465937846075, 508989283891366826, 6789648373237046320, 10607186541242066561, 15425836529877976640, 10522924172835301975, 17816386640284156162, 5719295096450945027, 3603054152289149259, 16739385138535620242, 2640049346923045496, 13527178428287600973, 321154150393750007, 15798140432397715121, 15191327877195160459] 2 = [16114516927339577594, 5147134957975929088, 2622650113420471755, 11971695749285491718, 13721867335082701596, 15622995843192486325, 15232125028461735426, 14159233383120884379, 14339517533602386423, 11740104792188790891, 13654976668088093460, 15786634232838782855, 14080517975462504381, 14239986474269662102, 9714267758274916936, 12090301586713552842, 9966248609630621530, 10968048643104044158, 88042003704494082, 7140009940045652288, 2718623590331692142, 10629099230866944758, 9522195448887137628, 7877319555564142662, 440189618412602299] := by decide

/-- Round 3 of the permutation on the `a224` state. -/
theorem permRound_a224_3 : keccakRound [16114516927339577594, 5147134957975929088, 2622650113420471755, 11971695749285491718, 13721867335082701596, 15622995843192486325, 15232125028461735426, 14159233383120884379, 14339517533602386423, 11740104792188790891, 13654976668088093460, 15786634232838782855, 14080517975462504381, 14239986474269662102, 9714267758274916936, 12090301586713552842, 9966248609630621530, 10968048643104044158, 88042003704494082, 7140009940045652288, 2718623590331692142, 10629099230866944758, 9522195448887137628, 7877319555564142662, 440189618412602299] 3 = [965233305764521446, 13801063698660035365, 11399447306842053644, 2544977102079806584, 13458985005751117283, 8161461151291519622, 14037212970300321932, 8356091429090426003, 14102584102364333899, 5397269450636275654, 2184569933602890851, 9255786439232776538, 12448777281387219909, 14346041994632150810, 17579975026511774774, 13044371967983843072, 14541651714772520417, 6799923233886050937, 11497336005291962290, 5252475606725668173, 6745662493813043977, 15755663859713633695, 17102569713409858731, 551754589414684258, 15492803782035148425] := by decide

/-- Round 4 of the permutation on the `a224` state. -/
theorem permRound_a224_4 : keccakRound [965233305764521446, 13801063698660035365, 11399447306842053644, 2544977102079806584, 13458985005751117283, 8161461151291519622, 14037212970300321932, 8356091429090426003, 14102584102364333899, 5397269450636275654, 2184569933602890851, 9255786439232776538, 12448777281387219909, 14346041994632150810, 17579975026511774774, 13044371967983843072, 14541651714772520417, 6799923233886050937, 11497336005291962290, 5252475606725668173, 6745662493813043977, 15755663859713633695, 17102569713409858731, 551754589414684258, 15492803782035148425] 4 = [2011875554147315643, 11610658965574924740, 13841762111340802782, 5257992502080478959, 2299765408512167814, 5191994674655785021, 2481125772091067922, 15409342876594693992, 11256288657610552552, 10220041561705556024, 12562633179915864827, 16247442952397347672, 10992031675684916179, 5444175176865393538, 1680125658501498141, 13224346555756463966, 4718264066581554098, 4463909693108324282, 1055827729771390598, 411081269395580576, 14091903852063718783, 3754022663192833564, 1541232989607672867, 10713375129470840746, 16512988906885973650] := by decide

/-- Round 5 of the permutation on the `a224` state. -/
theorem permRound_a224_5 : keccakRound [2011875554147315643, 11610658965574924740, 13841762111340802782, 5257992502080478959, 2299765408512167814, 5191994674655785021, 2481125772091067922, 15409342876594693992, 11256288657610552552, 10220041561705556024, 12562633179915864827, 16247442952397347672, 10992031675684916179, 5444175176865393538, 1680125658501498141, 13224346555756463966, 4718264066581554098, 4463909693108324282, 1055827729771390598, 411081269395580576, 14091903852063718783, 3754022663192833564, 1541232989607672867, 10713375129470840746, 16512988906885973650] 5 = [8783123236082166383, 14315711310060485339, 13464949446274476820, 213760147632951806, 1286172033926233306, 17820859513919430141, 1165610228136122805, 2975786437622520157, 13754785528292766117, 2421629306519255434, 7991463910790038159, 1676358552579819170, 12672608393769352175, 8329850168806746321, 3936834400791783168, 829546144314755823, 2306888374559808134, 12180625023582884745, 495284674460145915, 5813742989380364063, 10949391651635348127, 1909274083150798282, 17508137738677437535, 10856806275733707164, 15013307649869622951] := by decide

/-- Round 6 of the permutation on the `a224` state. -/
theorem permRound_a224_6 : keccakRound [8783123236082166383, 14315711310060485339, 13464949446274476820, 213760147632951806, 1286172033926233306, 17820859513919430141, 1165610228136122805, 2975786437622520157, 13754785528292766117, 2421629306519255434, 7991463910790038159, 1676358552579819170, 12672608393769352175, 8329850168806746321, 3936834400791783168, 829546144314755823, 2306888374559808134, 12180625023582884745, 495284674460145915, 5813742989380364063, 10949391651635348127, 1909274083150798282, 17508137738677437535, 10856806275733707164, 15013307649869622951] 6 = [12597584623910734036, 6377600877997830664, 492497017994463378, 14214594394984425916, 2432012509702786777, 8458367601357574945, 4556150092579238535, 7534443360561130768, 2468098970854433216, 13749174209983254246, 15952505770487963784, 4689563078310635928, 1554041299130877372, 10982234291736431707, 7073947571012082450, 650715719955057267, 5914375751681083155, 5228777412834932416, 6057881693836731522, 8929802790480408016, 226728066863052435, 228201969052625787, 2177905763282272880, 2192154077587331990, 11878782823589900658] := by decide

/-- Round 7 of the permutation on the `a224` state. -/
theorem permRound_a224_7 : keccakRound [12597584623910734036, 6377600877997830664, 492497017994463378, 14214594394984425916, 2432012509702786777, 8458367601357574945, 4556150092579238535, 7534443360561130768, 2468098970854433216, 13749174209983254246, 15952505770487963784, 4689563078310635928, 1554041299130877372, 10982234291736431707, 7073947571012082450, 650715719955057267, 5914375751681083155, 5228777412834932416, 6057881693836731522, 8929802790480408016, 226728066863052435, 228201969052625787, 2177905763282272880, 2192154077587331990, 11878782823589900658] 7 = [7193910694504813718, 8487775694283827909, 4698706183710546812, 3417791349389701053, 16258105876566960202, 17189400243817552006, 12975816156784436185, 9426018054118634472, 11615594358640763677, 3554200062098341221, 11360523278815651888, 6059995970073922057, 11847432039171126059, 1390767285394561109, 8337157542128400917, 12238357176210544007, 16106249970678840270, 9350207260444079196, 7167861018294332166, 1323962889111400520, 6308297272267751138, 7939143161675046873, 9297135945874452097, 5011974463772645350, 8960340582836279284] := by decide

/-- Round 8 of the permutation on the `a224` state. -/
theorem permRound_a224_8 : keccakRound [7193910694504813718, 8487775694283827909, 4698706183710546812, 3417791349389701053, 16258105876566960202, 17189400243817552006, 12975816156784436185, 9426018054118634472, 11615594358640763677, 3554200062098341221, 11360523278815651888, 6059995970073922057, 11847432039171126059, 1390767285394561109, 8337157542128400917, 12238357176210544007, 16106249970678840270, 9350207260444079196, 7167861018294332166, 1323962889111400520, 6308297272267751138, 7939143161675046873, 9297135945874452097, 5011974463772645350, 8960340582836279284] 8 = [17167955832663036554, 8351478284277476865, 4244666009003067053, 17952250227080725508, 16388101669522418360, 323973270840373814, 6510802018701767828, 15129934876336682149, 7729152159504366146, 7661809337691764725, 12311624481806108042, 13455071722145571908, 523123787732624204, 14047139819727278324, 10155061547993561102, 2580035851226763554, 5070445591547532179, 8747055206251574165, 10642744529326311698, 5600673914331011542, 28336745603308435, 13487858186056588321, 15989630438621754823, 15754196600333640845, 9342858372867296585] := by decide

/-- Round 9 of the permutation on the `a224` state. -/
theorem permRound_a224_9 : keccakRound [17167955832663036554, 8351478284277476865, 4244666009003067053, 17952250227080725508, 16388101669522418360, 323973270840373814, 6510802018701767828, 15129934876336682149, 7729152159504366146, 7661809337691764725, 12311624481806108042, 13455071722145571908, 523123787732624204, 14047139819727278324, 10155061547993561102, 2580035851226763554, 5070445591547532179, 8747055206251574165, 10642744529326311698, 5600673914331011542, 28336745603308435, 13487858186056588321, 15989630438621754823, 15754196600333640845, 9342858372867296585] 9 = [17567491414454669368, 3987865510657780444, 1076845100722797024, 17521505067768225271, 13862480693048310246, 15803392067316959578, 8070900436791090650, 4587415616993907866, 2211149321529138272, 17299779636090760447, 6778108326447794137, 11809521506634187569, 3318622516608719245, 11965707484298969031, 15192609057482765570, 12209636524835373138, 1198821447332966565, 5255411094613637297, 14567310479161006664, 3495918965137745213, 10441000153696802661, 1647313814521775351, 10370408044476411311, 8485487849131503668, 4693046215737030315] := by decide

/-- Round 10 of the permutation on the `a224` state. -/
theorem permRound_a224_10 : keccakRound [17567491414454669368, 3987865510657780444, 1076845100722797024, 17521505067768225271, 13862480693048310246, 15803392067316959578, 8070900436791090650, 4587415616993907866, 2211149321529138272, 17299779636090760447, 6778108326447794137, 11809521506634187569, 3318622516608719245, 11965707484298969031, 15192609057482765570, 12209636524835373138, 1198821447332966565, 5255411094613637297, 14567310479161006664, 3495918965137745213, 10441000153696802661, 1647313814521775351, 10370408044476411311, 8485487849131503668, 4693046215737030315] 10 = [12528045452342698615, 12756473021931796061, 13729996421516951948, 1742974210664738414, 9734291357088830173, 2437525645968260991, 2488160618094240871, 4940329713698143450, 18022310953906340829, 16769327252184848562, 568904983095923525, 7587149859884181909, 15581841835960413123, 13888986970521225567, 14982990515434238282, 370788244317798790, 12813357528395575063, 12809405397688249719, 1138840228712620464, 8957995628449905447, 2573480040853239527, 2122988611917001001, 10011516662392789939, 6113329728431122160, 17135974960054877099] := by decide

/-- Round 11 of the permutation on the `a224` state. -/
theorem permRound_a224_11 : keccakRound [12528045452342698615, 12756473021931796061, 13729996421516951948, 1742974210664738414, 9734291357088830173, 2437525645968260991, 2488160618094240871, 4940329713698143450, 18022310953906340829, 16769327252184848562, 568904983095923525, 7587149859884181909, 15581841835960413123, 13888986970521225567, 14982990515434238282, 370788244317798790, 12813357528395575063, 12809405397688249719, 1138840228712620464, 8957995628449905447, 2573480040853239527, 2122988611917001001, 10011516662392789939, 6113329728431122160, 17135974960054877099] 11 = [4089649518798583524, 8425838919370641997, 6792083454167578234, 15704359075954225035, 14660490040391940781, 18300077009325864126, 1798901305462643760, 15196819229086392178, 7553884852716828409, 5039527986934591278, 15920280052885325474, 9070031433168144123, 17953094468280529372, 9092331740700071773, 3153253637849021173, 14954845285046747221, 5568348422495997665, 703720802656239481, 6342854143742126870, 16387141693343129107, 6219053496594087380, 4828518083099142218, 6028133229060480927, 2973663430173730093, 2402712478516290228] := by decide

/-- Round 12 of the permutation on the `a224` state. -/
theorem permRound_a224_12 : keccakRound [4089649518798583524, 8425838919370641997, 6792083454167578234, 15704359075954225035, 14660490040391940781, 18300077009325864126, 1798901305462643760, 15196819229086392178, 7553884852716828409, 5039527986934591278, 15920280052885325474, 9070031433168144123, 17953094468280529372, 9092331740700071773, 3153253637849021173, 14954845285046747221, 5568348422495997665, 703720802656239481, 6342854143742126870, 16387141693343129107, 6219053496594087380, 4828518083099142218, 6028133229060480927, 2973663430173730093, 2402712478516290228] 12 = [14131953234218971636, 6364420068055384814, 6971239659524771290, 7037474899742308461, 17005593409048995141, 13791761218285803334, 3217669284420324844, 4764015952827187564, 9338095436043560799, 7356323839757510282, 6063454891880920736, 9007498255527640560, 2703838186595835009, 2378332355383030364, 8344394375219409400, 1650675671002896674, 14844903940072930385, 1569919316407521432, 13136272714309760490, 15406765844147445547, 10337107306330947101, 7268629966336456669, 2577265472407707478, 6668623231692728190, 4893672454073975998] := by decide

/-- Round 13 of the permutation on the `a224` state. -/
theorem permRound_a224_13 : keccakRound [14131953234218971636, 6364420068055384814, 6971239659524771290, 7037474899742308461, 17005593409048995141, 13791761218285803334, 3217669284420324844, 4764015952827187564, 9338095436043560799, 7356323839757510282, 6063454891880920736, 9007498255527640560, 2703838186595835009, 2378332355383030364, 8344394375219409400, 1650675671002896674, 14844903940072930385, 1569919316407521432, 13136272714309760490, 15406765844147445547, 10337107306330947101, 7268629966336456669, 2577265472407707478, 6668623231692728190, 4893672454073975998] 13 = [9165845281403895552, 14804668526699047503, 7944488052567588653, 9675029592599640372, 3932934684497264944, 12597692258288845346, 4458782330600064766, 17593107293933170672, 16322453899901814640, 10070961125163730919, 6559015981076158067, 3779460199646097711, 4300889357006386005, 13174039924862586515, 15992555985789711083, 1099768388254161113, 14261150445354020460, 15580379535461497479, 8784316701028710618, 2565533624632238607, 2583044172557898454, 16227439115601056365, 14398896529979620450, 17626071341816856718, 1226184114042698795] := by decide

/-- Round 14 of the permutation on the `a224` state. -/
theorem permRound_a224_14 : keccakRound [9165845281403895552, 14804668526699047503, 7944488052567588653, 9675029592599640372, 3932934684497264944, 12597692258288845346, 4458782330600064766, 17593107293933170672, 16322453899901814640, 10070961125163730919, 6559015981076158067, 3779460199646097711, 4300889357006386005, 13174039924862586515, 15992555985789711083, 1099768388254161113, 14261150445354020460, 15580379535461497479, 8784316701028710618, 2565533624632238607, 2583044172557898454, 16227439115601056365, 14398896529979620450, 17626071341816856718, 1226184114042698795] 14 = [17111847616180598714, 6861021194078674155, 12546823566202779123, 10880372351093367051, 7524854052553050214, 4255904399255614558, 690811477130052028, 7577084698974649134, 6389503930491742263, 8298453979599546430, 7826627384165139968, 13107017791203437130, 506329227161747861, 3128987148396540068, 5973013245194345987, 15038480062234116592, 7008313588147332561, 2361090907031871272, 15715621007169899372, 17917109426082698228, 14784290759212370729, 4377498444188518203, 10753587554015166407, 13506224243780817801, 18370633271516586930] := by decide

/-- Round 15 of the permutation on the `a224` state. -/
theorem permRound_a224_15 : keccakRound [17111847616180598714, 6861021194078674155, 12546823566202779123, 10880372351093367051, 7524854052553050214, 4255904399255614558, 690811477130052028, 7577084698974649134, 6389503930491742263, 8298453979599546430, 7826627384165139968, 13107017791203437130, 506329227161747861, 3128987148396540068, 5973013245194345987, 15038480062234116592, 7008313588147332561, 2361090907031871272, 15715621007169899372, 17917109426082698228, 14784290759212370729, 4377498444188518203, 10753587554015166407, 13506224243780817801, 18370633271516586930] 15 = [819535762957816591, 11697244754045486777, 17633802052125723212, 16842346990069535922, 9312170085045439768, 6916372882164089321, 12410656828092021621, 17337631332947659419, 7902974694427388628, 14152178130052900617, 3731266670639914096, 16975240975136291477, 15415207062367471965, 4602709390414115618, 4109165906317278765, 5728159365502277565, 9794500794450208135, 849632368609781604, 15246398871438876459, 346875510173361056, 14703419715850952077, 16506049212811794508, 14930869751966685562, 3981188187313820645, 15003135952811220833] := by decide

/-- Round 16 of the permutation on the `a224` state. -/
theorem permRound_a224_16 : keccakRound [819535762957816591, 11697244754045486777, 17633802052125723212, 16842346990069535922, 9312170085045439768, 6916372882164089321, 12410656828092021621, 17337631332947659419, 7902974694427388628, 14152178130052900617, 3731266670639914096, 16975240975136291477, 15415207062367471965, 4602709390414115618, 4109165906317278765, 5728159365502277565, 9794500794450208135, 849632368609781604, 15246398871438876459, 346875510173361056, 14703419715850952077, 16506049212811794508, 14930869751966685562, 3981188187313820645, 15003135952811220833] 16 = [823906892462115541, 11035989761524742858, 8634130344012508419, 9667987356724032682, 6232697852824236523, 1218033938318882541, 7308520565509048278, 13098856080120023375, 13970468635340751828, 13530930298126845213, 5799769421640260326, 3757620295751755633, 13696496649061519260, 1790957340586096539, 1061737192860233703, 1246677198680963408, 13036111802084317999, 16055935469779421859, 11207319527204329857, 3374254895163653402, 3545655810587753203, 9011841339667335670, 15785223841813933707, 12943462818314032832, 16234168947751833100] := by decide

/-- Round 17 of the permutation on the `a224` state. -/
theorem permRound_a224_17 : keccakRound [823906892462115541, 11035989761524742858, 8634130344012508419, 9667987356724032682, 6232697852824236523, 1218033938318882541, 7308520565509048278, 13098856080120023375, 13970468635340751828, 13530930298126845213, 5799769421640260326, 3757620295751755633, 13696496649061519260, 1790957340586096539, 1061737192860233703, 1246677198680963408, 13036111802084317999, 16055935469779421859, 11207319527204329857, 3374254895163653402, 3545655810587753203, 9011841339667335670, 15785223841813933707, 12943462818314032832, 16234168947751833100] 17 = [16491357697370993514, 13462726958738259373, 3664650796359404694, 1712644441460968629, 15877673000839453790, 13122797385676469687, 3094987562469121388, 13613704533809109061, 12408911256247464864, 17184774531879710054, 7363689243804389510, 1911521265834765396, 6973259500273823244, 17434850037912519682, 7425256858557142594, 14531314970193339715, 8139386077816141416, 17212593237147514865, 7136791376951212168, 488412567847770089, 9838229905731023279, 1256692068429074634, 18147356228482073211, 2954439648021950684, 9610055582831201711] := by decide

/-- Round 18 of the permutation on the `a224` state. -/
theorem permRound_a224_18 : keccakRound [16491357697370993514, 13462726958738259373, 3664650796359404694, 1712644441460968629, 15877673000839453790, 13122797385676469687, 3094987562469121388, 13613704533809109061, 12408911256247464864, 17184774531879710054, 7363689243804389510, 1911521265834765396, 6973259500273823244, 17434850037912519682, 7425256858557142594, 14531314970193339715, 8139386077816141416, 17212593237147514865, 7136791376951212168, 488412567847770089, 9838229905731023279, 1256692068429074634, 18147356228482073211, 2954439648021950684, 9610055582831201711] 18 = [9737760577671252542, 10121588428760541426, 7430920133736036807, 8390695447328584325, 14424665815741152126, 11014913790261602221, 12949381498367274101, 8389361591207448107, 4165494102939629403, 6935274136804882905, 8757890308626022858, 10711695873991261521, 882642726487389867, 699439715721709261, 2151712988865895886, 7334382760955384489, 2141334244537947134, 4373203676140740198, 3729696540434071643, 16882471716097129795, 18408673128641581761, 14336459386016599347, 5652696666872398985, 8845246769893309720, 5559480628666832760] := by decide

/-- Round 19 of the permutation on the `a224` state. -/
theorem permRound_a224_19 : keccakRound [9737760577671252542, 10121588428760541426, 7430920133736036807, 8390695447328584325, 14424665815741152126, 11014913790261602221, 12949381498367274101, 8389361591207448107, 4165494102939629403, 6935274136804882905, 8757890308626022858, 10711695873991261521, 882642726487389867, 699439715721709261, 2151712988865895886, 7334382760955384489, 2141334244537947134, 4373203676140740198, 3729696540434071643, 16882471716097129795, 18408673128641581761, 14336459386016599347, 5652696666872398985, 8845246769893309720, 5559480628666832760] 19 = [10215797394534143298, 567750184691714540, 5289938802794537535, 5547459527666266268, 8140574277214987853, 16086965872694747239, 16274124440923104087, 6893751360306239062, 14443544719882464477, 7206261953434263678, 6835615001304463111, 15451342542536991771, 12623507081736417891, 11330736440286425403, 11718997554876397146, 13215867541764022912, 1393684398830260846, 17940211620874077761, 3930100741595712323, 1452343040304652256, 9732160849064048671, 2898771222613335675, 323619687123455361, 332054076128803884, 12394967880616959755] := by decide

/-- Round 20 of the permutation on the `a224` state. -/
theorem permRound_a224_20 : keccakRound [10215797394534143298, 567750184691714540, 5289938802794537535, 5547459527666266268, 8140574277214987853, 16086965872694747239, 16274124440923104087, 6893751360306239062, 14443544719882464477, 7206261953434263678, 6835615001304463111, 15451342542536991771, 12623507081736417891, 11330736440286425403, 11718997554876397146, 13215867541764022912, 1393684398830260846, 17940211620874077761, 3930100741595712323, 1452343040304652256, 9732160849064048671, 2898771222613335675, 323619687123455361, 332054076128803884, 12394967880616959755] 20 = [1579710101917261839, 13826048068632550043, 12981493269499893420, 14158645670349235172, 5366705035614430374, 14982532343730443510, 1633121609765352809, 4587937824829748344, 17781883093420252269, 15781238840356095595, 7115230902852047292, 963581820383574848, 42808651605550703, 18052140795449118404, 18176468890267573848, 13170654420647097128, 1497812876654403513, 11611232991608360082, 6041269212733207145, 11692829807821036480, 15511479986086731031, 3019860458613151680, 9376420179874749439, 2750223253324058223, 8348482496933033866] := by decide

/-- Round 21 of the permutation on the `a224` state. -/
theorem permRound_a224_21 : keccakRound [1579710101917261839, 13826048068632550043, 12981493269499893420, 14158645670349235172, 5366705035614430374, 14982532343730443510, 1633121609765352809, 4587937824829748344, 17781883093420252269, 15781238840356095595, 7115230902852047292, 963581820383574848, 42808651605550703, 18052140795449118404, 18176468890267573848, 13170654420647097128, 1497812876654403513, 11611232991608360082, 6041269212733207145, 11692829807821036480, 15511479986086731031, 3019860458613151680, 9376420179874749439, 2750223253324058223, 8348482496933033866] 21 = [13484852225071364995, 4895317773383123362, 11602281525052679639, 11553162735751580110, 4656500823787118515, 7449038913470920203, 14843413029233584919, 7754421160915289523, 8578379467194914274, 17621644861282470624, 17135450152461262040, 8868527564693229467, 13871652540487776595, 17855171028721006117, 8802241430387779350, 8388948238373366474, 15821099177616808017, 15070805578506748984, 4020669166245471572, 10372889946958900073, 606379376468624444, 2317013651902013911, 11369611023218956623, 4257256764013044896, 9232149120840592669] := by decide

/-- Round 22 of the permutation on the `a224` state. -/
theorem permRound_a224_22 : keccakRound [13484852225071364995, 4895317773383123362, 11602281525052679639, 11553162735751580110, 4656500823787118515, 7449038913470920203, 14843413029233584919, 7754421160915289523, 8578379467194914274, 17621644861282470624, 17135450152461262040, 8868527564693229467, 13871652540487776595, 17855171028721006117, 8802241430387779350, 8388948238373366474, 15821099177616808017, 15070805578506748984, 4020669166245471572, 10372889946958900073, 606379376468624444, 2317013651902013911, 11369611023218956623, 4257256764013044896, 9232149120840592669] 22 = [5169731882538497763, 11520544096987962515, 11913510376502498448, 16085372807511188424, 2208539720259667147, 382277432980398543, 15954267958991990681, 12830943449110865288, 9506790005485933314, 7061136410564720211, 10493821338718498697, 5212168240545493111, 10303504446531113219, 11798397481811145785, 8794586434187445210, 14366176357184739094, 18193899055841883110, 7068948395739739821, 5768681697682854298, 12384689515831533864, 8930408494049927843, 15032773475914045049, 14378264939698152504, 5333005505936979597, 81641962624458651] := by decide

/-- Round 23 of the permutation on the `a224` state. -/
theorem permRound_a224_23 : keccakRound [5169731882538497763, 11520544096987962515, 11913510376502498448, 16085372807511188424, 2208539720259667147, 382277432980398543, 15954267958991990681, 12830943449110865288, 9506790005485933314, 7061136410564720211, 10493821338718498697, 5212168240545493111, 10303504446531113219, 11798397481811145785, 8794586434187445210, 14366176357184739094, 18193899055841883110, 7068948395739739821, 5768681697682854298, 12384689515831533864, 8930408494049927843, 15032773475914045049, 14378264939698152504, 5333005505936979597, 81641962624458651] 23 = [16279112448342033603, 4070665696078170050, 10924336522780161247, 11918126463561653929, 14919019349319190465, 11152804985656597377, 5338588602357491114, 10926409863415850339, 8754274143742153279, 5000839956584676500, 6241245954781769239, 9926907057410754759, 14643583328058576839, 7652100361965823364, 5531994991894421546, 7660862290046055566, 9774816255155016588, 5990505252753077623, 3724239910755059603, 7278766044281249563, 15737195152467356846, 2842346376104182331, 2823122774543524409, 17864175264116653084, 4119298550861720518] := by decide

/-- The full permutation on the `a224` state, round lemmas chained. -/
theorem permF_a224 : keccakF [23290465, 0, 0, 0, 0, 0, 0, 0, 0, 0, 0, 0, 0, 0, 0, 0, 0, 9223372036854775808, 0, 0, 0, 0, 0, 0, 0] = [16279112448342033603, 4070665696078170050, 10924336522780161247, 11918126463561653929, 14919019349319190465, 11152804985656597377, 5338588602357491114, 10926409863415850339, 8754274143742153279, 5000839956584676500, 6241245954781769239, 9926907057410754759, 14643583328058576839, 7652100361965823364, 5531994991894421546, 7660862290046055566, 9774816255155016588, 5990505252753077623, 3724239910755059603, 7278766044281249563, 15737195152467356846, 2842346376104182331, 2823122774543524409, 17864175264116653084, 4119298550861720518] := by
  show List.foldl keccakRound [23290465, 0, 0, 0, 0, 0, 0, 0, 0, 0, 0, 0, 0, 0, 0, 0, 0, 9223372036854775808, 0, 0, 0, 0, 0, 0, 0] (List.range 24) = [16279112448342033603, 4070665696078170050, 10924336522780161247, 11918126463561653929, 14919019349319190465, 11152804985656597377, 5338588602357491114, 10926409863415850339, 8754274143742153279, 5000839956584676500, 6241245954781769239, 9926907057410754759, 14643583328058576839, 7652100361965823364, 5531994991894421546, 7660862290046055566, 9774816255155016588, 5990505252753077623, 3724239910755059603, 7278766044281249563, 15737195152467356846, 2842346376104182331, 2823122774543524409, 17864175264116653084, 4119298550861720518]
  rw [range24_eq,
    List.foldl_cons,
    permRound_a224_0,
    List.foldl_cons,
    permRound_a224_1,
    List.foldl_cons,
    permRound_a224_2,
    List.foldl_cons,
    permRound_a224_3,
    List.foldl_cons,
    permRound_a224_4,
    List.foldl_cons,
    permRound_a224_5,
    List.foldl_cons,
    permRound_a224_6,
    List.foldl_cons,
    permRound_a224_7,
    List.foldl_cons,
    permRound_a224_8,
    List.foldl_cons,
    permRound_a224_9,
    List.foldl_cons,
    permRound_a224_10,
    List.foldl_cons,
    permRound_a224_11,
    List.foldl_cons,
    permRound_a224_12,
    List.foldl_cons,
    permRound_a224_13,
    List.foldl_cons,
    permRound_a224_14,
    List.foldl_cons,
    permRound_a224_15,
    List.foldl_cons,
    permRound_a224_16,
    List.foldl_cons,
    permRound_a224_17,
    List.foldl_cons,
    permRound_a224_18,
    List.foldl_cons,
    permRound_a224_19,
    List.foldl_cons,
    permRound_a224_20,
    List.foldl_cons,
    permRound_a224_21,
    List.foldl_cons,
    permRound_a224_22,
    List.foldl_cons,
    permRound_a224_23,
    List.foldl_nil]

/-- Round 0 of the permutation on the `e256` state. -/
theorem permRound_e256_0 : keccakRound [1, 0, 0, 0, 0, 0, 0, 0, 0, 0, 0, 0, 0, 0, 0, 0, 9223372036854775808, 0, 0, 0, 0, 0, 0, 0, 0] 0 = [4398046511105, 17592186044416, 4398046543872, 0, 17592186077184, 8, 52776560230400, 1152921504606846984, 52776558133248, 1152921504608944128, 2, 544, 262144, 514, 262176, 268436480, 68719493120, 1024, 268451840, 68719476736, 2305844108725321728, 2199023255552, 1099511627780, 2305845208236949504, 4] := by decide

/-- Round 1 of the permutation on the `e256` state. -/
theorem permRound_e256_1 : keccakRound [4398046511105, 17592186044416, 4398046543872, 0, 17592186077184, 8, 52776560230400, 1152921504606846984, 52776558133248, 1152921504608944128, 2, 544, 262144, 514, 262176, 268436480, 68719493120, 1024, 268451840, 68719476736, 2305844108725321728, 2199023255552, 1099511627780, 2305845208236949504, 4] 1 = [3904711243048682726, 1207872589841957126, 3184368193241127169, 12971028319727649889, 10286551402689075458, 1259783720018274, 12214679202016067586, 9224121225299901428, 2992272534782738451, 9800689182623078597, 4611726720294328428, 11685850236297012, 1495365005022904395, 15813382930697286, 6111808659584533265, 124981832595311936, 2684240834651972352, 4912301736543682948, 2488263262048755776, 4778390286886047620, 1163347847091065233, 16868443555924821730, 154580546982776916, 15564660919037354401, 2456770817776948750] := by decide

/-- Round 2 of the permutation on the `e256` state. -/
theorem permRound_e256_2 : keccakRound [3904711243048682726, 1207872589841957126, 3184368193241127169, 12971028319727649889, 10286551402689075458, 1259783720018274, 12214679202016067586, 9224121225299901428, 2992272534782738451, 9800689182623078597, 4611726720294328428, 11685850236297012, 1495365005022904395, 15813382930697286, 6111808659584533265, 124981832595311936, 2684240834651972352, 4912301736543682948, 2488263262048755776, 4778390286886047620, 1163347847091065233, 16868443555924821730, 154580546982776916, 15564660919037354401, 2456770817776948750] 2 = [8289102824591434380, 2650440079073489379, 11459863657423534455, 3078203046191370419, 10243614441579508732, 6715684478468316285, 9021721613749738627, 16323907559936263589, 14712371453287876238, 13207516449244145029, 6716728777335539109, 2516792122779427716, 5461754274945430388, 3341045827627689583, 3296329752392194682, 14297203439033465259, 11493424483223189197, 10504499887245279853, 3308135633588744113, 5098721825536174192, 8664368315221462042, 11716894083276002874, 2098923162028634215, 7303567510403455548, 4883930803803657273] := by decide

/-- Round 3 of the permutation on the `e256` state. -/
theorem permRound_e256_3 : keccakRound [8289102824591434380, 2650440079073489379, 11459863657423534455, 3078203046191370419, 10243614441579508732, 6715684478468316285, 9021721613749738627, 16323907559936263589, 14712371453287876238, 13207516449244145029, 6716728777335539109, 2516792122779427716, 5461754274945430388, 3341045827627689583, 3296329752392194682, 14297203439033465259, 11493424483223189197, 10504499887245279853, 3308135633588744113, 5098721825536174192, 8664368315221462042, 11716894083276002874, 2098923162028634215, 7303567510403455548, 4883930803803657273] 3 = [9145702616912342758, 16632607361196628137, 5807045512169203855, 6548049296825423573, 2911560703121806936, 12452414146356170408, 431667818003843456, 4945739612319476974, 12460092556240016733, 7658648394962756264, 13350366495830902207, 1953387479264944757, 17420282858972716739, 1215582556029742168, 7692344429658740155, 17977349082556873670, 1858614526669458582, 10964871947398476332, 15514956647893279288, 179932933774914631, 17508529487041048502, 7503018368851633981, 929261442150911620, 2851383533632874710, 7153482467733786193] := by decide

/-- Round 4 of the permutation on the `e256` state. -/
theorem permRound_e256_4 : keccakRound [9145702616912342758, 16632607361196628137, 5807045512169203855, 6548049296825423573, 2911560703121806936, 12452414146356170408, 431667818003843456, 4945739612319476974, 12460092556240016733, 7658648394962756264, 13350366495830902207, 1953387479264944757, 17420282858972716739, 1215582556029742168, 7692344429658740155, 17977349082556873670, 1858614526669458582, 10964871947398476332, 15514956647893279288, 179932933774914631, 17508529487041048502, 7503018368851633981, 929261442150911620, 2851383533632874710, 7153482467733786193] 4 = [3217695626026700231, 7228520851561084131, 7840336919730310393, 6868346474795808920, 5817928043512098185, 483728965144457366, 2094125954139152251, 13290615271988912878, 6116732081573619054, 12404040371124941288, 5210583702804515577, 6569965374713754428, 9650717987591950737, 1838917144515589093, 6206879949013857101, 13836215650485784034, 2777104299206127432, 9162378715153818446, 2579248593664187030, 4649761399498197408, 4345672674621089333, 17727600499527599874, 15951120162837397783, 1486441073599636038, 7526975559096822753] := by decide

/-- Round 5 of the permutation on the `e256` state. -/
theorem permRound_e256_5 : keccakRound [3217695626026700231, 7228520851561084131, 7840336919730310393, 6868346474795808920, 5817928043512098185, 483728965144457366, 2094125954139152251, 13290615271988912878, 6116732081573619054, 12404040371124941288, 5210583702804515577, 6569965374713754428, 9650717987591950737, 1838917144515589093, 6206879949013857101, 13836215650485784034, 2777104299206127432, 9162378715153818446, 2579248593664187030, 4649761399498197408, 4345672674621089333, 17727600499527599874, 15951120162837397783, 1486441073599636038, 7526975559096822753] 5 = [248066060412482913, 10809642231442205384, 5504895099598155415, 2584332703152910123, 10449879252273190592, 13355132533173292400, 16887410369553470650, 1390404604944908871, 10467819199160078225, 12586248386544345989, 13287309445471910499, 9168388512907289048, 10117223767413104261, 15763460986669702239, 10756186891316440689, 4278624213941474887, 14275455272196532991, 18250878328984007816, 4482727192120861170, 9721683024389909677, 9163772564863624264, 8489753604216688595, 816201186782976613, 1144184611068540487, 4128866423754115227] := by decide

/-- Round 6 of the permutation on the `e256` state. -/
theorem permRound_e256_6 : keccakRound [248066060412482913, 10809642231442205384, 5504895099598155415, 2584332703152910123, 10449879252273190592, 13355132533173292400, 16887410369553470650, 1390404604944908871, 10467819199160078225, 12586248386544345989, 13287309445471910499, 9168388512907289048, 10117223767413104261, 15763460986669702239, 10756186891316440689, 4278624213941474887, 14275455272196532991, 18250878328984007816, 4482727192120861170, 9721683024389909677, 9163772564863624264, 8489753604216688595, 816201186782976613, 1144184611068540487, 4128866423754115227] 6 = [18402963122672406245, 17859514631694764789, 14428715717768966649, 457031613351869429, 10894224858909162407, 8575137199002047859, 17809232792270138362, 4808146580191774126, 14627578404221294643, 7601016815347446848, 8500045888007553416, 2044036892383418708, 15900193137531961059, 8052354359019095129, 17216125304898466993, 16993524951797960044, 5609346022144275528, 15760809127494505806, 8446841439649264471, 18088848446523253189, 8270102827973632420, 9423595931552552983, 16228370102390044934, 12045389637071608679, 7056785534201200939] := by decide

/-- Round 7 of the permutation on the `e256` state. -/
theorem permRound_e256_7 : keccakRound [18402963122672406245, 17859514631694764789, 14428715717768966649, 457031613351869429, 10894224858909162407, 8575137199002047859, 17809232792270138362, 4808146580191774126, 14627578404221294643, 7601016815347446848, 8500045888007553416, 2044036892383418708, 15900193137531961059, 8052354359019095129, 17216125304898466993, 16993524951797960044, 5609346022144275528, 15760809127494505806, 8446841439649264471, 18088848446523253189, 8270102827973632420, 9423595931552552983, 16228370102390044934, 12045389637071608679, 7056785534201200939] 7 = [12753376061805899333, 2111981560556758208, 13166824882716378987, 12172034681548868104, 16455514320282466043, 3265329870635658802, 5063956176412677616, 15307341599108955523, 17042901249887048594, 15606817482875957131, 12401061165045441397, 14112825205738012444, 7528182654139171963, 679949399121675847, 16110029214220444666, 16075443586991710645, 11809122633193920135, 824682708434772612, 9546558219524207792, 14570838741769169544, 16015354101246307490, 14937681164076894612, 16170554185854218030, 13411014959602602192, 17659497305141992864] := by decide

/-- Round 8 of the permutation on the `e256` state. -/
theorem permRound_e256_8 : keccakRound [12753376061805899333, 2111981560556758208, 13166824882716378987, 12172034681548868104, 16455514320282466043, 3265329870635658802, 5063956176412677616, 15307341599108955523, 17042901249887048594, 15606817482875957131, 12401061165045441397, 14112825205738012444, 7528182654139171963, 679949399121675847, 16110029214220444666, 16075443586991710645, 11809122633193920135, 824682708434772612, 9546558219524207792, 14570838741769169544, 16015354101246307490, 14937681164076894612, 16170554185854218030, 13411014959602602192, 17659497305141992864] 8 = [16607373423488820546, 2151422635867277830, 6572340985991069695, 14653210170250470996, 11791760579977573355, 4065323483469060406, 7283395855969466639, 13325119192580981824, 240953767092294249, 4061085087821419309, 15280882476846897925, 2750505582437592369, 2704748849273168765, 6327325585883090832, 2013544036530064293, 11337392647161457476, 9951477293767922198, 15216922623802272473, 4089965193502969186, 10262383148774694472, 11601735218912882699, 3910853304622802100, 1874362684601583732, 14635665072728267742, 11912924353201045756] := by decide

/-- Round 9 of the permutation on the `e256` state. -/
theorem permRound_e256_9 : keccakRound [16607373423488820546, 2151422635867277830, 6572340985991069695, 14653210170250470996, 11791760579977573355, 4065323483469060406, 7283395855969466639, 13325119192580981824, 240953767092294249, 4061085087821419309, 15280882476846897925, 2750505582437592369, 2704748849273168765, 6327325585883090832, 2013544036530064293, 11337392647161457476, 9951477293767922198, 15216922623802272473, 4089965193502969186, 10262383148774694472, 11601735218912882699, 3910853304622802100, 1874362684601583732, 14635665072728267742, 11912924353201045756] 9 = [12443570198016410408, 15073234423324879037, 16538284292177595253, 770694436111563450, 4661629519587471725, 4134871225352118654, 4776995384142827210, 15478826137546518068, 18066846374717646578, 14270287239788042585, 2910516952809473229, 949633455367371438, 5615595303185522976, 12732927536893994306, 1974801021048620803, 8494920415961791039, 4379175404697166052, 779617988408921914, 11515541233266066687, 10851941993204617098, 17521537655693928411, 15329457299099953713, 8642253880621323691, 13248831312752232176, 9167496934457325936] := by decide

/-- Round 10 of the permutation on the `e256` state. -/
theorem permRound_e256_10 : keccakRound [12443570198016410408, 15073234423324879037, 16538284292177595253, 770694436111563450, 4661629519587471725, 4134871225352118654, 4776995384142827210, 15478826137546518068, 18066846374717646578, 14270287239788042585, 2910516952809473229, 949633455367371438, 5615595303185522976, 12732927536893994306, 1974801021048620803, 8494920415961791039, 4379175404697166052, 779617988408921914, 11515541233266066687, 10851941993204617098, 17521537655693928411, 15329457299099953713, 8642253880621323691, 13248831312752232176, 9167496934457325936] 10 = [2784670699769870044, 12458046501618073558, 14125649387247164462, 2371862000334975945, 17449621713181921370, 18084473122477533316, 10555653529814021168, 1286435700208258660, 7900972333389060382, 13695579594619900831, 14617506584737283108, 16851691067561729428, 8573020770547936416, 15064676017279082892, 17197415585843555401, 15776906507246342037, 9813731578541049216, 12800378173865872612, 15297178561593300238, 11409222445058284577, 15122744860265765604, 5517594499147034503, 7999930204173150732, 15392201373165449930, 12679951944464799674] := by decide

/-- Round 11 of the permutation on the `e256` state. -/
theorem permRound_e256_11 : keccakRound [2784670699769870044, 12458046501618073558, 14125649387247164462, 2371862000334975945, 17449621713181921370, 18084473122477533316, 10555653529814021168, 1286435700208258660, 7900972333389060382, 13695579594619900831, 14617506584737283108, 16851691067561729428, 8573020770547936416, 15064676017279082892, 17197415585843555401, 15776906507246342037, 9813731578541049216, 12800378173865872612, 15297178561593300238, 11409222445058284577, 15122744860265765604, 5517594499147034503, 7999930204173150732, 15392201373165449930, 12679951944464799674] 11 = [16291156846118844451, 9692757143822035377, 17748466164917623592, 18297723408675364712, 5768111022144358297, 5032647943730211172, 240223639921337555, 3573006762761062315, 4418081664467045005, 14050874540553342331, 10482449059741954494, 13992079101437996990, 2435977504749834253, 10982271880190543118, 11974228964236697225, 15115158931448373871, 12735725188152392398, 7627438592320754813, 272652177933322935, 14245570792134504674, 8744534987003128554, 11356875620725102920, 8928226865784257667, 1524680525473545806, 2896276078172484414] := by decide

/-- Round 12 of the permutation on the `e256` state. -/
theorem permRound_e256_12 : keccakRound [16291156846118844451, 9692757143822035377, 17748466164917623592, 18297723408675364712, 5768111022144358297, 5032647943730211172, 240223639921337555, 3573006762761062315, 4418081664467045005, 14050874540553342331, 10482449059741954494, 13992079101437996990, 2435977504749834253, 10982271880190543118, 11974228964236697225, 15115158931448373871, 12735725188152392398, 7627438592320754813, 272652177933322935, 14245570792134504674, 8744534987003128554, 11356875620725102920, 8928226865784257667, 1524680525473545806, 2896276078172484414] 12 = [6665051101374537130, 5495771786181444414, 12537915500868265617, 17060231565289718284, 15561324751258473602, 7930404497004154902, 8849067938713931991, 6658565175150454632, 5282570462567558459, 11559245968373515903, 16566202011258081367, 674556369021680881, 3345820050997912695, 4671081468424751526, 7757084567577850828, 8502623553496775840, 3955259317059675661, 8106862701908889232, 6703677908344537012, 6580670985836187516, 9403347355581011122, 7905832091148999944, 5292914193962333749, 11887527448341663821, 16621059256266911255] := by decide

/-- Round 13 of the permutation on the `e256` state. -/
theorem permRound_e256_13 : keccakRound [6665051101374537130, 5495771786181444414, 12537915500868265617, 17060231565289718284, 15561324751258473602, 7930404497004154902, 8849067938713931991, 6658565175150454632, 5282570462567558459, 11559245968373515903, 16566202011258081367, 674556369021680881, 3345820050997912695, 4671081468424751526, 7757084567577850828, 8502623553496775840, 3955259317059675661, 8106862701908889232, 6703677908344537012, 6580670985836187516, 9403347355581011122, 7905832091148999944, 5292914193962333749, 11887527448341663821, 16621059256266911255] 13 = [10716439878011516281, 15967399425266700355, 12076011584974892592, 16248055671756128434, 10643350871698206347, 10594214463648586357, 7116189751946765041, 7750545512743031734, 18247594507314572309, 7378220163111131807, 14999407657225623861, 7928369854754402115, 17844316675013910964, 15171488774331430663, 7614485196347525793, 11605212344200916950, 15157978784662469348, 11718935584924530645, 5535191362811376685, 14772790920984104005, 10448524766163212306, 4825435813474788858, 17005218769600310333, 13954843883325706830, 4929584870877703474] := by decide

/-- Round 14 of the permutation on the `e256` state. -/
theorem permRound_e256_14 : keccakRound [10716439878011516281, 15967399425266700355, 12076011584974892592, 16248055671756128434, 10643350871698206347, 10594214463648586357, 7116189751946765041, 7750545512743031734, 18247594507314572309, 7378220163111131807, 14999407657225623861, 7928369854754402115, 17844316675013910964, 15171488774331430663, 7614485196347525793, 11605212344200916950, 15157978784662469348, 11718935584924530645, 5535191362811376685, 14772790920984104005, 10448524766163212306, 4825435813474788858, 17005218769600310333, 13954843883325706830, 4929584870877703474] 14 = [1319998251610336165, 5389285008839651730, 9332282829561635961, 9409139626766683675, 6470951802939581099, 17252944717417249465, 17165277815629499916, 3963403808094557162, 14184007887274758158, 9596262242135920298, 10210589069919534081, 14250294093777783787, 8039572666876461379, 2368146889392807232, 1812659259149163614, 16807801796138206746, 11647457970582845122, 6166919066429959443, 1147388708393040668, 1303057136894895726, 1903883279373033606, 2131164935238924974, 4953436646693238779, 2641527683450144340, 2816144971954173157] := by decide

/-- Round 15 of the permutation on the `e256` state. -/
theorem permRound_e256_15 : keccakRound [1319998251610336165, 5389285008839651730, 9332282829561635961, 9409139626766683675, 6470951802939581099, 17252944717417249465, 17165277815629499916, 3963403808094557162, 14184007887274758158, 9596262242135920298, 10210589069919534081, 14250294093777783787, 8039572666876461379, 2368146889392807232, 1812659259149163614, 16807801796138206746, 11647457970582845122, 6166919066429959443, 1147388708393040668, 1303057136894895726, 1903883279373033606, 2131164935238924974, 4953436646693238779, 2641527683450144340, 2816144971954173157] 15 = [13881630218582485081, 16617007106358093478, 8370579830314427868, 1713224054433245973, 13627151018451951556, 10871226027031491916, 4699765345504525133, 4286537013572583285, 17310739681736795836, 99398265043109114, 3545503971586557412, 7556410075305792076, 15679693291762405836, 2729857338541306968, 1921741768395976932, 14263894358714132532, 11009055271111244000, 845971141115169140, 13270182711450419347, 17079085579333711468, 10503578552956300308, 6627023678281057244, 5403374185706104778, 6659075922477107110, 8592110512596117136] := by decide

/-- Round 16 of the permutation on the `e256` state. -/
theorem permRound_e256_16 : keccakRound [13881630218582485081, 16617007106358093478, 8370579830314427868, 1713224054433245973, 13627151018451951556, 10871226027031491916, 4699765345504525133, 4286537013572583285, 17310739681736795836, 99398265043109114, 3545503971586557412, 7556410075305792076, 15679693291762405836, 2729857338541306968, 1921741768395976932, 14263894358714132532, 11009055271111244000, 845971141115169140, 13270182711450419347, 17079085579333711468, 10503578552956300308, 6627023678281057244, 5403374185706104778, 6659075922477107110, 8592110512596117136] 16 = [8416411914720361245, 3448560865030073472, 3919536279875559698, 5573607003621883193, 984465805306826053, 15024535068875014392, 3681621266475130062, 9998293171501847344, 14839532389281272683, 533539312507974110, 16824156633091540864, 16389535479321433015, 13782841269213835654, 4122073509668400045, 7683819886385778366, 3592048281988696895, 8681389608761840015, 17598965942532483458, 16560167496673567885, 8777595276064781908, 9594426284182731638, 13108639988284796722, 15254667260581302934, 2433642677842468666, 1064465948127417059] := by decide

/-- Round 17 of the permutation on the `e256` state. -/
theorem permRound_e256_17 : keccakRound [8416411914720361245, 3448560865030073472, 3919536279875559698, 5573607003621883193, 984465805306826053, 15024535068875014392, 3681621266475130062, 9998293171501847344, 14839532389281272683, 533539312507974110, 16824156633091540864, 16389535479321433015, 13782841269213835654, 4122073509668400045, 7683819886385778366, 3592048281988696895, 8681389608761840015, 17598965942532483458, 16560167496673567885, 8777595276064781908, 9594426284182731638, 13108639988284796722, 15254667260581302934, 2433642677842468666, 1064465948127417059] 17 = [534296193886098135, 3695287213502380591, 11532049842336470888, 17974523857070849737, 12954850201481240735, 5716772798672216727, 2583007236467463893, 10427970853733301948, 700439106234402195, 7192762512095310632, 4383158246966191391, 18315691205404178545, 18043931791961935518, 16287759594864535142, 15352249056180256782, 18367201066277418680, 6748360514621293390, 9837915013220625665, 12422998273549796530, 12621865645966804366, 4594662070598184093, 8622633690173154066, 12904333489760771204, 385777527094370260, 6037929239432104378] := by decide

/-- Round 18 of the permutation on the `e256` state. -/
theorem permRound_e256_18 : keccakRound [534296193886098135, 3695287213502380591, 11532049842336470888, 17974523857070849737, 12954850201481240735, 5716772798672216727, 2583007236467463893, 10427970853733301948, 700439106234402195, 7192762512095310632, 4383158246966191391, 18315691205404178545, 18043931791961935518, 16287759594864535142, 15352249056180256782, 18367201066277418680, 6748360514621293390, 9837915013220625665, 12422998273549796530, 12621865645966804366, 4594662070598184093, 8622633690173154066, 12904333489760771204, 385777527094370260, 6037929239432104378] 18 = [17242234307811427515, 7298945131924620938, 12512959417444303430, 16244176617175768424, 3826401358280227816, 8589395152097341129, 18321848104009695025, 11680515094655873510, 3680928998899718032, 5209258824295493052, 14420353876404795782, 13596398079702832869, 12202387532391994898, 721433745371800063, 9896885544113945439, 6680377346781173919, 5332700740124661618, 13318027231967735991, 16563930016949065197, 220674366890030230, 6699529091897125322, 2739507427232859638, 15711608159680198358, 15839554650221487652, 11575241304029856712] := by decide

/-- Round 19 of the permutation on the `e256` state. -/
theorem permRound_e256_19 : keccakRound [17242234307811427515, 7298945131924620938, 12512959417444303430, 16244176617175768424, 3826401358280227816, 8589395152097341129, 18321848104009695025, 11680515094655873510, 3680928998899718032, 5209258824295493052, 14420353876404795782, 13596398079702832869, 12202387532391994898, 721433745371800063, 9896885544113945439, 6680377346781173919, 5332700740124661618, 13318027231967735991, 16563930016949065197, 220674366890030230, 6699529091897125322, 2739507427232859638, 15711608159680198358, 15839554650221487652, 11575241304029856712] 19 = [16702010266589328720, 11785696339686387325, 16232021429448662837, 4621936354538492110, 16839935569400247044, 3516106972774747115, 11724013555230036502, 7480607343544516906, 14577750021349342573, 2421771942493426498, 8252672638237332873, 8249004131460997133, 778286484670419507, 5467066643722607965, 1760155417958766819, 5539793005320924506, 11397623340431491872, 12864342638065520035, 12083379459737583179, 14892306294104856657, 14623186648705301253, 5128653977437664874, 14734488673449380773, 17399174579470271659, 14787652485258740643] := by decide

/-- Round 20 of the permutation on the `e256` state. -/
theorem permRound_e256_20 : keccakRound [16702010266589328720, 11785696339686387325, 16232021429448662837, 4621936354538492110, 16839935569400247044, 3516106972774747115, 11724013555230036502, 7480607343544516906, 14577750021349342573, 2421771942493426498, 8252672638237332873, 8249004131460997133, 778286484670419507, 5467066643722607965, 1760155417958766819, 5539793005320924506, 11397623340431491872, 12864342638065520035, 12083379459737583179, 14892306294104856657, 14623186648705301253, 5128653977437664874, 14734488673449380773, 17399174579470271659, 14787652485258740643] 20 = [16488390307541943305, 17559693018003947265, 9108537271992078214, 10423841811661870631, 3040236185740504183, 857882767517711827, 3492714315419207287, 2789125034051568249, 81920884436605105, 13331759205602966770, 16754353820981313164, 6741055624195280880, 5263857701266955350, 4627132801428790548, 7422782385993692804, 3730241882621406845, 4399100234652493596, 15025317568737056282, 4375033872217880358, 3359671850727625416, 1362862387812853932, 8387689881403993048, 8688947589982045175, 11585555971117405732, 16397411802621700634] := by decide

/-- Round 21 of the permutation on the `e256` state. -/
theorem permRound_e256_21 : keccakRound [16488390307541943305, 17559693018003947265, 9108537271992078214, 10423841811661870631, 3040236185740504183, 857882767517711827, 3492714315419207287, 2789125034051568249, 81920884436605105, 13331759205602966770, 16754353820981313164, 6741055624195280880, 5263857701266955350, 4627132801428790548, 7422782385993692804, 3730241882621406845, 4399100234652493596, 15025317568737056282, 4375033872217880358, 3359671850727625416, 1362862387812853932, 8387689881403993048, 8688947589982045175, 11585555971117405732, 16397411802621700634] 21 = [7468857592912166551, 7509402213287554103, 5920166622310057021, 1245229838719934601, 11412606850931652734, 4778997266118777220, 13503050704312239975, 9078797036224177493, 9046123609337478232, 2279923682132033021, 968663569872637247, 12528780394224896734, 15109038439802043243, 2514154137644936742, 13074992029672084631, 9981334051720804394, 10929166993946436931, 10786302343937411402, 2172383237928275479, 15222838835840319035, 6535328264755286323, 3021073620629705380, 6914764477367934026, 14161662948158972437, 2646073473019538392] := by decide

/-- Round 22 of the permutation on the `e256` state. -/
theorem permRound_e256_22 : keccakRound [7468857592912166551, 7509402213287554103, 5920166622310057021, 1245229838719934601, 11412606850931652734, 4778997266118777220, 13503050704312239975, 9078797036224177493, 9046123609337478232, 2279923682132033021, 968663569872637247, 12528780394224896734, 15109038439802043243, 2514154137644936742, 13074992029672084631, 9981334051720804394, 10929166993946436931, 10786302343937411402, 2172383237928275479, 15222838835840319035, 6535328264755286323, 3021073620629705380, 6914764477367934026, 14161662948158972437, 2646073473019538392] 22 = [13219969621820782240, 3226093193424914092, 10846161881167012984, 13470522419822434072, 9395429576182681946, 8530498048516093610, 5651939854162289461, 7915235748700633099, 16590736201521082154, 11443586452577361644, 11578784407731530241, 12555284199035474007, 103191304442796045, 2407050918456829886, 8809156603158525029, 15242461923984447565, 13645658932555888328, 11207932644415108528, 2606492158503956003, 17367323008410274790, 14914538695926853805, 15728690031541589181, 7389391625128953151, 12128506732059288731, 17622300515349969486] := by decide

/-- Round 23 of the permutation on the `e256` state. -/
theorem permRound_e256_23 : keccakRound [13219969621820782240, 3226093193424914092, 10846161881167012984, 13470522419822434072, 9395429576182681946, 8530498048516093610, 5651939854162289461, 7915235748700633099, 16590736201521082154, 11443586452577361644, 11578784407731530241, 12555284199035474007, 103191304442796045, 2407050918456829886, 8809156603158525029, 15242461923984447565, 13645658932555888328, 11207932644415108528, 2606492158503956003, 17367323008410274790, 14914538695926853805, 15728690031541589181, 7389391625128953151, 12128506732059288731, 17622300515349969486] 23 = [4333579421379646149, 13836122230913597074, 4262519377828905189, 8116759062988257915, 8406387447366859581, 14671339323370021561, 2243375101132795228, 9371364203318886753, 9347994793612953298, 12814238161780307547, 4391692840257016808, 4309499098775122448, 13438072403645551266, 18018124564071650747, 4323130096954625545, 16970298442240338249, 1971761234120675839, 450719451514497906, 18340686150147091359, 11254645818134300982, 16062291397582171322, 1601982631079003425, 7734681229251997073, 13256946727218518206, 11816912122432958423] := by decide

/-- The full permutation on the `e256` state, round lemmas chained. -/
theorem permF_e256 : keccakF [1, 0, 0, 0, 0, 0, 0, 0, 0, 0, 0, 0, 0, 0, 0, 0, 9223372036854775808, 0, 0, 0, 0, 0, 0, 0, 0] = [4333579421379646149, 13836122230913597074, 4262519377828905189, 8116759062988257915, 8406387447366859581, 14671339323370021561, 2243375101132795228, 9371364203318886753, 9347994793612953298, 12814238161780307547, 4391692840257016808, 4309499098775122448, 13438072403645551266, 18018124564071650747, 4323130096954625545, 16970298442240338249, 1971761234120675839, 450719451514497906, 18340686150147091359, 11254645818134300982, 16062291397582171322, 1601982631079003425, 7734681229251997073, 13256946727218518206, 11816912122432958423] := by
  show List.foldl keccakRound [1, 0, 0, 0, 0, 0, 0, 0, 0, 0, 0, 0, 0, 0, 0, 0, 9223372036854775808, 0, 0, 0, 0, 0, 0, 0, 0] (List.range 24) = [4333579421379646149, 13836122230913597074, 4262519377828905189, 8116759062988257915, 8406387447366859581, 14671339323370021561, 2243375101132795228, 9371364203318886753, 9347994793612953298, 12814238161780307547, 4391692840257016808, 4309499098775122448, 13438072403645551266, 18018124564071650747, 4323130096954625545, 16970298442240338249, 1971761234120675839, 450719451514497906, 18340686150147091359, 11254645818134300982, 16062291397582171322, 1601982631079003425, 7734681229251997073, 13256946727218518206, 11816912122432958423]
  rw [range24_eq,
    List.foldl_cons,
    permRound_e256_0,
    List.foldl_cons,
    permRound_e256_1,
    List.foldl_cons,
    permRound_e256_2,
    List.foldl_cons,
    permRound_e256_3,
    List.foldl_cons,
    permRound_e256_4,
    List.foldl_cons,
    permRound_e256_5,
    List.foldl_cons,
    permRound_e256_6,
    List.foldl_cons,
    permRound_e256_7,
    List.foldl_cons,
    permRound_e256_8,
    List.foldl_cons,
    permRound_e256_9,
    List.foldl_cons,
    permRound_e256_10,
    List.foldl_cons,
    permRound_e256_11,
    List.foldl_cons,
    permRound_e256_12,
    List.foldl_cons,
    permRound_e256_13,
    List.foldl_cons,
    permRound_e256_14,
    List.foldl_cons,
    permRound_e256_15,
    List.foldl_cons,
    permRound_e256_16,
    List.foldl_cons,
    permRound_e256_17,
    List.foldl_cons,
    permRound_e256_18,
    List.foldl_cons,
    permRound_e256_19,
    List.foldl_cons,
    permRound_e256_20,
    List.foldl_cons,
    permRound_e256_21,
    List.foldl_cons,
    permRound_e256_22,
    List.foldl_cons,
    permRound_e256_23,
    List.foldl_nil]

/-- Round 0 of the permutation on the `a256` state. -/
theorem permRound_a256_0 : keccakRound [23290465, 0, 0, 0, 0, 0, 0, 0, 0, 0, 0, 0, 0, 0, 0, 0, 9223372036854775808, 0, 0, 0, 0, 0, 0, 0, 0] 0 = [4398069801569, 3901823719349157910, 5161228468224, 4416096, 3901824482531115030, 8, 7803643505785438244, 1152921504606846984, 7803665030884360236, 1152970348252102656, 46580930, 11924718112, 0, 11878663874, 262176, 6251976082424832, 68719493120, 23849436160, 6251986592743424, 68719476736, 4855550000886710273, 2199023255552, 7161393010193566085, 2305845208236949504, 93161860] := by decide

/-- Round 1 of the permutation on the `a256` state. -/
theorem permRound_a256_1 : keccakRound [4398069801569, 3901823719349157910, 5161228468224, 4416096, 3901824482531115030, 8, 7803643505785438244, 1152921504606846984, 7803665030884360236, 1152970348252102656, 46580930, 11924718112, 0, 11878663874, 262176, 6251976082424832, 68719493120, 23849436160, 6251986592743424, 68719476736, 4855550000886710273, 2199023255552, 7161393010193566085, 2305845208236949504, 93161860] 1 = [13164609059862769252, 5961160992338754562, 16057739720802806203, 6005836848420072022, 16830431105337762476, 16971076091800232262, 14473539948330130976, 14380145100539972341, 2861553494610541578, 8380509447934534265, 8013329424051498821, 1667456664983520118, 6798611555649869881, 10488447575078857670, 10683444348960360177, 10423663854191437062, 15283117860761838183, 3055424779560829958, 1286084405410119791, 12402841901895124118, 13594059129219359347, 15108082610561615182, 608194235883188726, 10603353300309849824, 15333164885894031310] := by decide

/-- Round 2 of the permutation on the `a256` state. -/
theorem permRound_a256_2 : keccakRound [13164609059862769252, 5961160992338754562, 16057739720802806203, 6005836848420072022, 16830431105337762476, 16971076091800232262, 14473539948330130976, 14380145100539972341, 2861553494610541578, 8380509447934534265, 8013329424051498821, 1667456664983520118, 6798611555649869881, 10488447575078857670, 10683444348960360177, 10423663854191437062, 15283117860761838183, 3055424779560829958, 1286084405410119791, 12402841901895124118, 13594059129219359347, 15108082610561615182, 608194235883188726, 10603353300309849824, 15333164885894031310] 2 = [14274011517377884525, 7849709064010631506, 11624767882936294871, 12585385959267421564, 18145228317252201419, 10108563431118122342, 12360952159456771087, 8967358360518230560, 16935751633777609670, 680156267269170365, 12499496565949701948, 2204542396497603670, 17777084719125392137, 11230787839556660162, 6783738262555021450, 2044961175169731872, 5254659049714620113, 10669622579720153900, 16349122783682770650, 13625694952696669937, 11701883454562420282, 7766476635987378704, 12539671143323602001, 18255766485022394751, 1025761518112996428] := by decide

/-- Round 3 of the permutation on the `a256` state. -/
theorem permRound_a256_3 : keccakRound [14274011517377884525, 7849709064010631506, 11624767882936294871, 12585385959267421564, 18145228317252201419, 10108563431118122342, 12360952159456771087, 8967358360518230560, 16935751633777609670, 680156267269170365, 12499496565949701948, 2204542396497603670, 17777084719125392137, 11230787839556660162, 6783738262555021450, 2044961175169731872, 5254659049714620113, 10669622579720153900, 16349122783682770650, 13625694952696669937, 11701883454562420282, 7766476635987378704, 12539671143323602001, 18255766485022394751, 1025761518112996428] 3 = [1012232914876516021, 6662640355228813025, 4179763171504681708, 3118066773882348718, 13559525032298995496, 17189004269601597120, 16228473416069373531, 3165952736453070786, 14644693460830838565, 2003080060847627450, 11497439385715732300, 5579504423283904577, 12628560105977361135, 11759335251391199982, 15224015527500919263, 15613961778974678956, 9823823197731164248, 11863822803543064002, 1739064465668494469, 9116283586590628993, 3606417359914993003, 2000736800282010337, 9496139464676207143, 14457232811280250443, 459433347423782508] := by decide

/-- Round 4 of the permutation on the `a256` state. -/
theorem permRound_a256_4 : keccakRound [1012232914876516021, 6662640355228813025, 4179763171504681708, 3118066773882348718, 13559525032298995496, 17189004269601597120, 16228473416069373531, 3165952736453070786, 14644693460830838565, 2003080060847627450, 11497439385715732300, 5579504423283904577, 12628560105977361135, 11759335251391199982, 15224015527500919263, 15613961778974678956, 9823823197731164248, 11863822803543064002, 1739064465668494469, 9116283586590628993, 3606417359914993003, 2000736800282010337, 9496139464676207143, 14457232811280250443, 459433347423782508] 4 = [14228326996628724550, 15690203487274029731, 1268844231954498398, 18305708202038361373, 14655910187653565341, 6464427802741799794, 1839709813497025961, 13112336048595634980, 7764176961527008129, 6556339447282458350, 17839373122934506665, 17027977869057111067, 4850322198108296734, 16776001850222892523, 611970155252798848, 4358255391199632912, 13104257596183488, 3015262153906311319, 1364373875001582661, 3263390791955696319, 9354844234805314410, 2424673229018615659, 6842275039428307909, 6883067752688863460, 15531044180642058587] := by decide

/-- Round 5 of the permutation on the `a256` state. -/
theorem permRound_a256_5 : keccakRound [14228326996628724550, 15690203487274029731, 1268844231954498398, 18305708202038361373, 14655910187653565341, 6464427802741799794, 1839709813497025961, 13112336048595634980, 7764176961527008129, 6556339447282458350, 17839373122934506665, 17027977869057111067, 4850322198108296734, 16776001850222892523, 611970155252798848, 4358255391199632912, 13104257596183488, 3015262153906311319, 1364373875001582661, 3263390791955696319, 9354844234805314410, 2424673229018615659, 6842275039428307909, 6883067752688863460, 15531044180642058587] 5 = [13312446322919775015, 16872662291492227124, 7791893098372288187, 6695024398239701331, 1518748532980437709, 1964206435047203599, 5288666349209670063, 4045016003913109068, 12468598313409061862, 11695466844826434426, 2201261763702977299, 12946720725295450790, 738446311312620007, 13252836082962048226, 15921898189790341248, 910267248603334204, 15839882761021598058, 16845172919512940649, 14425383549629686328, 3408056372724871001, 4557223891714192611, 16113558002713503618, 7277770400943061169, 10786231782024712255, 2160325756182360203] := by decide

/-- Round 6 of the permutation on the `a256` state. -/
theorem permRound_a256_6 : keccakRound [13312446322919775015, 16872662291492227124, 7791893098372288187, 6695024398239701331, 1518748532980437709, 1964206435047203599, 5288666349209670063, 4045016003913109068, 12468598313409061862, 11695466844826434426, 2201261763702977299, 12946720725295450790, 738446311312620007, 13252836082962048226, 15921898189790341248, 910267248603334204, 15839882761021598058, 16845172919512940649, 14425383549629686328, 3408056372724871001, 4557223891714192611, 16113558002713503618, 7277770400943061169, 10786231782024712255, 2160325756182360203] 6 = [120843858897712809, 13167659565120647229, 11515195621804039799, 13204934650804705508, 4628396594232346238, 5999307991224765554, 10785707873032356227, 18337523615913113075, 4860470483085375663, 884895851990545973, 10280427249077114131, 17603216388640640623, 8007686772906296898, 10954270995664338984, 6362408302721316854, 1068861996584741867, 14272942425760127770, 3051213188488191593, 17399256755082783417, 3230389354574045228, 11420401193699703539, 5774315723783876767, 1228231373810519311, 12772856128791186160, 13686532278370531283] := by decide

/-- Round 7 of the permutation on the `a256` state. -/
theorem permRound_a256_7 : keccakRound [120843858897712809, 13167659565120647229, 11515195621804039799, 13204934650804705508, 4628396594232346238, 5999307991224765554, 10785707873032356227, 18337523615913113075, 4860470483085375663, 884895851990545973, 10280427249077114131, 17603216388640640623, 8007686772906296898, 10954270995664338984, 6362408302721316854, 1068861996584741867, 14272942425760127770, 3051213188488191593, 17399256755082783417, 3230389354574045228, 11420401193699703539, 5774315723783876767, 1228231373810519311, 12772856128791186160, 13686532278370531283] 7 = [16500607588057794114, 11341329814059160487, 9131254073815845251, 12214062772110057109, 3290910599739163579, 6914293333977100289, 9434925292603541908, 14646295652655149005, 9070632719185295144, 4685710793908378261, 2968631038492042585, 14224080721239628025, 11516013476567681757, 3135969382624929689, 10978286117850087007, 11085465276432399020, 14649749498209172387, 3279434060337553224, 6586598175754199035, 15397422787519527044, 7199292414595017401, 6997549222381942427, 11190616279739910837, 9693437559664954365, 15643952470048283007] := by decide

/-- Round 8 of the permutation on the `a256` state. -/
theorem permRound_a256_8 : keccakRound [16500607588057794114, 11341329814059160487, 9131254073815845251, 12214062772110057109, 3290910599739163579, 6914293333977100289, 9434925292603541908, 14646295652655149005, 9070632719185295144, 4685710793908378261, 2968631038492042585, 14224080721239628025, 11516013476567681757, 3135969382624929689, 10978286117850087007, 11085465276432399020, 14649749498209172387, 3279434060337553224, 6586598175754199035, 15397422787519527044, 7199292414595017401, 6997549222381942427, 11190616279739910837, 9693437559664954365, 15643952470048283007] 8 = [18287446950480723391, 15271793292749197762, 13946401035595475097, 1530717504986346597, 9231395813300800068, 4469229883764962033, 12923228751881119276, 11872169037038444953, 6002512651331774228, 13090989445374707240, 11262064148352369899, 15052713448283909881, 15406993219461221753, 13246020419318103183, 14302677841120915779, 11807377149950514386, 6783148573780206974, 12541016539524263224, 13084849746987128853, 14612034703990418006, 1348120502982086307, 13640917000757274065, 9453382890293384719, 9531804176469274206, 7659950729281100836] := by decide

/-- Round 9 of the permutation on the `a256` state. -/
theorem permRound_a256_9 : keccakRound [18287446950480723391, 15271793292749197762, 13946401035595475097, 1530717504986346597, 9231395813300800068, 4469229883764962033, 12923228751881119276, 11872169037038444953, 6002512651331774228, 13090989445374707240, 11262064148352369899, 15052713448283909881, 15406993219461221753, 13246020419318103183, 14302677841120915779, 11807377149950514386, 6783148573780206974, 12541016539524263224, 13084849746987128853, 14612034703990418006, 1348120502982086307, 13640917000757274065, 9453382890293384719, 9531804176469274206, 7659950729281100836] 9 = [858055867916437019, 3771299771456552174, 1674618542387010110, 18247771322302108838, 15076426468253410709, 12277187350481976566, 12342280455801442584, 4617585044385423537, 15071248841775622429, 11102728190575683483, 1311092544611646484, 11609282668235249884, 11138640077682529718, 7631749463237995473, 14174669837530897521, 15564774017224927321, 11289588086194349067, 1165249339992735766, 16113675818774378156, 12216000896013788709, 9535116670309917706, 3471271826531498816, 11764438996267880184, 7231079612671195741, 15256723063100940580] := by decide

/-- Round 10 of the permutation on the `a256` state. -/
theorem permRound_a256_10 : keccakRound [858055867916437019, 3771299771456552174, 1674618542387010110, 18247771322302108838, 15076426468253410709, 12277187350481976566, 12342280455801442584, 4617585044385423537, 15071248841775622429, 11102728190575683483, 1311092544611646484, 11609282668235249884, 11138640077682529718, 7631749463237995473, 14174669837530897521, 15564774017224927321, 11289588086194349067, 1165249339992735766, 16113675818774378156, 12216000896013788709, 9535116670309917706, 3471271826531498816, 11764438996267880184, 7231079612671195741, 15256723063100940580] 10 = [2386848132148187581, 300012246924878893, 8234662472165696140, 8208265096456569644, 14553506290031302815, 2284342578153923556, 6700989194204855746, 9553952312216235371, 5450325068154145304, 15706688400012981799, 936417820429676480, 11037496805622217419, 4745123820458540252, 2450376437137130396, 1741410629145379779, 13270516363891768522, 7547822930696035681, 5116409921092707013, 4967030546206189863, 4008417473699088424, 15725667037383152152, 1882606322623236260, 6799853068574546786, 111121357763689425, 9815152858483646773] := by decide

/-- Round 11 of the permutation on the `a256` state. -/
theorem permRound_a256_11 : keccakRound [2386848132148187581, 300012246924878893, 8234662472165696140, 8208265096456569644, 14553506290031302815, 2284342578153923556, 6700989194204855746, 9553952312216235371, 5450325068154145304, 15706688400012981799, 936417820429676480, 11037496805622217419, 4745123820458540252, 2450376437137130396, 1741410629145379779, 13270516363891768522, 7547822930696035681, 5116409921092707013, 4967030546206189863, 4008417473699088424, 15725667037383152152, 1882606322623236260, 6799853068574546786, 111121357763689425, 9815152858483646773] 11 = [18026837717017788822, 2716075819256054387, 5473149288001272963, 13679223960738207842, 6751915728229064551, 9641481707215941666, 2107873802002809124, 7837842857969977899, 8818695168833668834, 16198986739597721187, 9296742994173465786, 7873011864798129643, 1279596529115878562, 1683037447098556504, 10038756941405381677, 15041711815766768440, 17836687446701178633, 11113123913512681015, 5524784965672133659, 11799615170817866872, 6829035212021394749, 11305474769248074228, 5177878275985471081, 13617423020551148733, 8876329930498059032] := by decide

/-- Round 12 of the permutation on the `a256` state. -/
theorem permRound_a256_12 : keccakRound [18026837717017788822, 2716075819256054387, 5473149288001272963, 13679223960738207842, 6751915728229064551, 9641481707215941666, 2107873802002809124, 7837842857969977899, 8818695168833668834, 16198986739597721187, 9296742994173465786, 7873011864798129643, 1279596529115878562, 1683037447098556504, 10038756941405381677, 15041711815766768440, 17836687446701178633, 11113123913512681015, 5524784965672133659, 11799615170817866872, 6829035212021394749, 11305474769248074228, 5177878275985471081, 13617423020551148733, 8876329930498059032] 12 = [4635270265503048229, 4943104883256350220, 3243959468884369392, 6607589166294140576, 1016768447735806635, 17706570748870034276, 2052074479587299573, 10940378096463295448, 15791075113275266570, 9749787945788507337, 2739158469598597538, 11106970825111872998, 2606322880002701452, 4882438456697968994, 1644431440555381487, 14660245871605096866, 4776396372131975439, 15111257212517953341, 15433612244816361421, 9118213183115188951, 12490072023488143887, 10932416667957129071, 8854704435374974292, 12782168020504695752, 18141945618957771960] := by decide

/-- Round 13 of the permutation on the `a256` state. -/
theorem permRound_a256_13 : keccakRound [4635270265503048229, 4943104883256350220, 3243959468884369392, 6607589166294140576, 1016768447735806635, 17706570748870034276, 2052074479587299573, 10940378096463295448, 15791075113275266570, 9749787945788507337, 2739158469598597538, 11106970825111872998, 2606322880002701452, 4882438456697968994, 1644431440555381487, 14660245871605096866, 4776396372131975439, 15111257212517953341, 15433612244816361421, 9118213183115188951, 12490072023488143887, 10932416667957129071, 8854704435374974292, 12782168020504695752, 18141945618957771960] 13 = [1653224928244021904, 715553433139596440, 16708714000151827514, 17504674748894527903, 13670981491637250069, 12836446258427675717, 4444209615810109140, 10484583730337377750, 13978043577184884569, 5291545763838242030, 8941908970226389372, 4015790882024148498, 16119381718574138965, 13368673801364051729, 1012682970643442075, 11340299075504862674, 8858289769773813804, 11067188896176398386, 11408824253334967967, 11619133017106509321, 7675222065992087244, 9835487211352612656, 17727537767110939185, 11930587229787236422, 11954037552259385310] := by decide

/-- Round 14 of the permutation on the `a256` state. -/
theorem permRound_a256_14 : keccakRound [1653224928244021904, 715553433139596440, 16708714000151827514, 17504674748894527903, 13670981491637250069, 12836446258427675717, 4444209615810109140, 10484583730337377750, 13978043577184884569, 5291545763838242030, 8941908970226389372, 4015790882024148498, 16119381718574138965, 13368673801364051729, 1012682970643442075, 11340299075504862674, 8858289769773813804, 11067188896176398386, 11408824253334967967, 11619133017106509321, 7675222065992087244, 9835487211352612656, 17727537767110939185, 11930587229787236422, 11954037552259385310] 14 = [15810942388001526827, 770231468064175102, 9033330710681894645, 15590128156681751266, 17187407403129221607, 6267793344451017841, 15969995711843018622, 5068130967004944091, 11311875871453541189, 14823786025559481831, 6094578407417216553, 13252060546144420610, 10393241343025879197, 7137726735025983486, 234432181963446533, 9512042731612065029, 2583508873607915671, 4845772064615199252, 10035590682375491114, 13260204387122222292, 4902789206136450269, 9688892421713587243, 13215783422281778732, 83251781592259415, 3258092509674451688] := by decide

/-- Round 15 of the permutation on the `a256` state. -/
theorem permRound_a256_15 : keccakRound [15810942388001526827, 770231468064175102, 9033330710681894645, 15590128156681751266, 17187407403129221607, 6267793344451017841, 15969995711843018622, 5068130967004944091, 11311875871453541189, 14823786025559481831, 6094578407417216553, 13252060546144420610, 10393241343025879197, 7137726735025983486, 234432181963446533, 9512042731612065029, 2583508873607915671, 4845772064615199252, 10035590682375491114, 13260204387122222292, 4902789206136450269, 9688892421713587243, 13215783422281778732, 83251781592259415, 3258092509674451688] 15 = [8424005087191646692, 7497526012722681655, 8675974090000010155, 2681019034880087964, 3255241099420544697, 3192413154948208988, 4462653423120810534, 4510054473829587305, 10416122256890637545, 17624593597697443017, 5965903208050133647, 17650950635810516759, 311119546046526358, 10682117415141160482, 13313086674593713818, 12509976453608030071, 9826151079865413756, 17791132648987094081, 17142277739134578686, 12642825250785784569, 11010942571285512871, 16088129444599181592, 4065245534844594191, 2996161711424641599, 13875758304397781840] := by decide

/-- Round 16 of the permutation on the `a256` state. -/
theorem permRound_a256_16 : keccakRound [8424005087191646692, 7497526012722681655, 8675974090000010155, 2681019034880087964, 3255241099420544697, 3192413154948208988, 4462653423120810534, 4510054473829587305, 10416122256890637545, 17624593597697443017, 5965903208050133647, 17650950635810516759, 311119546046526358, 10682117415141160482, 13313086674593713818, 12509976453608030071, 9826151079865413756, 17791132648987094081, 17142277739134578686, 12642825250785784569, 11010942571285512871, 16088129444599181592, 4065245534844594191, 2996161711424641599, 13875758304397781840] 16 = [1723112622446659622, 756401923545949209, 2512718994923095563, 10873746302398092963, 11944812262767829598, 12012596367880511082, 11047026065206052768, 9390068359496302605, 7399860482391827483, 6483845247764098520, 13751642681477428165, 9762002559788214448, 11903302847053829637, 7704380716482930164, 3406317187159679294, 5261675851125556217, 14677134900751886956, 14345154548378306379, 4537279324754241400, 1292674548647058689, 5779661264547611709, 13738737045985804696, 13534148180427151222, 1443870811919906053, 5334392368651236011] := by decide

/-- Round 17 of the permutation on the `a256` state. -/
theorem permRound_a256_17 : keccakRound [1723112622446659622, 756401923545949209, 2512718994923095563, 10873746302398092963, 11944812262767829598, 12012596367880511082, 11047026065206052768, 9390068359496302605, 7399860482391827483, 6483845247764098520, 13751642681477428165, 9762002559788214448, 11903302847053829637, 7704380716482930164, 3406317187159679294, 5261675851125556217, 14677134900751886956, 14345154548378306379, 4537279324754241400, 1292674548647058689, 5779661264547611709, 13738737045985804696, 13534148180427151222, 1443870811919906053, 5334392368651236011] 17 = [11266924977393674458, 9821002340759428107, 13900806331627637209, 8260206918768548521, 2967445538820600813, 14626483568808413702, 3260100056429906536, 11562889297761106010, 8769534268648267400, 2542139547480482645, 15882425520816398150, 12068162170805947496, 10272700918302855943, 10454301333641342669, 12310402939376551984, 10496150340287433242, 13889644060731275766, 14423651226308513181, 1531680778762119022, 6520160535323188211, 5680719791921031969, 17906674629406735635, 509201401223817107, 18069174817959382322, 7746545482987117239] := by decide

/-- Round 18 of the permutation on the `a256` state. -/
theorem permRound_a256_18 : keccakRound [11266924977393674458, 9821002340759428107, 13900806331627637209, 8260206918768548521, 2967445538820600813, 14626483568808413702, 3260100056429906536, 11562889297761106010, 8769534268648267400, 2542139547480482645, 15882425520816398150, 12068162170805947496, 10272700918302855943, 10454301333641342669, 12310402939376551984, 10496150340287433242, 13889644060731275766, 14423651226308513181, 1531680778762119022, 6520160535323188211, 5680719791921031969, 17906674629406735635, 509201401223817107, 18069174817959382322, 7746545482987117239] 18 = [13367041093887907904, 4464301622504204334, 4644913938917717228, 2976237258374176031, 13632234173003582573, 12351762553763853722, 12747490738598435653, 15989047074226032307, 16910100623987551025, 12270684128643814726, 12492184166009643999, 5555315940935857180, 13769874207123037324, 10788704301380469465, 3864222221351188514, 2807744615111464997, 5158850364801646615, 9015310377735763392, 13441920392099112052, 16211145340530935604, 15432307251571194264, 11941606299526251154, 9402189178146049052, 12264503933720105224, 12972234227768803481] := by decide

/-- Round 19 of the permutation on the `a256` state. -/
theorem permRound_a256_19 : keccakRound [13367041093887907904, 4464301622504204334, 4644913938917717228, 2976237258374176031, 13632234173003582573, 12351762553763853722, 12747490738598435653, 15989047074226032307, 16910100623987551025, 12270684128643814726, 12492184166009643999, 5555315940935857180, 13769874207123037324, 10788704301380469465, 3864222221351188514, 2807744615111464997, 5158850364801646615, 9015310377735763392, 13441920392099112052, 16211145340530935604, 15432307251571194264, 11941606299526251154, 9402189178146049052, 12264503933720105224, 12972234227768803481] 19 = [5746479001847264522, 11782032822409911363, 15046609745978280200, 4694110550289942086, 10747699486915334408, 9391712742172073035, 14700038702030431652, 18164212294377280947, 16750600284546963984, 5301579730027729659, 11582813926452540211, 14540267531978119884, 9381602619856408748, 5435947599978147131, 3483304287807968728, 10338455844100420626, 12200714979004756797, 16251965851976854245, 12307962077891449324, 8043323473291527782, 4573060336744006851, 13485212056166495652, 8625053423102570885, 913746974556111903, 14134587393652325865] := by decide

/-- Round 20 of the permutation on the `a256` state. -/
theorem permRound_a256_20 : keccakRound [5746479001847264522, 11782032822409911363, 15046609745978280200, 4694110550289942086, 10747699486915334408, 9391712742172073035, 14700038702030431652, 18164212294377280947, 16750600284546963984, 5301579730027729659, 11582813926452540211, 14540267531978119884, 9381602619856408748, 5435947599978147131, 3483304287807968728, 10338455844100420626, 12200714979004756797, 16251965851976854245, 12307962077891449324, 8043323473291527782, 4573060336744006851, 13485212056166495652, 8625053423102570885, 913746974556111903, 14134587393652325865] 20 = [105401587657069259, 2022958492729656958, 3774458216548108649, 468158045319447557, 15250354057958428294, 637374396892481661, 14278543837821433397, 2140661696109274260, 1073616014129725667, 12485274794636393891, 16050609316049326097, 3425876938281703904, 7617916568901675333, 8374075662692355989, 9672378631778995736, 11068079897351989230, 2096848173340957456, 1370454417764521172, 15935948676325306042, 6960535510726125528, 15801605316827199957, 2281827948785721609, 2805840399725924529, 9817046469648736226, 6568314733276610990] := by decide

/-- Round 21 of the permutation on the `a256` state. -/
theorem permRound_a256_21 : keccakRound [105401587657069259, 2022958492729656958, 3774458216548108649, 468158045319447557, 15250354057958428294, 637374396892481661, 14278543837821433397, 2140661696109274260, 1073616014129725667, 12485274794636393891, 16050609316049326097, 3425876938281703904, 7617916568901675333, 8374075662692355989, 9672378631778995736, 11068079897351989230, 2096848173340957456, 1370454417764521172, 15935948676325306042, 6960535510726125528, 15801605316827199957, 2281827948785721609, 2805840399725924529, 9817046469648736226, 6568314733276610990] 21 = [15009572987339517509, 196287136478092763, 16155991221550291325, 2355466903211042385, 11444089255030097759, 5829644344471320158, 13456067649594096987, 3323596751424390461, 964836269915281981, 1966501264561860587, 14754503547870193521, 17648490808916106766, 7898083335661280602, 2895526825179802690, 8364248736778354911, 6107658092996831238, 10011156322539707877, 16680907658705091853, 18418902508590095287, 3050740565531748920, 17078109918857062407, 8390165577139323994, 14784899023572215760, 14535122920029334163, 10781440607883220197] := by decide

/-- Round 22 of the permutation on the `a256` state. -/
theorem permRound_a256_22 : keccakRound [15009572987339517509, 196287136478092763, 16155991221550291325, 2355466903211042385, 11444089255030097759, 5829644344471320158, 13456067649594096987, 3323596751424390461, 964836269915281981, 1966501264561860587, 14754503547870193521, 17648490808916106766, 7898083335661280602, 2895526825179802690, 8364248736778354911, 6107658092996831238, 10011156322539707877, 16680907658705091853, 18418902508590095287, 3050740565531748920, 17078109918857062407, 8390165577139323994, 14784899023572215760, 14535122920029334163, 10781440607883220197] 22 = [5358777729749925635, 5716182799115114053, 13828302428071070676, 7464986739931413329, 3399535887418004227, 15176770171991553108, 15944117516095077529, 10636731610301595001, 5954511425376826401, 12573343074764929239, 14493485746681623486, 13204066233240871438, 13746961421582762447, 10681953729120388545, 10106454296964045388, 2395213257157712739, 14206168482510026112, 4144197021344639562, 10842591712799787389, 8835706267539941320, 3260380628512779550, 6353495788413003253, 6940549876377194672, 8503101084797832311, 729099771046015578] := by decide

/-- Round 23 of the permutation on the `a256` state. -/
theorem permRound_a256_23 : keccakRound [5358777729749925635, 5716182799115114053, 13828302428071070676, 7464986739931413329, 3399535887418004227, 15176770171991553108, 15944117516095077529, 10636731610301595001, 5954511425376826401, 12573343074764929239, 14493485746681623486, 13204066233240871438, 13746961421582762447, 10681953729120388545, 10106454296964045388, 2395213257157712739, 14206168482510026112, 4144197021344639562, 10842591712799787389, 8835706267539941320, 3260380628512779550, 6353495788413003253, 6940549876377194672, 8503101084797832311, 729099771046015578] 23 = [5740196073438511950, 7482387899283657927, 3936256278416249280, 5002423458029978860, 13520392252802215041, 18171362494331576431, 3215941604397401109, 356599266168485374, 6353066176999717069, 3157452396987657980, 9568101118258988932, 8254641550496870826, 2152522230817382502, 3069919761365557184, 10654843065426652043, 1598426077798891850, 4793818036351967518, 15475627092364680689, 3364682653216640396, 10652805097983562137, 6992447527803355908, 9126957997163399378, 5802447900598878421, 9879892396486539214, 15780435445017591194] := by decide

/-- The full permutation on the `a256` state, round lemmas chained. -/
theorem permF_a256 : keccakF [23290465, 0, 0, 0, 0, 0, 0, 0, 0, 0, 0, 0, 0, 0, 0, 0, 9223372036854775808, 0, 0, 0, 0, 0, 0, 0, 0] = [5740196073438511950, 7482387899283657927, 3936256278416249280, 5002423458029978860, 13520392252802215041, 18171362494331576431, 3215941604397401109, 356599266168485374, 6353066176999717069, 3157452396987657980, 9568101118258988932, 8254641550496870826, 2152522230817382502, 3069919761365557184, 10654843065426652043, 1598426077798891850, 4793818036351967518, 15475627092364680689, 3364682653216640396, 10652805097983562137, 6992447527803355908, 9126957997163399378, 5802447900598878421, 9879892396486539214, 15780435445017591194] := by
  show List.foldl keccakRound [23290465, 0, 0, 0, 0, 0, 0, 0, 0, 0, 0, 0, 0, 0, 0, 0, 9223372036854775808, 0, 0, 0, 0, 0, 0, 0, 0] (List.range 24) = [5740196073438511950, 7482387899283657927, 3936256278416249280, 5002423458029978860, 13520392252802215041, 18171362494331576431, 3215941604397401109, 356599266168485374, 6353066176999717069, 3157452396987657980, 9568101118258988932, 8254641550496870826, 2152522230817382502, 3069919761365557184, 10654843065426652043, 1598426077798891850, 4793818036351967518, 15475627092364680689, 3364682653216640396, 10652805097983562137, 6992447527803355908, 9126957997163399378, 5802447900598878421, 9879892396486539214, 15780435445017591194]
  rw [range24_eq,
    List.foldl_cons,
    permRound_a256_0,
    List.foldl_cons,
    permRound_a256_1,
    List.foldl_cons,
    permRound_a256_2,
    List.foldl_cons,
    permRound_a256_3,
    List.foldl_cons,
    permRound_a256_4,
    List.foldl_cons,
    permRound_a256_5,
    List.foldl_cons,
    permRound_a256_6,
    List.foldl_cons,
    permRound_a256_7,
    List.foldl_cons,
    permRound_a256_8,
    List.foldl_cons,
    permRound_a256_9,
    List.foldl_cons,
    permRound_a256_10,
    List.foldl_cons,
    permRound_a256_11,
    List.foldl_cons,
    permRound_a256_12,
    List.foldl_cons,
    permRound_a256_13,
    List.foldl_cons,
    permRound_a256_14,
    List.foldl_cons,
    permRound_a256_15,
    List.foldl_cons,
    permRound_a256_16,
    List.foldl_cons,
    permRound_a256_17,
    List.foldl_cons,
    permRound_a256_18,
    List.foldl_cons,
    permRound_a256_19,
    List.foldl_cons,
    permRound_a256_20,
    List.foldl_cons,
    permRound_a256_21,
    List.foldl_cons,
    permRound_a256_22,
    List.foldl_cons,
    permRound_a256_23,
    List.foldl_nil]

/-- Round 0 of the permutation on the `e384` state. -/
theorem permRound_e384_0 : keccakRound [1, 0, 0, 0, 0, 0, 0, 0, 0, 0, 0, 0, 9223372036854775808, 0, 0, 0, 0, 0, 0, 0, 0, 0, 0, 0, 0] 0 = [4398046511104, 1048576, 4398046543872, 1048577, 32768, 134217728, 2097152, 0, 134217728, 2097152, 16777216, 512, 16777216, 512, 0, 268435456, 0, 36028797018963968, 268435456, 36028797018963968, 1099511627776, 18014398509481984, 1099511627776, 0, 18014398509481984] := by decide

/-- Round 1 of the permutation on the `e384` state. -/
theorem permRound_e384_1 : keccakRound [4398046511104, 1048576, 4398046543872, 1048577, 32768, 134217728, 2097152, 0, 134217728, 2097152, 16777216, 512, 16777216, 512, 0, 268435456, 0, 36028797018963968, 268435456, 36028797018963968, 1099511627776, 18014398509481984, 1099511627776, 0, 18014398509481984] 1 = [9254919233073054858, 3459371581693764018, 9417047187575030168, 11547840979205661696, 1333077120476266914, 150052551303372880, 9224114345211855712, 4758053006518657152, 2311780509743580016, 16143895172734910656, 144850762262904842, 10378545504819708288, 288936279796744202, 9370335141343265024, 1441153040668262784, 100350759954546772, 9513950969960923232, 17170424618566020, 94747219252543536, 9514206078083088768, 9804619513231384981, 9297822176784982240, 865039125697331221, 78814095138103712, 360494690925314112] := by decide

/-- Round 2 of the permutation on the `e384` state. -/
theorem permRound_e384_2 : keccakRound [9254919233073054858, 3459371581693764018, 9417047187575030168, 11547840979205661696, 1333077120476266914, 150052551303372880, 9224114345211855712, 4758053006518657152, 2311780509743580016, 16143895172734910656, 144850762262904842, 10378545504819708288, 288936279796744202, 9370335141343265024, 1441153040668262784, 100350759954546772, 9513950969960923232, 17170424618566020, 94747219252543536, 9514206078083088768, 9804619513231384981, 9297822176784982240, 865039125697331221, 78814095138103712, 360494690925314112] 2 = [2730138910225441238, 3849836084648238091, 6973192012320943637, 9537109856138221587, 6386954303753423181, 3280944657309898450, 16134469034521004863, 15684770385320015201, 4649082344720645854, 4017745421943685281, 7289720412788153199, 14036877682290943512, 12744485745122181181, 2951788400130919380, 5121657810434110107, 788847872983817346, 10811913854758869, 4337727121121524000, 1037008741042363439, 7423894835237667419, 9863141542773043972, 10924130533583920016, 3554520569600633070, 16477948699093062470, 3984613292145089352] := by decide

/-- Round 3 of the permutation on the `e384` state. -/
theorem permRound_e384_3 : keccakRound [2730138910225441238, 3849836084648238091, 6973192012320943637, 9537109856138221587, 6386954303753423181, 3280944657309898450, 16134469034521004863, 15684770385320015201, 4649082344720645854, 4017745421943685281, 7289720412788153199, 14036877682290943512, 12744485745122181181, 2951788400130919380, 5121657810434110107, 788847872983817346, 10811913854758869, 4337727121121524000, 1037008741042363439, 7423894835237667419, 9863141542773043972, 10924130533583920016, 3554520569600633070, 16477948699093062470, 3984613292145089352] 3 = [9525710736434397632, 5890012566838826324, 12649626563879353315, 6953240745681574120, 16747871996896604126, 5611992166392826048, 9249551048208456011, 8615558597189409479, 11324262496764293417, 17327138948555617551, 13810381496879813777, 12053229571133827751, 10485118293620335874, 7138045696163672494, 10163004282396677836, 10796515659161619993, 17632479103095768368, 15987514504797998093, 11795537064296433410, 5409681894405367487, 125343410888793959, 14463997676554584913, 4146435979770282692, 12816239853363245259, 10217246441977812437] := by decide

/-- Round 4 of the permutation on the `e384` state. -/
theorem permRound_e384_4 : keccakRound [9525710736434397632, 5890012566838826324, 12649626563879353315, 6953240745681574120, 16747871996896604126, 5611992166392826048, 9249551048208456011, 8615558597189409479, 11324262496764293417, 17327138948555617551, 13810381496879813777, 12053229571133827751, 10485118293620335874, 7138045696163672494, 10163004282396677836, 10796515659161619993, 17632479103095768368, 15987514504797998093, 11795537064296433410, 5409681894405367487, 125343410888793959, 14463997676554584913, 4146435979770282692, 12816239853363245259, 10217246441977812437] 4 = [17037989725901881102, 4685919243727625019, 10267281997219256991, 15948266998395663209, 13018923648054407471, 3069945314635033489, 13924646050958648239, 14240470670857966211, 16253519232634396574, 14721892221175612296, 17309093328632033497, 6858011803737724618, 6048141248804009120, 14951163633862723147, 4029608112817330353, 13961539054643285046, 1682104127436124390, 4650131825034546239, 10502148136335394730, 14741870478572529284, 13097711434329941285, 9541473228084972482, 5639666626081038141, 7593556775603609616, 14194898475177304903] := by decide

/-- Round 5 of the permutation on the `e384` state. -/
theorem permRound_e384_5 : keccakRound [17037989725901881102, 4685919243727625019, 10267281997219256991, 15948266998395663209, 13018923648054407471, 3069945314635033489, 13924646050958648239, 14240470670857966211, 16253519232634396574, 14721892221175612296, 17309093328632033497, 6858011803737724618, 6048141248804009120, 14951163633862723147, 4029608112817330353, 13961539054643285046, 1682104127436124390, 4650131825034546239, 10502148136335394730, 14741870478572529284, 13097711434329941285, 9541473228084972482, 5639666626081038141, 7593556775603609616, 14194898475177304903] 5 = [6601899183215110967, 9599816123935500900, 13896033367903713755, 5940713062406363485, 9171253347590591178, 4568062024617423468, 17682936144935287190, 6516440528766275529, 4697798719121834753, 11711295527861316507, 9101518967687581868, 10513145027873887525, 1876641387868196880, 1450997943870371906, 12241928902826641150, 15205123916181817599, 4376490892123192615, 2352071449419754624, 4447456813337824536, 2618242104266005584, 5595146297857152882, 5128740556158356727, 8191783138104666125, 16399431793686214040, 3252352647252193194] := by decide

/-- Round 6 of the permutation on the `e384` state. -/
theorem permRound_e384_6 : keccakRound [6601899183215110967, 9599816123935500900, 13896033367903713755, 5940713062406363485, 9171253347590591178, 4568062024617423468, 17682936144935287190, 6516440528766275529, 4697798719121834753, 11711295527861316507, 9101518967687581868, 10513145027873887525, 1876641387868196880, 1450997943870371906, 12241928902826641150, 15205123916181817599, 4376490892123192615, 2352071449419754624, 4447456813337824536, 2618242104266005584, 5595146297857152882, 5128740556158356727, 8191783138104666125, 16399431793686214040, 3252352647252193194] 6 = [12866491535049805292, 16052822914218273591, 12184071654970231843, 7525524476992476511, 3154442831267482896, 15780101991705774842, 4019711302431096557, 15013830410523940855, 9584919395090210697, 14637547816237408579, 4944747924055748865, 13720308885331600621, 3899848740017432516, 8748033000999443445, 586155554194464331, 6277121939982611898, 17360393472377722179, 6341707507454003679, 14584295951881285674, 11333736342441806670, 6202065485258447960, 10587981945278504015, 4547173774735427244, 4813548890417891911, 100088223790956109] := by decide

/-- Round 7 of the permutation on the `e384` state. -/
theorem permRound_e384_7 : keccakRound [12866491535049805292, 16052822914218273591, 12184071654970231843, 7525524476992476511, 3154442831267482896, 15780101991705774842, 4019711302431096557, 15013830410523940855, 9584919395090210697, 14637547816237408579, 4944747924055748865, 13720308885331600621, 3899848740017432516, 8748033000999443445, 586155554194464331, 6277121939982611898, 17360393472377722179, 6341707507454003679, 14584295951881285674, 11333736342441806670, 6202065485258447960, 10587981945278504015, 4547173774735427244, 4813548890417891911, 100088223790956109] 7 = [1051374559574614920, 15410544430788748539, 2453918435461052571, 2429892658494198925, 17691665464770613752, 2879009215233927650, 5422356870879854909, 15439541791316261474, 8943607019776877629, 2767683271955048705, 5144585861747314121, 2691303140988311087, 14921099971543559619, 3864089736718937810, 16917941830553268241, 1002304685287507376, 12768347355272937492, 8095295933072780924, 4382415294700267663, 11713939235064184176, 12142757401998167651, 1306821203212491041, 9356007117659193216, 18212889045057678992, 17884653057267385571] := by decide

/-- Round 8 of the permutation on the `e384` state. -/
theorem permRound_e384_8 : keccakRound [1051374559574614920, 15410544430788748539, 2453918435461052571, 2429892658494198925, 17691665464770613752, 2879009215233927650, 5422356870879854909, 15439541791316261474, 8943607019776877629, 2767683271955048705, 5144585861747314121, 2691303140988311087, 14921099971543559619, 3864089736718937810, 16917941830553268241, 1002304685287507376, 12768347355272937492, 8095295933072780924, 4382415294700267663, 11713939235064184176, 12142757401998167651, 1306821203212491041, 9356007117659193216, 18212889045057678992, 17884653057267385571] 8 = [6632410449343172565, 7587527814301938379, 13879853256252573946, 8564574616476329755, 17617362338092376383, 2899030132398911935, 14773924860290895337, 2544993811094386756, 8392244594638589603, 7504506107282716404, 5061379877911645205, 12093992851972889059, 17825418582330373497, 6528389063052225681, 1815988746273946576, 17399440844960826766, 12219869102354020230, 5468081730304821580, 10802946032526677268, 12428204987732244130, 8844456224032504300, 1079248497465507356, 6142152233768473399, 34470303308378395, 4000725127789749601] := by decide

/-- Round 9 of the permutation on the `e384` state. -/
theorem permRound_e384_9 : keccakRound [6632410449343172565, 7587527814301938379, 13879853256252573946, 8564574616476329755, 17617362338092376383, 2899030132398911935, 14773924860290895337, 2544993811094386756, 8392244594638589603, 7504506107282716404, 5061379877911645205, 12093992851972889059, 17825418582330373497, 6528389063052225681, 1815988746273946576, 17399440844960826766, 12219869102354020230, 5468081730304821580, 10802946032526677268, 12428204987732244130, 8844456224032504300, 1079248497465507356, 6142152233768473399, 34470303308378395, 4000725127789749601] 9 = [827447363262823425, 9214441949735587276, 17858579637706324572, 3036138865419360792, 11076002860083553071, 10949878209524155589, 5887948232341710076, 10336137101116930064, 2916200499295259669, 5573997323793678332, 14831590233522998829, 4087626067540797061, 8481535136932793817, 15262715092326399830, 1741691422226638779, 16951638028092351865, 7126708928762766223, 15770929605308897338, 9697372624375324516, 1410234674762127507, 13802258558017848699, 9198907152737198903, 13939044172563301251, 15621249640292638808, 14941693801594044386] := by decide

/-- Round 10 of the permutation on the `e384` state. -/
theorem permRound_e384_10 : keccakRound [827447363262823425, 9214441949735587276, 17858579637706324572, 3036138865419360792, 11076002860083553071, 10949878209524155589, 5887948232341710076, 10336137101116930064, 2916200499295259669, 5573997323793678332, 14831590233522998829, 4087626067540797061, 8481535136932793817, 15262715092326399830, 1741691422226638779, 16951638028092351865, 7126708928762766223, 15770929605308897338, 9697372624375324516, 1410234674762127507, 13802258558017848699, 9198907152737198903, 13939044172563301251, 15621249640292638808, 14941693801594044386] 10 = [10115779330491711006, 7146323549421083850, 9314790989882677375, 6902379175887710924, 8552532786602627746, 10006792849037332490, 11751722683383453701, 8423419461601230206, 6897159754661389031, 1922703239618942604, 10109709270108892670, 15899459706122925107, 17578202638167190058, 7976824860338497123, 17416781045533274890, 1682437253249004147, 9090629027137171577, 1711263822169299137, 2931589538773892444, 490369427667001544, 8697965495141218157, 1229375400282466992, 14438266967005612939, 8371793506498999878, 6347557525490499201] := by decide

/-- Round 11 of the permutation on the `e384` state. -/
theorem permRound_e384_11 : keccakRound [10115779330491711006, 7146323549421083850, 9314790989882677375, 6902379175887710924, 8552532786602627746, 10006792849037332490, 11751722683383453701, 8423419461601230206, 6897159754661389031, 1922703239618942604, 10109709270108892670, 15899459706122925107, 17578202638167190058, 7976824860338497123, 17416781045533274890, 1682437253249004147, 9090629027137171577, 1711263822169299137, 2931589538773892444, 490369427667001544, 8697965495141218157, 1229375400282466992, 14438266967005612939, 8371793506498999878, 6347557525490499201] 11 = [13290706668321473299, 16879824858410816742, 2440031695633650850, 7788019231625313405, 15242656083018699962, 12587442501088538401, 178180230004813192, 4640007789189434255, 6758160354686918949, 5386030123500801515, 7416443808466158075, 16289203109528292206, 12197419957847510856, 10435564820262352582, 14218662472931035335, 12832765047502939461, 8358211333279128826, 14483324379723652763, 4949631836916032265, 13385729868034462722, 13102643987533954843, 12218918687332319446, 4039126388757734255, 2240243018635851042, 1717670311598117593] := by decide

/-- Round 12 of the permutation on the `e384` state. -/
theorem permRound_e384_12 : keccakRound [13290706668321473299, 16879824858410816742, 2440031695633650850, 7788019231625313405, 15242656083018699962, 12587442501088538401, 178180230004813192, 4640007789189434255, 6758160354686918949, 5386030123500801515, 7416443808466158075, 16289203109528292206, 12197419957847510856, 10435564820262352582, 14218662472931035335, 12832765047502939461, 8358211333279128826, 14483324379723652763, 4949631836916032265, 13385729868034462722, 13102643987533954843, 12218918687332319446, 4039126388757734255, 2240243018635851042, 1717670311598117593] 12 = [7959840644312844460, 6996008720099340248, 17649817397669176706, 12358454088669086661, 1846501781158536510, 726363131580228112, 2536703495859722130, 11596135537916659580, 6797337797259030490, 8539088552819057605, 6870655729940707553, 5976065422061024185, 9532701911633984541, 5618736421830850824, 1948533679376440923, 7484567725891876163, 2672326932557343999, 12408469791686158227, 11201380026202742970, 4090316305992343586, 4690615750282166389, 5066569616642942579, 12560300131186462761, 1575670161546459099, 12627559078888714254] := by decide

/-- Round 13 of the permutation on the `e384` state. -/
theorem permRound_e384_13 : keccakRound [7959840644312844460, 6996008720099340248, 17649817397669176706, 12358454088669086661, 1846501781158536510, 726363131580228112, 2536703495859722130, 11596135537916659580, 6797337797259030490, 8539088552819057605, 6870655729940707553, 5976065422061024185, 9532701911633984541, 5618736421830850824, 1948533679376440923, 7484567725891876163, 2672326932557343999, 12408469791686158227, 11201380026202742970, 4090316305992343586, 4690615750282166389, 5066569616642942579, 12560300131186462761, 1575670161546459099, 12627559078888714254] 13 = [7745964899162161941, 9089426922794878107, 2875908273638465984, 4457099447210712249, 17016277460374827185, 17892816404993306593, 8612559620434662640, 11011505608909755402, 1379497590239190575, 5960876757102168739, 15370926318014952449, 240450068044102650, 7310693304836943650, 1955564073807389236, 1899026332103023758, 12602452584850477001, 550084710073517404, 559909331340240815, 10306870212212823101, 11099782318320492555, 7680327198167435540, 17146305776709478119, 6856850840900177202, 4101204356992865628, 8848054335197902852] := by decide

/-- Round 14 of the permutation on the `e384` state. -/
theorem permRound_e384_14 : keccakRound [7745964899162161941, 9089426922794878107, 2875908273638465984, 4457099447210712249, 17016277460374827185, 17892816404993306593, 8612559620434662640, 11011505608909755402, 1379497590239190575, 5960876757102168739, 15370926318014952449, 240450068044102650, 7310693304836943650, 1955564073807389236, 1899026332103023758, 12602452584850477001, 550084710073517404, 559909331340240815, 10306870212212823101, 11099782318320492555, 7680327198167435540, 17146305776709478119, 6856850840900177202, 4101204356992865628, 8848054335197902852] 14 = [3112505462146199001, 1365364324647772004, 14927182518611608297, 7008026051181474901, 13317097851778841883, 17327940125597361603, 4144172921248301394, 16203142562958984824, 11489496345362951069, 17437555055579830471, 7118583275762376849, 3217459100312627419, 81809831977106073, 5683757721978788253, 10914761518250604092, 3722196922191341692, 3537597712296548652, 7571943540389341760, 8768860831683277739, 1092782081899387995, 8082997768857230349, 12614253333841102889, 12419010112863522335, 14503312731383614268, 2664437452300034449] := by decide

/-- Round 15 of the permutation on the `e384` state. -/
theorem permRound_e384_15 : keccakRound [3112505462146199001, 1365364324647772004, 14927182518611608297, 7008026051181474901, 13317097851778841883, 17327940125597361603, 4144172921248301394, 16203142562958984824, 11489496345362951069, 17437555055579830471, 7118583275762376849, 3217459100312627419, 81809831977106073, 5683757721978788253, 10914761518250604092, 3722196922191341692, 3537597712296548652, 7571943540389341760, 8768860831683277739, 1092782081899387995, 8082997768857230349, 12614253333841102889, 12419010112863522335, 14503312731383614268, 2664437452300034449] 15 = [7218711797934246417, 16436010334474596612, 898115063714079507, 10268811190167628692, 12529404999421986227, 1789887443171853576, 14515407046112815158, 7350071327697275223, 12568270601408706797, 2860388222417130008, 9053820438998348835, 6648993401252635054, 3952936163091417675, 5911956601999936219, 3505343887127337423, 3578197443757989022, 614397765946106437, 8335336347304901255, 2463064440761039966, 3949071907543095500, 6167694943326906017, 13460386047939772215, 9994725235198385894, 2500348959042296960, 9406053924411234532] := by decide

/-- Round 16 of the permutation on the `e384` state. -/
theorem permRound_e384_16 : keccakRound [7218711797934246417, 16436010334474596612, 898115063714079507, 10268811190167628692, 12529404999421986227, 1789887443171853576, 14515407046112815158, 7350071327697275223, 12568270601408706797, 2860388222417130008, 9053820438998348835, 6648993401252635054, 3952936163091417675, 5911956601999936219, 3505343887127337423, 3578197443757989022, 614397765946106437, 8335336347304901255, 2463064440761039966, 3949071907543095500, 6167694943326906017, 13460386047939772215, 9994725235198385894, 2500348959042296960, 9406053924411234532] 16 = [4373469604070318976, 1084233311868343285, 8713031632765316848, 1004302059086946044, 2597986017523699442, 14099632126477679027, 12426456591727440755, 12561738658942360739, 13653127158909986314, 3023522279736349046, 11257304034537756095, 2749656951199996632, 13549315482415657222, 7811161351964015279, 18026412650917099486, 8037471299943675450, 11096315954120739855, 1575681626131827981, 7428428774358166304, 16640354741130245825, 15765937335674906956, 5551071590929934720, 10894344164474129479, 15665986146750994101, 6206279867872037262] := by decide

/-- Round 17 of the permutation on the `e384` state. -/
theorem permRound_e384_17 : keccakRound [4373469604070318976, 1084233311868343285, 8713031632765316848, 1004302059086946044, 2597986017523699442, 14099632126477679027, 12426456591727440755, 12561738658942360739, 13653127158909986314, 3023522279736349046, 11257304034537756095, 2749656951199996632, 13549315482415657222, 7811161351964015279, 18026412650917099486, 8037471299943675450, 11096315954120739855, 1575681626131827981, 7428428774358166304, 16640354741130245825, 15765937335674906956, 5551071590929934720, 10894344164474129479, 15665986146750994101, 6206279867872037262] 17 = [6369042500445728417, 8370765202857612008, 3579371084780627796, 13715973463903184852, 16824960019549976146, 10338051653553976936, 11308588991487306983, 4843934821155555523, 8581964152631282999, 16208845350769255442, 6276127772743142000, 4256750507749001894, 7939337821688434388, 13218179429730745384, 12153625096786987754, 4486004243177295821, 7431806241884639103, 8630536924776201611, 5977176865803106039, 13956382680902126008, 6558520867000415542, 1136178803453528423, 2437770360949091981, 6933761450422871528, 3141626482932907284] := by decide

/-- Round 18 of the permutation on the `e384` state. -/
theorem permRound_e384_18 : keccakRound [6369042500445728417, 8370765202857612008, 3579371084780627796, 13715973463903184852, 16824960019549976146, 10338051653553976936, 11308588991487306983, 4843934821155555523, 8581964152631282999, 16208845350769255442, 6276127772743142000, 4256750507749001894, 7939337821688434388, 13218179429730745384, 12153625096786987754, 4486004243177295821, 7431806241884639103, 8630536924776201611, 5977176865803106039, 13956382680902126008, 6558520867000415542, 1136178803453528423, 2437770360949091981, 6933761450422871528, 3141626482932907284] 18 = [8687708710964358398, 11692324599148082244, 8556314034126757728, 13145927602379770731, 8722317322214210416, 7221496481652759170, 12612038204824251916, 5960466438826619051, 12461603309769328378, 9449005250492746414, 896987759624172550, 12969590372482447257, 3760269555911813222, 15256116559489191175, 1364585842158721972, 16734820121590689563, 10518005859135194606, 2592182896514673965, 15425889500445370782, 11852705829453700331, 321780037987641303, 13210687762985916595, 3512766644856128633, 4038726155670686466, 4925985476850288285] := by decide

/-- Round 19 of the permutation on the `e384` state. -/
theorem permRound_e384_19 : keccakRound [8687708710964358398, 11692324599148082244, 8556314034126757728, 13145927602379770731, 8722317322214210416, 7221496481652759170, 12612038204824251916, 5960466438826619051, 12461603309769328378, 9449005250492746414, 896987759624172550, 12969590372482447257, 3760269555911813222, 15256116559489191175, 1364585842158721972, 16734820121590689563, 10518005859135194606, 2592182896514673965, 15425889500445370782, 11852705829453700331, 321780037987641303, 13210687762985916595, 3512766644856128633, 4038726155670686466, 4925985476850288285] 19 = [14421589515641493968, 2854303398367271774, 7203396696061206259, 12749271375269187087, 16016185811849323671, 12831180671863774461, 7930148874538517070, 11069142195340127761, 9319088017031684276, 8112865876124386334, 8663788385362306568, 1378749239654908115, 6459664979724489293, 6653989191561349242, 15174471937659894396, 13164945208711406554, 10822145939479872217, 14194250253378679842, 10071744719359753457, 14566361501288479173, 14570627722288585445, 988320474626681568, 14885920341336040498, 1651757379571951990, 2444645640194367197] := by decide

/-- Round 20 of the permutation on the `e384` state. -/
theorem permRound_e384_20 : keccakRound [14421589515641493968, 2854303398367271774, 7203396696061206259, 12749271375269187087, 16016185811849323671, 12831180671863774461, 7930148874538517070, 11069142195340127761, 9319088017031684276, 8112865876124386334, 8663788385362306568, 1378749239654908115, 6459664979724489293, 6653989191561349242, 15174471937659894396, 13164945208711406554, 10822145939479872217, 14194250253378679842, 10071744719359753457, 14566361501288479173, 14570627722288585445, 988320474626681568, 14885920341336040498, 1651757379571951990, 2444645640194367197] 20 = [5607659640234574289, 14742137806391032098, 15292484808414508982, 3643293756551179043, 8222471376782228270, 14944201644285196694, 856810502198130869, 17823211328037503651, 2706442508343238093, 13674370016294439425, 10789877183857380390, 8670776284633398057, 14489960261394666856, 16930616401833899911, 16732827178087050814, 432169896541221976, 7822757274733432007, 10484332852261084283, 5707484756316435052, 3499397392485497891, 371693133806363176, 13835892082126748598, 6087369022586136009, 2916926626331557994, 7626663407253475200] := by decide

/-- Round 21 of the permutation on the `e384` state. -/
theorem permRound_e384_21 : keccakRound [5607659640234574289, 14742137806391032098, 15292484808414508982, 3643293756551179043, 8222471376782228270, 14944201644285196694, 856810502198130869, 17823211328037503651, 2706442508343238093, 13674370016294439425, 10789877183857380390, 8670776284633398057, 14489960261394666856, 16930616401833899911, 16732827178087050814, 432169896541221976, 7822757274733432007, 10484332852261084283, 5707484756316435052, 3499397392485497891, 371693133806363176, 13835892082126748598, 6087369022586136009, 2916926626331557994, 7626663407253475200] 21 = [9616195685195608749, 12003091559105405485, 15479654213317259752, 1932747026051310095, 16857306624618297143, 11186249712712260146, 12280229414579515229, 7471793048371845252, 12322280332775422221, 1015319715836468639, 1891291553083543634, 16615939443926249076, 1402684840609954829, 11047422781324488414, 9547737563424579328, 2022695010060362324, 5384321228146806427, 17843235018099956933, 11523440202049469390, 9453822795584773057, 17886876500021327672, 11203150544661933514, 15061629968755772667, 17300123837234789901, 2859352104066342944] := by decide

/-- Round 22 of the permutation on the `e384` state. -/
theorem permRound_e384_22 : keccakRound [9616195685195608749, 12003091559105405485, 15479654213317259752, 1932747026051310095, 16857306624618297143, 11186249712712260146, 12280229414579515229, 7471793048371845252, 12322280332775422221, 1015319715836468639, 1891291553083543634, 16615939443926249076, 1402684840609954829, 11047422781324488414, 9547737563424579328, 2022695010060362324, 5384321228146806427, 17843235018099956933, 11523440202049469390, 9453822795584773057, 17886876500021327672, 11203150544661933514, 15061629968755772667, 17300123837234789901, 2859352104066342944] 22 = [13094492648908529167, 8979117997282811310, 5532660254705556448, 380878104011376222, 10405782501885667752, 8761963720401157202, 17668245038128799681, 6066581144947969309, 18167799054632208163, 623809267583712307, 15942033509372513903, 3199907183981409268, 7698924725487629719, 8863580695980676384, 6576283358191883226, 1712962490088843751, 10024244569237648961, 5739775802202746941, 16745239721864004093, 16853359072455937895, 15774903334854400995, 3499715005703897180, 12302917350970781650, 4636541964711792494, 16782343456808004417] := by decide

/-- Round 23 of the permutation on the `e384` state. -/
theorem permRound_e384_23 : keccakRound [13094492648908529167, 8979117997282811310, 5532660254705556448, 380878104011376222, 10405782501885667752, 8761963720401157202, 17668245038128799681, 6066581144947969309, 18167799054632208163, 623809267583712307, 15942033509372513903, 3199907183981409268, 7698924725487629719, 8863580695980676384, 6576283358191883226, 1712962490088843751, 10024244569237648961, 5739775802202746941, 16745239721864004093, 16853359072455937895, 15774903334854400995, 3499715005703897180, 12302917350970781650, 4636541964711792494, 16782343456808004417] 23 = [14959447660129690412, 12271960407324485529, 14703259312986965629, 11189160907244268032, 4716451206094049837, 18399202913570591404, 3071129529802886214, 970630119044110857, 2889795050451547537, 2054289638347537131, 6159428579343189311, 13042459098592200103, 15417411798488474143, 15473936682117144699, 13632467375389184807, 11706324496549014669, 10830193384999384350, 16975895909308518954, 4704187246641907885, 3481954039651624165, 9260097743521284062, 18227771841996034655, 10923686268287397502, 6415898372344202838, 4566117411360546182] := by decide

/-- The full permutation on the `e384` state, round lemmas chained. -/
theorem permF_e384 : keccakF [1, 0, 0, 0, 0, 0, 0, 0, 0, 0, 0, 0, 9223372036854775808, 0, 0, 0, 0, 0, 0, 0, 0, 0, 0, 0, 0] = [14959447660129690412, 12271960407324485529, 14703259312986965629, 11189160907244268032, 4716451206094049837, 18399202913570591404, 3071129529802886214, 970630119044110857, 2889795050451547537, 2054289638347537131, 6159428579343189311, 13042459098592200103, 15417411798488474143, 15473936682117144699, 13632467375389184807, 11706324496549014669, 10830193384999384350, 16975895909308518954, 4704187246641907885, 3481954039651624165, 9260097743521284062, 18227771841996034655, 10923686268287397502, 6415898372344202838, 4566117411360546182] := by
  show List.foldl keccakRound [1, 0, 0, 0, 0, 0, 0, 0, 0, 0, 0, 0, 9223372036854775808, 0, 0, 0, 0, 0, 0, 0, 0, 0, 0, 0, 0] (List.range 24) = [14959447660129690412, 12271960407324485529, 14703259312986965629, 11189160907244268032, 4716451206094049837, 18399202913570591404, 3071129529802886214, 970630119044110857, 2889795050451547537, 2054289638347537131, 6159428579343189311, 13042459098592200103, 15417411798488474143, 15473936682117144699, 13632467375389184807, 11706324496549014669, 10830193384999384350, 16975895909308518954, 4704187246641907885, 3481954039651624165, 9260097743521284062, 18227771841996034655, 10923686268287397502, 6415898372344202838, 4566117411360546182]
  rw [range24_eq,
    List.foldl_cons,
    permRound_e384_0,
    List.foldl_cons,
    permRound_e384_1,
    List.foldl_cons,
    permRound_e384_2,
    List.foldl_cons,
    permRound_e384_3,
    List.foldl_cons,
    permRound_e384_4,
    List.foldl_cons,
    permRound_e384_5,
    List.foldl_cons,
    permRound_e384_6,
    List.foldl_cons,
    permRound_e384_7,
    List.foldl_cons,
    permRound_e384_8,
    List.foldl_cons,
    permRound_e384_9,
    List.foldl_cons,
    permRound_e384_10,
    List.foldl_cons,
    permRound_e384_11,
    List.foldl_cons,
    permRound_e384_12,
    List.foldl_cons,
    permRound_e384_13,
    List.foldl_cons,
    permRound_e384_14,
    List.foldl_cons,
    permRound_e384_15,
    List.foldl_cons,
    permRound_e384_16,
    List.foldl_cons,
    permRound_e384_17,
    List.foldl_cons,
    permRound_e384_18,
    List.foldl_cons,
    permRound_e384_19,
    List.foldl_cons,
    permRound_e384_20,
    List.foldl_cons,
    permRound_e384_21,
    List.foldl_cons,
    permRound_e384_22,
    List.foldl_cons,
    permRound_e384_23,
    List.foldl_nil]

/-- Round 0 of the permutation on the `a384` state. -/
theorem permRound_a384_0 : keccakRound [23290465, 0, 0, 0, 0, 0, 0, 0, 0, 0, 0, 0, 9223372036854775808, 0, 0, 0, 0, 0, 0, 0, 0, 0, 0, 0, 0] 0 = [4398069801568, 3901806127164162070, 5161227419648, 5464673, 3901806890345070614, 134217728, 7803661097971482668, 0, 7803612254460444716, 48843511037952, 63358144, 11924718080, 16777216, 11878401728, 0, 6251976082423808, 0, 36028820868399104, 6251986592727040, 36028797018963968, 7143378611590922241, 18014398509481984, 7161393010193566081, 0, 18014398602643840] := by decide

/-- Round 1 of the permutation on the `a384` state. -/
theorem permRound_a384_1 : keccakRound [4398069801568, 3901806127164162070, 5161227419648, 5464673, 3901806890345070614, 134217728, 7803661097971482668, 0, 7803612254460444716, 48843511037952, 63358144, 11924718080, 16777216, 11878401728, 0, 6251976082423808, 0, 36028820868399104, 6251986592727040, 36028797018963968, 7143378611590922241, 18014398509481984, 7161393010193566081, 0, 18014398602643840] 1 = [2500465452880653834, 1619289569841298613, 1178210499042676998, 5159757189671666179, 17676753238102375080, 16759125159157345236, 7124472554767751107, 979568274341644548, 7436620656550739820, 4347280096363769983, 4433513077659828019, 508989283888221090, 6789648373237046328, 10609429553556858497, 15425845334559884864, 10536432772694157847, 17823142041335824642, 5723798696078315523, 3603054167858405643, 16739382956692233874, 2640050446434931320, 13455120842839869773, 312094174580613623, 15726100430545839793, 15191276191558720395] := by decide

/-- Round 2 of the permutation on the `a384` state. -/
theorem permRound_a384_2 : keccakRound [2500465452880653834, 1619289569841298613, 1178210499042676998, 5159757189671666179, 17676753238102375080, 16759125159157345236, 7124472554767751107, 979568274341644548, 7436620656550739820, 4347280096363769983, 4433513077659828019, 508989283888221090, 6789648373237046328, 10609429553556858497, 15425845334559884864, 10536432772694157847, 17823142041335824642, 5723798696078315523, 3603054167858405643, 16739382956692233874, 2640050446434931320, 13455120842839869773, 312094174580613623, 15726100430545839793, 15191276191558720395] 2 = [16974740196412153074, 12674240023434334481, 9772977053316954760, 7366771460140830364, 13802792725520532423, 18114074072261708255, 2307654809356081248, 3861986746134765171, 16380454654684599573, 10497391594016618008, 6910992113237899598, 2675103647694605792, 18395949310201161584, 1556810131869911911, 2069265378699489960, 14407137510942496694, 10979704148853028407, 15117202845332336926, 700477118013273486, 8329120995752042817, 5104964058121942092, 14948053510993855308, 7824344812757030411, 8836218972728336801, 3537615024629466095] := by decide

/-- Round 3 of the permutation on the `a384` state. -/
theorem permRound_a384_3 : keccakRound [16974740196412153074, 12674240023434334481, 9772977053316954760, 7366771460140830364, 13802792725520532423, 18114074072261708255, 2307654809356081248, 3861986746134765171, 16380454654684599573, 10497391594016618008, 6910992113237899598, 2675103647694605792, 18395949310201161584, 1556810131869911911, 2069265378699489960, 14407137510942496694, 10979704148853028407, 15117202845332336926, 700477118013273486, 8329120995752042817, 5104964058121942092, 14948053510993855308, 7824344812757030411, 8836218972728336801, 3537615024629466095] 3 = [7797736072600722110, 8353968296495230592, 14752805167058127684, 3932291904717929571, 2706373565047198628, 1512064875242933591, 11301439222414370504, 16296445493137728286, 13407973472348808423, 14616205442536841188, 1988115942773435907, 16674719576116246151, 2093814599387841496, 1826323923780155717, 15313248470393140534, 16864070244623257422, 17043010451785145615, 15373465302598490657, 17028555061161882051, 9939005585901468623, 968035873678885050, 11266587526594456548, 7950160750706385606, 17125913788531188871, 10733182018109569254] := by decide

/-- Round 4 of the permutation on the `a384` state. -/
theorem permRound_a384_4 : keccakRound [7797736072600722110, 8353968296495230592, 14752805167058127684, 3932291904717929571, 2706373565047198628, 1512064875242933591, 11301439222414370504, 16296445493137728286, 13407973472348808423, 14616205442536841188, 1988115942773435907, 16674719576116246151, 2093814599387841496, 1826323923780155717, 15313248470393140534, 16864070244623257422, 17043010451785145615, 15373465302598490657, 17028555061161882051, 9939005585901468623, 968035873678885050, 11266587526594456548, 7950160750706385606, 17125913788531188871, 10733182018109569254] 4 = [12968341265418316707, 17710916861757097022, 1157865364464000441, 17787482103978727852, 10348755931102479928, 15680110614885739328, 2455441197198385910, 7221175333903671495, 16832022342315755932, 419936383693162707, 14833693026777693625, 10330166354607602281, 14447272233173551600, 3896308065739989813, 5498352227592923807, 5936897397741762968, 9124411644756585266, 12013745528022589643, 13036321074311713497, 8118538263410518497, 12096008446096920278, 3330330005407025201, 5184643866254385357, 8237707054648970055, 4397038443796262373] := by decide

/-- Round 5 of the permutation on the `a384` state. -/
theorem permRound_a384_5 : keccakRound [12968341265418316707, 17710916861757097022, 1157865364464000441, 17787482103978727852, 10348755931102479928, 15680110614885739328, 2455441197198385910, 7221175333903671495, 16832022342315755932, 419936383693162707, 14833693026777693625, 10330166354607602281, 14447272233173551600, 3896308065739989813, 5498352227592923807, 5936897397741762968, 9124411644756585266, 12013745528022589643, 13036321074311713497, 8118538263410518497, 12096008446096920278, 3330330005407025201, 5184643866254385357, 8237707054648970055, 4397038443796262373] 5 = [2699479639323751446, 8142274633090430835, 1089845804856097387, 1500015081796531201, 1323442322708405976, 16633543366743699288, 12695317718986279917, 12730123971920729376, 6725236318208702081, 805365605369405807, 4598575672010042997, 13542644733058602686, 4585714570205598057, 8441123710697888779, 9236570248680464836, 472224157766140994, 12809095389366872569, 13889682476917700498, 15774964620228159728, 9753207276482921254, 3519669033888112075, 6490996637681209213, 6568559636299484176, 13870341192632897771, 15153477185722101443] := by decide

/-- Round 6 of the permutation on the `a384` state. -/
theorem permRound_a384_6 : keccakRound [2699479639323751446, 8142274633090430835, 1089845804856097387, 1500015081796531201, 1323442322708405976, 16633543366743699288, 12695317718986279917, 12730123971920729376, 6725236318208702081, 805365605369405807, 4598575672010042997, 13542644733058602686, 4585714570205598057, 8441123710697888779, 9236570248680464836, 472224157766140994, 12809095389366872569, 13889682476917700498, 15774964620228159728, 9753207276482921254, 3519669033888112075, 6490996637681209213, 6568559636299484176, 13870341192632897771, 15153477185722101443] 6 = [58869014169082184, 10570340847373985923, 7315340065504522124, 13899746865318541266, 9180219432702687261, 10880085349141251703, 13166181581808410039, 267899127078991222, 2794756845725659091, 10444985393483382962, 17885957764104628003, 902965713761040671, 4517199922057948147, 3322067075959935798, 15302471159746297340, 5853363413677251691, 16794135030023336221, 17399164973448528330, 3013147802806715940, 14322315798530594274, 3810584554629998207, 1278803024973346091, 14415842880437620158, 17806586260609398348, 11326401832266556222] := by decide

/-- Round 7 of the permutation on the `a384` state. -/
theorem permRound_a384_7 : keccakRound [58869014169082184, 10570340847373985923, 7315340065504522124, 13899746865318541266, 9180219432702687261, 10880085349141251703, 13166181581808410039, 267899127078991222, 2794756845725659091, 10444985393483382962, 17885957764104628003, 902965713761040671, 4517199922057948147, 3322067075959935798, 15302471159746297340, 5853363413677251691, 16794135030023336221, 17399164973448528330, 3013147802806715940, 14322315798530594274, 3810584554629998207, 1278803024973346091, 14415842880437620158, 17806586260609398348, 11326401832266556222] 7 = [2595665392093563636, 654497527424977308, 16478253322029732752, 2551795046530717038, 11627553223322395159, 6081542828150077356, 4268521325789447129, 14181687216539623642, 16229186075023641224, 12444208163915484722, 12762973222042085602, 4289352581540632057, 2240216539168644953, 12664690760365018439, 12124230010201245538, 9200722863990135879, 18174941731316633733, 16595607384270286394, 1101228563972285511, 12630051982042570220, 14211018213609149547, 15878878687118875039, 15663828976911715456, 14802508585554570189, 9107760263085039095] := by decide

/-- Round 8 of the permutation on the `a384` state. -/
theorem permRound_a384_8 : keccakRound [2595665392093563636, 654497527424977308, 16478253322029732752, 2551795046530717038, 11627553223322395159, 6081542828150077356, 4268521325789447129, 14181687216539623642, 16229186075023641224, 12444208163915484722, 12762973222042085602, 4289352581540632057, 2240216539168644953, 12664690760365018439, 12124230010201245538, 9200722863990135879, 18174941731316633733, 16595607384270286394, 1101228563972285511, 12630051982042570220, 14211018213609149547, 15878878687118875039, 15663828976911715456, 14802508585554570189, 9107760263085039095] 8 = [2491871949250430018, 6661941109878667011, 5591589874434352559, 6040423740139750703, 8211226576773642884, 14611103634931486197, 1317318472402715864, 13106361786213824406, 17297799417662912157, 2736196078933828622, 11892274206841148080, 11840963616704684383, 13930627850459217988, 6863605319138540007, 11427896277944140007, 2620587217325503063, 348776701765511351, 1157711746297685120, 9504585159117500016, 6846921651124017523, 15389555136974516186, 5521467859910000336, 7031142382439198436, 14828638212686281, 10675551766144906607] := by decide

/-- Round 9 of the permutation on the `a384` state. -/
theorem permRound_a384_9 : keccakRound [2491871949250430018, 6661941109878667011, 5591589874434352559, 6040423740139750703, 8211226576773642884, 14611103634931486197, 1317318472402715864, 13106361786213824406, 17297799417662912157, 2736196078933828622, 11892274206841148080, 11840963616704684383, 13930627850459217988, 6863605319138540007, 11427896277944140007, 2620587217325503063, 348776701765511351, 1157711746297685120, 9504585159117500016, 6846921651124017523, 15389555136974516186, 5521467859910000336, 7031142382439198436, 14828638212686281, 10675551766144906607] 9 = [8306182966227140095, 2495558212701206828, 3916571374350809615, 6385039849898073951, 1733773243156112536, 8324276267785130707, 9913558896669265776, 13388121300092950, 17567874948471307354, 17289938613686549779, 16378087785946187639, 4203028497158809962, 979874429656583531, 9370311747488713037, 554631556789987427, 6306681955043017329, 10583226820031129196, 4901239379032116754, 4449658866264780299, 11119900190104958521, 5505228682373810207, 1647795160765916165, 15599399697469085471, 7914446954836447247, 13155465906636916129] := by decide

/-- Round 10 of the permutation on the `a384` state. -/
theorem permRound_a384_10 : keccakRound [8306182966227140095, 2495558212701206828, 3916571374350809615, 6385039849898073951, 1733773243156112536, 8324276267785130707, 9913558896669265776, 13388121300092950, 17567874948471307354, 17289938613686549779, 16378087785946187639, 4203028497158809962, 979874429656583531, 9370311747488713037, 554631556789987427, 6306681955043017329, 10583226820031129196, 4901239379032116754, 4449658866264780299, 11119900190104958521, 5505228682373810207, 1647795160765916165, 15599399697469085471, 7914446954836447247, 13155465906636916129] 10 = [9568172790310818904, 11964273989649770004, 9361892203073525730, 4743001889266624853, 2772103562977641923, 8566355965461458252, 14587346368977331422, 12608807669516724674, 4115824140456111089, 10296428808304991992, 2582267940280970571, 12782943834479356025, 10957672923149230683, 17284369585619278163, 15666004472279775373, 14935554441708968101, 163444582764262213, 5131188892436507190, 14405619062231191928, 10518542758405708410, 3486163263775822818, 7104426666411666830, 11679561111589265830, 1221951331788158529, 14153044369322410803] := by decide

/-- Round 11 of the permutation on the `a384` state. -/
theorem permRound_a384_11 : keccakRound [9568172790310818904, 11964273989649770004, 9361892203073525730, 4743001889266624853, 2772103562977641923, 8566355965461458252, 14587346368977331422, 12608807669516724674, 4115824140456111089, 10296428808304991992, 2582267940280970571, 12782943834479356025, 10957672923149230683, 17284369585619278163, 15666004472279775373, 14935554441708968101, 163444582764262213, 5131188892436507190, 14405619062231191928, 10518542758405708410, 3486163263775822818, 7104426666411666830, 11679561111589265830, 1221951331788158529, 14153044369322410803] 11 = [6848002676313425884, 8881950167009877071, 16860875632956427176, 16730821600114352336, 9567246746845351549, 255445946604796802, 7188503220571681190, 11736267712281426851, 1763147428059397234, 3141325410022414844, 6430727670414298110, 14696345493457963424, 16935982071192182168, 1322418154803725580, 3125418719230672502, 18154923933558556356, 4702873896902853617, 14636378938888199915, 5571349422030011898, 5767660471647369845, 12349530761284398225, 18127480956194440238, 15453285641140321813, 6239543093801330494, 17297695633423807495] := by decide

/-- Round 12 of the permutation on the `a384` state. -/
theorem permRound_a384_12 : keccakRound [6848002676313425884, 8881950167009877071, 16860875632956427176, 16730821600114352336, 9567246746845351549, 255445946604796802, 7188503220571681190, 11736267712281426851, 1763147428059397234, 3141325410022414844, 6430727670414298110, 14696345493457963424, 16935982071192182168, 1322418154803725580, 3125418719230672502, 18154923933558556356, 4702873896902853617, 14636378938888199915, 5571349422030011898, 5767660471647369845, 12349530761284398225, 18127480956194440238, 15453285641140321813, 6239543093801330494, 17297695633423807495] 12 = [16774693157559693642, 12351544878602862602, 15227377983376932370, 7586916034543813715, 3726266070646515950, 941972412474724425, 2307969720647099473, 8852980414759655893, 16635164348566928390, 7606521705912722296, 12381517090034791523, 12223897920300608782, 5453042962284880443, 4000031133350261569, 6450687934099454097, 6901296625535741830, 17919594486270054898, 7309660189504006389, 5259819770301557785, 17979071444303037213, 12462590778710348218, 9347817255923335419, 8120658323907248825, 6290573658765382956, 5980697297845225542] := by decide

/-- Round 13 of the permutation on the `a384` state. -/
theorem permRound_a384_13 : keccakRound [16774693157559693642, 12351544878602862602, 15227377983376932370, 7586916034543813715, 3726266070646515950, 941972412474724425, 2307969720647099473, 8852980414759655893, 16635164348566928390, 7606521705912722296, 12381517090034791523, 12223897920300608782, 5453042962284880443, 4000031133350261569, 6450687934099454097, 6901296625535741830, 17919594486270054898, 7309660189504006389, 5259819770301557785, 17979071444303037213, 12462590778710348218, 9347817255923335419, 8120658323907248825, 6290573658765382956, 5980697297845225542] 13 = [7009258669475475750, 13908894837608158564, 5961396432857263405, 12332532968342784933, 16602719609810953611, 5753009486441097409, 7578636537274389756, 16528357010824867581, 12658475398754743581, 17052012138034432744, 11210552248207108175, 10539900822826612639, 6699851923840535224, 248634094309778790, 11991880242065235133, 9592371906599976921, 15781117020248933012, 6168136532938853349, 10783339190653565510, 9209903726111947788, 5908127032349276295, 11412293710965204688, 16586543006458755358, 9888927045155735765, 14631531902319318283] := by decide

/-- Round 14 of the permutation on the `a384` state. -/
theorem permRound_a384_14 : keccakRound [7009258669475475750, 13908894837608158564, 5961396432857263405, 12332532968342784933, 16602719609810953611, 5753009486441097409, 7578636537274389756, 16528357010824867581, 12658475398754743581, 17052012138034432744, 11210552248207108175, 10539900822826612639, 6699851923840535224, 248634094309778790, 11991880242065235133, 9592371906599976921, 15781117020248933012, 6168136532938853349, 10783339190653565510, 9209903726111947788, 5908127032349276295, 11412293710965204688, 16586543006458755358, 9888927045155735765, 14631531902319318283] 14 = [7431938680862822387, 9438029176590659820, 16452116218212299785, 17503334804726215613, 7382232279924126955, 18019430262832683184, 7501101394512397121, 18028245056820122803, 16170334105651530635, 17707528214145738609, 7315285914070583592, 1742691848966833294, 5418613266548290050, 8275928534861778087, 4404323455674211945, 12441755857379096391, 1037316648108576305, 10584947638494887176, 5446471932061682277, 13237591210803972630, 2869501817815794431, 6800686691119310453, 1557135064819651559, 13856883661321949392, 11714258922100799489] := by decide

/-- Round 15 of the permutation on the `a384` state. -/
theorem permRound_a384_15 : keccakRound [7431938680862822387, 9438029176590659820, 16452116218212299785, 17503334804726215613, 7382232279924126955, 18019430262832683184, 7501101394512397121, 18028245056820122803, 16170334105651530635, 17707528214145738609, 7315285914070583592, 1742691848966833294, 5418613266548290050, 8275928534861778087, 4404323455674211945, 12441755857379096391, 1037316648108576305, 10584947638494887176, 5446471932061682277, 13237591210803972630, 2869501817815794431, 6800686691119310453, 1557135064819651559, 13856883661321949392, 11714258922100799489] 15 = [10650328469340316252, 2391928139286171904, 15820285661975714981, 10338698444402314896, 15579635372071647906, 10064286235573288254, 15778693722390011445, 15788220140503976469, 7568362111605371254, 6654655210714368088, 12283973572838741800, 6270085379042599888, 6305042495460757832, 11945712658117760411, 12826222782340810385, 9156222816995066218, 1181523256683654649, 11527889498381700989, 298210355388182968, 5620782191254260162, 13940402354208599243, 5255381559209574036, 121866366856782210, 9505052234946454203, 3272881385987032066] := by decide

/-- Round 16 of the permutation on the `a384` state. -/
theorem permRound_a384_16 : keccakRound [10650328469340316252, 2391928139286171904, 15820285661975714981, 10338698444402314896, 15579635372071647906, 10064286235573288254, 15778693722390011445, 15788220140503976469, 7568362111605371254, 6654655210714368088, 12283973572838741800, 6270085379042599888, 6305042495460757832, 11945712658117760411, 12826222782340810385, 9156222816995066218, 1181523256683654649, 11527889498381700989, 298210355388182968, 5620782191254260162, 13940402354208599243, 5255381559209574036, 121866366856782210, 9505052234946454203, 3272881385987032066] 16 = [11085395891234498787, 762534160987849064, 3598846022717399135, 15046449121856065989, 9644540756717382769, 7959490842949693648, 3579113086128639552, 11869707335046890502, 18088657157219841865, 17233474100861272215, 9219901167100086363, 8020410383716645417, 6446221846718597522, 16880792867785239387, 11110020907551550480, 12129695473043052999, 10291200518694377830, 5525252380183712639, 13404434171125050149, 18331314949981700440, 3023111602384797758, 15889668882659203589, 1191838528371644107, 9100545081654017903, 14608199330737477314] := by decide

/-- Round 17 of the permutation on the `a384` state. -/
theorem permRound_a384_17 : keccakRound [11085395891234498787, 762534160987849064, 3598846022717399135, 15046449121856065989, 9644540756717382769, 7959490842949693648, 3579113086128639552, 11869707335046890502, 18088657157219841865, 17233474100861272215, 9219901167100086363, 8020410383716645417, 6446221846718597522, 16880792867785239387, 11110020907551550480, 12129695473043052999, 10291200518694377830, 5525252380183712639, 13404434171125050149, 18331314949981700440, 3023111602384797758, 15889668882659203589, 1191838528371644107, 9100545081654017903, 14608199330737477314] 17 = [15391017730769591746, 14441462391406354932, 9432643102555577065, 4070765541218108363, 5104666110537455506, 2491480628489180225, 14241211631759110377, 16005621593422270365, 1156181026853842687, 11999057882297512696, 9154420698459150344, 4761752366873253218, 17981081773856308517, 4778153998367315940, 13844168434978111841, 2572047102801790564, 462892482590601862, 7113090532593452899, 11875882097351434626, 5287878132309813883, 14345654001817144199, 11994500804064345393, 12414584576343804644, 9206657863492339853, 16573032789193931159] := by decide

/-- Round 18 of the permutation on the `a384` state. -/
theorem permRound_a384_18 : keccakRound [15391017730769591746, 14441462391406354932, 9432643102555577065, 4070765541218108363, 5104666110537455506, 2491480628489180225, 14241211631759110377, 16005621593422270365, 1156181026853842687, 11999057882297512696, 9154420698459150344, 4761752366873253218, 17981081773856308517, 4778153998367315940, 13844168434978111841, 2572047102801790564, 462892482590601862, 7113090532593452899, 11875882097351434626, 5287878132309813883, 14345654001817144199, 11994500804064345393, 12414584576343804644, 9206657863492339853, 16573032789193931159] 18 = [15454352252868778558, 1041162630425002047, 6526792459976181671, 16168103356792442745, 16148769225893749540, 10988870601348868308, 13535024308383436376, 2555190185053167585, 11828800813460095183, 4855960874256915152, 16662630133104306442, 17025054552222186133, 12398968409183108798, 16528655123430365185, 40570345020605264, 16641682348940140575, 6392652854599353408, 10645031122648079332, 11722453653563374641, 10091958019742003266, 816309080898465187, 8248673677933768666, 14742011456319200016, 116012193052028171, 515120117443242372] := by decide

/-- Round 19 of the permutation on the `a384` state. -/
theorem permRound_a384_19 : keccakRound [15454352252868778558, 1041162630425002047, 6526792459976181671, 16168103356792442745, 16148769225893749540, 10988870601348868308, 13535024308383436376, 2555190185053167585, 11828800813460095183, 4855960874256915152, 16662630133104306442, 17025054552222186133, 12398968409183108798, 16528655123430365185, 40570345020605264, 16641682348940140575, 6392652854599353408, 10645031122648079332, 11722453653563374641, 10091958019742003266, 816309080898465187, 8248673677933768666, 14742011456319200016, 116012193052028171, 515120117443242372] 19 = [10575107535761658439, 2684504384502374444, 8873857958015079667, 3287801629581982412, 6440623100374444894, 4121514850953388037, 5798442689097417204, 5276415089718928841, 8917881486166162422, 1583528900737684206, 2003677498880044756, 5430677778472198611, 9388772058805664448, 4857410781620361170, 3355266000429012771, 5507267178863550644, 16722735426502508415, 14251274705278813946, 5308036919053742689, 7190138543537634119, 16366920316901251060, 546327850295143798, 12308359527147423113, 17274421226251229446, 10244197234899744380] := by decide

/-- Round 20 of the permutation on the `a384` state. -/
theorem permRound_a384_20 : keccakRound [10575107535761658439, 2684504384502374444, 8873857958015079667, 3287801629581982412, 6440623100374444894, 4121514850953388037, 5798442689097417204, 5276415089718928841, 8917881486166162422, 1583528900737684206, 2003677498880044756, 5430677778472198611, 9388772058805664448, 4857410781620361170, 3355266000429012771, 5507267178863550644, 16722735426502508415, 14251274705278813946, 5308036919053742689, 7190138543537634119, 16366920316901251060, 546327850295143798, 12308359527147423113, 17274421226251229446, 10244197234899744380] 20 = [8566637601266651561, 13236940548622910225, 1792398758065817282, 13743497863939830509, 5859386102738445024, 8779700202506760020, 5989948237344768048, 4327971675812814793, 1508928242325678999, 9340598488924919216, 5575939083459886483, 11079053510204142997, 6091940935353099333, 4204273309711426863, 12849226890260986902, 16566279519147966740, 6281459916024375487, 12278420611300335422, 17468183535777430282, 15866020157271012669, 8331453375093363710, 2170058533034816370, 6250864757436008419, 8931330764465923576, 11368088477891845838] := by decide

/-- Round 21 of the permutation on the `a384` state. -/
theorem permRound_a384_21 : keccakRound [8566637601266651561, 13236940548622910225, 1792398758065817282, 13743497863939830509, 5859386102738445024, 8779700202506760020, 5989948237344768048, 4327971675812814793, 1508928242325678999, 9340598488924919216, 5575939083459886483, 11079053510204142997, 6091940935353099333, 4204273309711426863, 12849226890260986902, 16566279519147966740, 6281459916024375487, 12278420611300335422, 17468183535777430282, 15866020157271012669, 8331453375093363710, 2170058533034816370, 6250864757436008419, 8931330764465923576, 11368088477891845838] 21 = [10748114500313770346, 15216942561879184827, 17904942814065034242, 4595645172662005003, 13752498800298565396, 10251909509501408318, 1755737404894021158, 13794619824209373944, 2811818772292070307, 11106290570476762875, 15260847913141383989, 10472321668427152802, 13235227348873304513, 14412968620239716429, 14440454368048491733, 4100029753150181023, 10940176508982354286, 5270819387640434770, 325419128301081094, 9412723515213478497, 1115251924118120901, 12839578952668580999, 10571879209080933758, 9670547670298521820, 18174829581141455685] := by decide

/-- Round 22 of the permutation on the `a384` state. -/
theorem permRound_a384_22 : keccakRound [10748114500313770346, 15216942561879184827, 17904942814065034242, 4595645172662005003, 13752498800298565396, 10251909509501408318, 1755737404894021158, 13794619824209373944, 2811818772292070307, 11106290570476762875, 15260847913141383989, 10472321668427152802, 13235227348873304513, 14412968620239716429, 14440454368048491733, 4100029753150181023, 10940176508982354286, 5270819387640434770, 325419128301081094, 9412723515213478497, 1115251924118120901, 12839578952668580999, 10571879209080933758, 9670547670298521820, 18174829581141455685] 22 = [8691700605223215848, 9194990965891128198, 15696011713947467959, 10970022828413408734, 8383763581067221000, 16497091099065529056, 3170198632736715156, 8918909724592360567, 5138087450242250129, 13994559202542606542, 4394397434877735900, 3559171387757714743, 15938473093880606849, 6944746941792942438, 3752066634548088631, 16113890856457916560, 6235791027889174570, 14696742935169359074, 2348627377160805721, 15458878699361263905, 9996433510432506328, 14165523922688900556, 17264947978485609082, 14306066815033232024, 3021982009154794060] := by decide

/-- Round 23 of the permutation on the `a384` state. -/
theorem permRound_a384_23 : keccakRound [8691700605223215848, 9194990965891128198, 15696011713947467959, 10970022828413408734, 8383763581067221000, 16497091099065529056, 3170198632736715156, 8918909724592360567, 5138087450242250129, 13994559202542606542, 4394397434877735900, 3559171387757714743, 15938473093880606849, 6944746941792942438, 3752066634548088631, 16113890856457916560, 6235791027889174570, 14696742935169359074, 2348627377160805721, 15458878699361263905, 9996433510432506328, 14165523922688900556, 17264947978485609082, 14306066815033232024, 3021982009154794060] 23 = [8877496398058217463, 3416734070479493344, 3935218500881956980, 11033567397110358628, 11759373272028923640, 10287034516289598029, 9413162575303475712, 7940397824648715709, 12638087305083170877, 3778617018155846573, 3569494447863537472, 2825635867744299371, 7763183230807064849, 14580706256322455860, 12351584554132448774, 9915971551551454318, 2831863767401516157, 17031211153535950281, 7901674622651237049, 6847703735927453728, 2536169228961740249, 14587724431379304655, 898065708745874879, 16092239608685562050, 466113551188831116] := by decide

/-- The full permutation on the `a384` state, round lemmas chained. -/
theorem permF_a384 : keccakF [23290465, 0, 0, 0, 0, 0, 0, 0, 0, 0, 0, 0, 9223372036854775808, 0, 0, 0, 0, 0, 0, 0, 0, 0, 0, 0, 0] = [8877496398058217463, 3416734070479493344, 3935218500881956980, 11033567397110358628, 11759373272028923640, 10287034516289598029, 9413162575303475712, 7940397824648715709, 12638087305083170877, 3778617018155846573, 3569494447863537472, 2825635867744299371, 7763183230807064849, 14580706256322455860, 12351584554132448774, 9915971551551454318, 2831863767401516157, 17031211153535950281, 7901674622651237049, 6847703735927453728, 2536169228961740249, 14587724431379304655, 898065708745874879, 16092239608685562050, 466113551188831116] := by
  show List.foldl keccakRound [23290465, 0, 0, 0, 0, 0, 0, 0, 0, 0, 0, 0, 9223372036854775808, 0, 0, 0, 0, 0, 0, 0, 0, 0, 0, 0, 0] (List.range 24) = [8877496398058217463, 3416734070479493344, 3935218500881956980, 11033567397110358628, 11759373272028923640, 10287034516289598029, 9413162575303475712, 7940397824648715709, 12638087305083170877, 3778617018155846573, 3569494447863537472, 2825635867744299371, 7763183230807064849, 14580706256322455860, 12351584554132448774, 9915971551551454318, 2831863767401516157, 17031211153535950281, 7901674622651237049, 6847703735927453728, 2536169228961740249, 14587724431379304655, 898065708745874879, 16092239608685562050, 466113551188831116]
  rw [range24_eq,
    List.foldl_cons,
    permRound_a384_0,
    List.foldl_cons,
    permRound_a384_1,
    List.foldl_cons,
    permRound_a384_2,
    List.foldl_cons,
    permRound_a384_3,
    List.foldl_cons,
    permRound_a384_4,
    List.foldl_cons,
    permRound_a384_5,
    List.foldl_cons,
    permRound_a384_6,
    List.foldl_cons,
    permRound_a384_7,
    List.foldl_cons,
    permRound_a384_8,
    List.foldl_cons,
    permRound_a384_9,
    List.foldl_cons,
    permRound_a384_10,
    List.foldl_cons,
    permRound_a384_11,
    List.foldl_cons,
    permRound_a384_12,
    List.foldl_cons,
    permRound_a384_13,
    List.foldl_cons,
    permRound_a384_14,
    List.foldl_cons,
    permRound_a384_15,
    List.foldl_cons,
    permRound_a384_16,
    List.foldl_cons,
    permRound_a384_17,
    List.foldl_cons,
    permRound_a384_18,
    List.foldl_cons,
    permRound_a384_19,
    List.foldl_cons,
    permRound_a384_20,
    List.foldl_cons,
    permRound_a384_21,
    List.foldl_cons,
    permRound_a384_22,
    List.foldl_cons,
    permRound_a384_23,
    List.foldl_nil]

/-- Round 0 of the permutation on the `e512` state. -/
theorem permRound_e512_0 : keccakRound [1, 0, 0, 0, 0, 0, 0, 0, 9223372036854775808, 0, 0, 0, 0, 0, 0, 0, 0, 0, 0, 0, 0, 0, 0, 0, 0] 0 = [8796093022208, 17592186044416, 8796093063168, 1, 17592186085376, 0, 35184374710272, 2305843009213693952, 35184372088832, 2305843009216315392, 2, 704, 0, 642, 64, 335545344, 32768, 1024, 335577088, 0, 4611687392816922624, 18014398509481984, 1374389534724, 4611686018427387904, 18014398509481988] := by decide

/-- Round 1 of the permutation on the `e512` state. -/
theorem permRound_e512_1 : keccakRound [8796093022208, 17592186044416, 8796093063168, 1, 17592186085376, 0, 35184374710272, 2305843009213693952, 35184372088832, 2305843009216315392, 2, 704, 0, 642, 64, 335545344, 32768, 1024, 335577088, 0, 4611687392816922624, 18014398509481984, 1374389534724, 4611686018427387904, 18014398509481988] 1 = [7565603179882685767, 13024456493300191558, 5232673702274982225, 595313170098492865, 10997947520757592082, 433786237280136356, 1261995844044718211, 5047284109979164233, 4144525796409606276, 8649953256030810363, 9223570242020743238, 1165869602818455080, 4972152171975934035, 14238933957779412, 15356150945057661609, 109495158570494228, 4583055039723421728, 9533980193433795012, 4161349424605511728, 9960515604199199204, 11553208451539864061, 13056718194052442322, 19427134856261662, 6004310135485909497, 5125148074200862762] := by decide

/-- Round 2 of the permutation on the `e512` state. -/
theorem permRound_e512_2 : keccakRound [7565603179882685767, 13024456493300191558, 5232673702274982225, 595313170098492865, 10997947520757592082, 433786237280136356, 1261995844044718211, 5047284109979164233, 4144525796409606276, 8649953256030810363, 9223570242020743238, 1165869602818455080, 4972152171975934035, 14238933957779412, 15356150945057661609, 109495158570494228, 4583055039723421728, 9533980193433795012, 4161349424605511728, 9960515604199199204, 11553208451539864061, 13056718194052442322, 19427134856261662, 6004310135485909497, 5125148074200862762] 2 = [4600898377280576348, 9867048818300025038, 4814338384677407585, 11561351933599987886, 1929323420655231108, 7098296318647102532, 12124190601702474668, 4112548040451239090, 8149822033898962036, 13358065562822868126, 16622062745127590418, 13900661348767235518, 15800593234678870354, 10066012836434880095, 8976361569163476078, 12035645818505302104, 8684417997435783462, 18107611373304882712, 16502167499253024482, 3309464197119833788, 14115699977780256319, 300589242599922682, 8615864203560494781, 15189605262106493264, 10419823553392333429] := by decide

/-- Round 3 of the permutation on the `e512` state. -/
theorem permRound_e512_3 : keccakRound [4600898377280576348, 9867048818300025038, 4814338384677407585, 11561351933599987886, 1929323420655231108, 7098296318647102532, 12124190601702474668, 4112548040451239090, 8149822033898962036, 13358065562822868126, 16622062745127590418, 13900661348767235518, 15800593234678870354, 10066012836434880095, 8976361569163476078, 12035645818505302104, 8684417997435783462, 18107611373304882712, 16502167499253024482, 3309464197119833788, 14115699977780256319, 300589242599922682, 8615864203560494781, 15189605262106493264, 10419823553392333429] 3 = [16536051771687573345, 11297439018815326796, 1295326850888770284, 17675457813465866198, 9241684099622981879, 14588451527447440950, 6406305390552065360, 12671424820774551397, 4144716444307219851, 7397511177466056402, 1487739527452436246, 7289920416297887529, 5503376690137319880, 14542669194232946424, 9690076015666065873, 10007759728698456449, 13692217830683131965, 18035078041437137927, 6575284845255133893, 4268851817981774754, 9917061973901244399, 13050559478358662401, 15504720713257475815, 3493566252608063412, 1925589354362264430] := by decide

/-- Round 4 of the permutation on the `e512` state. -/
theorem permRound_e512_4 : keccakRound [16536051771687573345, 11297439018815326796, 1295326850888770284, 17675457813465866198, 9241684099622981879, 14588451527447440950, 6406305390552065360, 12671424820774551397, 4144716444307219851, 7397511177466056402, 1487739527452436246, 7289920416297887529, 5503376690137319880, 14542669194232946424, 9690076015666065873, 10007759728698456449, 13692217830683131965, 18035078041437137927, 6575284845255133893, 4268851817981774754, 9917061973901244399, 13050559478358662401, 15504720713257475815, 3493566252608063412, 1925589354362264430] 4 = [17883088865158022866, 13152562331484177380, 67583427066824097, 3842885920735104237, 2242052058255001843, 10703303909399055898, 10581006872842057169, 9825920103589073888, 8298523650419768710, 13068201122974327501, 4068141666511397577, 11645858275682701586, 4420466327818968978, 14947837514428392548, 4120555191806993165, 10828321368525092587, 14910187520748776008, 11634638614793141919, 12670370924068815983, 2686218524201967903, 6604419084785507090, 17092015833107126590, 9753678643836088991, 6240816169178720597, 7721838505800860120] := by decide

/-- Round 5 of the permutation on the `e512` state. -/
theorem permRound_e512_5 : keccakRound [17883088865158022866, 13152562331484177380, 67583427066824097, 3842885920735104237, 2242052058255001843, 10703303909399055898, 10581006872842057169, 9825920103589073888, 8298523650419768710, 13068201122974327501, 4068141666511397577, 11645858275682701586, 4420466327818968978, 14947837514428392548, 4120555191806993165, 10828321368525092587, 14910187520748776008, 11634638614793141919, 12670370924068815983, 2686218524201967903, 6604419084785507090, 17092015833107126590, 9753678643836088991, 6240816169178720597, 7721838505800860120] 5 = [16808037857802929639, 6888491911497906588, 11484119514848317666, 13356935330705999202, 14937037415268037211, 1281935654053761692, 15657163716111054040, 15189548153792965681, 7459336616217232185, 8374516978762274708, 6647344029220216702, 12947688763496033749, 17859523396946911449, 7012646250025504295, 10999453625294965430, 2955911611563240004, 683664601119395368, 7413987427258285169, 5483604154628432370, 8007187736548494357, 10455812882931182246, 15440703069028657465, 15283642620226561649, 6442390722626562590, 60031976438650004] := by decide

/-- Round 6 of the permutation on the `e512` state. -/
theorem permRound_e512_6 : keccakRound [16808037857802929639, 6888491911497906588, 11484119514848317666, 13356935330705999202, 14937037415268037211, 1281935654053761692, 15657163716111054040, 15189548153792965681, 7459336616217232185, 8374516978762274708, 6647344029220216702, 12947688763496033749, 17859523396946911449, 7012646250025504295, 10999453625294965430, 2955911611563240004, 683664601119395368, 7413987427258285169, 5483604154628432370, 8007187736548494357, 10455812882931182246, 15440703069028657465, 15283642620226561649, 6442390722626562590, 60031976438650004] 6 = [16558442135615468895, 5432103007317833523, 8543260328731786560, 1451265932799232874, 7759018715939710178, 6745163591271087140, 4271027804699407816, 3054673535151714356, 4743137414251455472, 3401234806987304658, 95063593833228606, 1945111336135912455, 12654669289715110882, 16410980820868567912, 5995023744032514635, 12120448300425977448, 17605874261290778289, 6446261212201196025, 15071908648966486146, 12719126030431308688, 13995529559769161754, 2439416208485837685, 327905729162268531, 13887723814969863842, 5629534333350902990] := by decide

/-- Round 7 of the permutation on the `e512` state. -/
theorem permRound_e512_7 : keccakRound [16558442135615468895, 5432103007317833523, 8543260328731786560, 1451265932799232874, 7759018715939710178, 6745163591271087140, 4271027804699407816, 3054673535151714356, 4743137414251455472, 3401234806987304658, 95063593833228606, 1945111336135912455, 12654669289715110882, 16410980820868567912, 5995023744032514635, 12120448300425977448, 17605874261290778289, 6446261212201196025, 15071908648966486146, 12719126030431308688, 13995529559769161754, 2439416208485837685, 327905729162268531, 13887723814969863842, 5629534333350902990] 7 = [17467638950804920889, 11644179249183746180, 3520399783681812075, 12555742978994715438, 1362828067198644856, 3658439999571823261, 13084553854584459199, 13767020594721758777, 15444229103144231056, 1985216749091231967, 14044938897453720563, 11812664373504380487, 8063104456056572866, 5288332025107484067, 9620233454975016553, 7479871959096053139, 5952443896219784681, 8128412456818117955, 2635551918878905422, 16554150707052507004, 7329703891845400434, 18147431129598635610, 5884510544741008907, 2911425349957382634, 3257439858761370982] := by decide

/-- Round 8 of the permutation on the `e512` state. -/
theorem permRound_e512_8 : keccakRound [17467638950804920889, 11644179249183746180, 3520399783681812075, 12555742978994715438, 1362828067198644856, 3658439999571823261, 13084553854584459199, 13767020594721758777, 15444229103144231056, 1985216749091231967, 14044938897453720563, 11812664373504380487, 8063104456056572866, 5288332025107484067, 9620233454975016553, 7479871959096053139, 5952443896219784681, 8128412456818117955, 2635551918878905422, 16554150707052507004, 7329703891845400434, 18147431129598635610, 5884510544741008907, 2911425349957382634, 3257439858761370982] 8 = [14467751321612921305, 13579343334539542467, 17273539171506087306, 16004635913972779654, 177165812156354734, 3132442466640705020, 1703434648504242955, 11114559950719584699, 11735635578377687817, 15176073687192444533, 5640848015167282439, 13047438884335829246, 852045580363468310, 7237674930277296350, 2499427186503111273, 4261171732329770920, 6255980470447871265, 16081394502494392737, 10502460747668696771, 16028573802359556967, 10610497798857843952, 14474371997215217626, 14082015368329233005, 7682489952868223757, 9584893842315838335] := by decide

/-- Round 9 of the permutation on the `e512` state. -/
theorem permRound_e512_9 : keccakRound [14467751321612921305, 13579343334539542467, 17273539171506087306, 16004635913972779654, 177165812156354734, 3132442466640705020, 1703434648504242955, 11114559950719584699, 11735635578377687817, 15176073687192444533, 5640848015167282439, 13047438884335829246, 852045580363468310, 7237674930277296350, 2499427186503111273, 4261171732329770920, 6255980470447871265, 16081394502494392737, 10502460747668696771, 16028573802359556967, 10610497798857843952, 14474371997215217626, 14082015368329233005, 7682489952868223757, 9584893842315838335] 9 = [5777654052014006757, 10244120667053701746, 4492868838004124118, 5323547188147804008, 13895547083543025507, 12454418001488661994, 15438385374266833886, 2821553191602520373, 16348519568760754801, 16325503432842940583, 16835446716609699926, 16788343985277014641, 2180992314517552952, 149699483409190010, 5477935929950141843, 13078887245676652593, 2877743942752530539, 14835608111630744402, 17357726708450315579, 12769014224932415185, 3029523579493643270, 9137068279707349605, 5969954229462545436, 18430478066664345978, 17596930359697930969] := by decide

/-- Round 10 of the permutation on the `e512` state. -/
theorem permRound_e512_10 : keccakRound [5777654052014006757, 10244120667053701746, 4492868838004124118, 5323547188147804008, 13895547083543025507, 12454418001488661994, 15438385374266833886, 2821553191602520373, 16348519568760754801, 16325503432842940583, 16835446716609699926, 16788343985277014641, 2180992314517552952, 149699483409190010, 5477935929950141843, 13078887245676652593, 2877743942752530539, 14835608111630744402, 17357726708450315579, 12769014224932415185, 3029523579493643270, 9137068279707349605, 5969954229462545436, 18430478066664345978, 17596930359697930969] 10 = [18167327576730858911, 9325053685894491668, 16804396738714781415, 13902499812168167062, 8984804107194569704, 9325279430703926760, 12029005488340714279, 15597738791900357937, 12339752566032488368, 6513388703390648822, 7668748503440848743, 4327482908965900002, 2857016921003460976, 16198499040337795076, 12144299672745525369, 12519439464748998406, 11999563124338925199, 15266140387116440520, 16176675771826319455, 5994696846738209309, 17627195325670031556, 3246439768599894912, 18392792667507491284, 9059978428670395175, 1806484415109535136] := by decide

/-- Round 11 of the permutation on the `e512` state. -/
theorem permRound_e512_11 : keccakRound [18167327576730858911, 9325053685894491668, 16804396738714781415, 13902499812168167062, 8984804107194569704, 9325279430703926760, 12029005488340714279, 15597738791900357937, 12339752566032488368, 6513388703390648822, 7668748503440848743, 4327482908965900002, 2857016921003460976, 16198499040337795076, 12144299672745525369, 12519439464748998406, 11999563124338925199, 15266140387116440520, 16176675771826319455, 5994696846738209309, 17627195325670031556, 3246439768599894912, 18392792667507491284, 9059978428670395175, 1806484415109535136] 11 = [1456600347028327922, 15253430171812428653, 3976837705561926401, 15024495361809602227, 8854601674809394935, 8918327162241983996, 9178959375767047826, 3510290438766475302, 10296408282165262429, 5223129057947640436, 17698732358029391715, 5858834256082548168, 15649715280842628330, 14143169080001585112, 6540059332346381308, 12350168708318696227, 13454935955600802808, 14429832166436968467, 14132960153371227671, 4347233347023641284, 6138619117585400162, 18431789257383218086, 5996784457338415453, 12704093882709383942, 6152768179938897948] := by decide

/-- Round 12 of the permutation on the `e512` state. -/
theorem permRound_e512_12 : keccakRound [1456600347028327922, 15253430171812428653, 3976837705561926401, 15024495361809602227, 8854601674809394935, 8918327162241983996, 9178959375767047826, 3510290438766475302, 10296408282165262429, 5223129057947640436, 17698732358029391715, 5858834256082548168, 15649715280842628330, 14143169080001585112, 6540059332346381308, 12350168708318696227, 13454935955600802808, 14429832166436968467, 14132960153371227671, 4347233347023641284, 6138619117585400162, 18431789257383218086, 5996784457338415453, 12704093882709383942, 6152768179938897948] 12 = [7258675546692934282, 14984183014038573432, 16411948784062218771, 14918215969816077403, 11739959486370871783, 7277473640197194541, 2221325123422282877, 7511837908913185694, 13720864498187747405, 17216109102045484863, 13385874622558608076, 2163366299859301133, 5164982320612411558, 8338710497874262802, 16225902977845204727, 14465423976989653052, 11825760482677744936, 2299637853622272979, 13478818855012414678, 14985523262156838974, 15444448306382984920, 17904302597689829732, 14664144516862950213, 12433380823259725159, 5291492629946124086] := by decide

/-- Round 13 of the permutation on the `e512` state. -/
theorem permRound_e512_13 : keccakRound [7258675546692934282, 14984183014038573432, 16411948784062218771, 14918215969816077403, 11739959486370871783, 7277473640197194541, 2221325123422282877, 7511837908913185694, 13720864498187747405, 17216109102045484863, 13385874622558608076, 2163366299859301133, 5164982320612411558, 8338710497874262802, 16225902977845204727, 14465423976989653052, 11825760482677744936, 2299637853622272979, 13478818855012414678, 14985523262156838974, 15444448306382984920, 17904302597689829732, 14664144516862950213, 12433380823259725159, 5291492629946124086] 13 = [16491632329904206063, 12874015148886172334, 12278014560636551150, 11720398253835297648, 9600999695225914914, 5757508691979228978, 16072276016564782633, 14819258042814693785, 1475954081470256451, 17174294598952639428, 12754262587293728408, 795271886203598896, 62794663101440146, 15628284947466618526, 6568245187621580212, 5216140487346084912, 11253205151353090254, 18013150838275960390, 3761727606831305501, 355742509385957285, 6235632302171087135, 7884284276184250123, 4676336104177408088, 17300414736657209550, 3818367428620093637] := by decide

/-- Round 14 of the permutation on the `e512` state. -/
theorem permRound_e512_14 : keccakRound [16491632329904206063, 12874015148886172334, 12278014560636551150, 11720398253835297648, 9600999695225914914, 5757508691979228978, 16072276016564782633, 14819258042814693785, 1475954081470256451, 17174294598952639428, 12754262587293728408, 795271886203598896, 62794663101440146, 15628284947466618526, 6568245187621580212, 5216140487346084912, 11253205151353090254, 18013150838275960390, 3761727606831305501, 355742509385957285, 6235632302171087135, 7884284276184250123, 4676336104177408088, 17300414736657209550, 3818367428620093637] 14 = [5412036056462917685, 7402870618042112571, 4785178027034424503, 17148585819867271417, 5558766070209298322, 2143375386553843267, 15677527345697251069, 9541870835132980420, 9312006731203041283, 3487875915415649798, 8415338448732622458, 9995675530394536480, 7646370857030074380, 5998053098550724067, 1850851693604627891, 15055065222344740671, 10774417931672523061, 5852380050710050535, 12507416448937016535, 8660015150890551358, 5397257263107587484, 14660804755184489138, 14036329553284327796, 17130337624138242843, 17478199906044676730] := by decide

/-- Round 15 of the permutation on the `e512` state. -/
theorem permRound_e512_15 : keccakRound [5412036056462917685, 7402870618042112571, 4785178027034424503, 17148585819867271417, 5558766070209298322, 2143375386553843267, 15677527345697251069, 9541870835132980420, 9312006731203041283, 3487875915415649798, 8415338448732622458, 9995675530394536480, 7646370857030074380, 5998053098550724067, 1850851693604627891, 15055065222344740671, 10774417931672523061, 5852380050710050535, 12507416448937016535, 8660015150890551358, 5397257263107587484, 14660804755184489138, 14036329553284327796, 17130337624138242843, 17478199906044676730] 15 = [8305689340883774934, 7926724448735391286, 14899640374513956693, 15726507172878179783, 1303186657297268037, 1794104635332779959, 8625246962062571237, 791694775746927819, 9773119986444698790, 635760033382772343, 160365545176163984, 2080392780973488114, 13999814914524365001, 8497842095186088558, 12335057434600392868, 4878282130767801910, 16596941908819996086, 6688686868659034420, 13207730430466800362, 3765799787894843304, 1706161197111881243, 9895253761166150179, 9229384884986622245, 1859900130029005212, 12917854468146773940] := by decide

/-- Round 16 of the permutation on the `e512` state. -/
theorem permRound_e512_16 : keccakRound [8305689340883774934, 7926724448735391286, 14899640374513956693, 15726507172878179783, 1303186657297268037, 1794104635332779959, 8625246962062571237, 791694775746927819, 9773119986444698790, 635760033382772343, 160365545176163984, 2080392780973488114, 13999814914524365001, 8497842095186088558, 12335057434600392868, 4878282130767801910, 16596941908819996086, 6688686868659034420, 13207730430466800362, 3765799787894843304, 1706161197111881243, 9895253761166150179, 9229384884986622245, 1859900130029005212, 12917854468146773940] 16 = [10447560946239127351, 7947249585044185714, 12104643831484879793, 9673806416799869055, 9834224879932642212, 159910494336310970, 15908712351120969252, 6348430322375435163, 9654842796590297953, 428178487952314728, 17120227470852060267, 16120957473673396818, 4402091107759200944, 13634413678179008842, 16493750179557528908, 13027339652564852676, 1248751594952837525, 2070532203985538133, 3022174675610475560, 14896274374816947732, 12372980676745259806, 12112833440004155168, 3314264564396357746, 8352078424075519862, 6260809594380706280] := by decide

/-- Round 17 of the permutation on the `e512` state. -/
theorem permRound_e512_17 : keccakRound [10447560946239127351, 7947249585044185714, 12104643831484879793, 9673806416799869055, 9834224879932642212, 159910494336310970, 15908712351120969252, 6348430322375435163, 9654842796590297953, 428178487952314728, 17120227470852060267, 16120957473673396818, 4402091107759200944, 13634413678179008842, 16493750179557528908, 13027339652564852676, 1248751594952837525, 2070532203985538133, 3022174675610475560, 14896274374816947732, 12372980676745259806, 12112833440004155168, 3314264564396357746, 8352078424075519862, 6260809594380706280] 17 = [7924365691800690464, 10521854694066468432, 13031421838454088578, 11106606347902732244, 9816842904326028430, 15378879478868023503, 13674024320898302850, 12005381771350699749, 17571527189185243679, 17192269825497107530, 15333027365879016551, 2387926738340178419, 182843948058499528, 16325434819402355393, 7452110365932374612, 1969577198953530581, 15519802776120608695, 17029321592905080939, 6371208852082786405, 17755465269632120427, 7388638195656569924, 11731509030723298476, 10369924500443855137, 18036141012039717586, 3246380649667719078] := by decide

/-- Round 18 of the permutation on the `e512` state. -/
theorem permRound_e512_18 : keccakRound [7924365691800690464, 10521854694066468432, 13031421838454088578, 11106606347902732244, 9816842904326028430, 15378879478868023503, 13674024320898302850, 12005381771350699749, 17571527189185243679, 17192269825497107530, 15333027365879016551, 2387926738340178419, 182843948058499528, 16325434819402355393, 7452110365932374612, 1969577198953530581, 15519802776120608695, 17029321592905080939, 6371208852082786405, 17755465269632120427, 7388638195656569924, 11731509030723298476, 10369924500443855137, 18036141012039717586, 3246380649667719078] 18 = [360830406184494, 11976789441954292178, 9613127234539105641, 11487000861114517713, 17632410269178816661, 13857000768927725311, 1480252976305948798, 14109362427951029235, 8351191624783555112, 1180539390541700012, 16932595586623711622, 15336256930991974687, 12863436359709847170, 4040199636863754748, 17198357614643587719, 2044084167086662349, 2066676439832193250, 4000720414879159128, 16973354745798697754, 5520327518800558649, 17531468018717842102, 11613063704333509688, 14271044341918428803, 7276617699534016010, 6203066563748476413] := by decide

/-- Round 19 of the permutation on the `e512` state. -/
theorem permRound_e512_19 : keccakRound [360830406184494, 11976789441954292178, 9613127234539105641, 11487000861114517713, 17632410269178816661, 13857000768927725311, 1480252976305948798, 14109362427951029235, 8351191624783555112, 1180539390541700012, 16932595586623711622, 15336256930991974687, 12863436359709847170, 4040199636863754748, 17198357614643587719, 2044084167086662349, 2066676439832193250, 4000720414879159128, 16973354745798697754, 5520327518800558649, 17531468018717842102, 11613063704333509688, 14271044341918428803, 7276617699534016010, 6203066563748476413] 19 = [178711134814782605, 14602267204293897212, 17146636304430286272, 3831654267186018743, 2273993771047285478, 7522863635705732543, 2620591609592154730, 8840036766265520226, 16413819972449646276, 10403170523717123992, 15156793959387530288, 17016405493641689399, 16197728592128484034, 6954844404029256700, 9482904226720856476, 16066877708084863605, 13757027258944737169, 9533620082739823722, 8665038809423769541, 4414154569435001863, 13408780586246389516, 16625982182349178289, 1641690840184753022, 7880422210032403782, 13464004372844321528] := by decide

/-- Round 20 of the permutation on the `e512` state. -/
theorem permRound_e512_20 : keccakRound [178711134814782605, 14602267204293897212, 17146636304430286272, 3831654267186018743, 2273993771047285478, 7522863635705732543, 2620591609592154730, 8840036766265520226, 16413819972449646276, 10403170523717123992, 15156793959387530288, 17016405493641689399, 16197728592128484034, 6954844404029256700, 9482904226720856476, 16066877708084863605, 13757027258944737169, 9533620082739823722, 8665038809423769541, 4414154569435001863, 13408780586246389516, 16625982182349178289, 1641690840184753022, 7880422210032403782, 13464004372844321528] 20 = [2662246845887001363, 2498243409383847215, 11443826844119530768, 18141775741740403981, 14266274341367852058, 14332025490984588782, 18107546497982169290, 7272756600083763711, 14834981499405231932, 17392296893082324156, 12723236850160662521, 17814029083926930075, 13474622193919353445, 14548047531244443822, 34689544901991284, 11985355255118031161, 12327208168969533142, 12180695984483218763, 14210307867064747020, 4665107920105631851, 3897860206637622118, 15384572070358708295, 5706821445246548272, 16652745580742083146, 9321682514190533766] := by decide

/-- Round 21 of the permutation on the `e512` state. -/
theorem permRound_e512_21 : keccakRound [2662246845887001363, 2498243409383847215, 11443826844119530768, 18141775741740403981, 14266274341367852058, 14332025490984588782, 18107546497982169290, 7272756600083763711, 14834981499405231932, 17392296893082324156, 12723236850160662521, 17814029083926930075, 13474622193919353445, 14548047531244443822, 34689544901991284, 11985355255118031161, 12327208168969533142, 12180695984483218763, 14210307867064747020, 4665107920105631851, 3897860206637622118, 15384572070358708295, 5706821445246548272, 16652745580742083146, 9321682514190533766] 21 = [12342689710916624244, 11956800171336150888, 8716240835154700365, 8162839914133602124, 1336074799595132487, 17399768323417189630, 2041693004687455980, 13350788274853812463, 389425701995264341, 11281841428462070573, 8914198270653550651, 177699696660867307, 212712904452425074, 10220804117321896987, 12447069953861330492, 6919839596294196132, 6559382603120337734, 8371048462663582576, 12052457493837373518, 6695753275063373526, 4602070654639477011, 15079038471003155261, 11806398818111082933, 13802322999928513074, 12310550655872545745] := by decide

/-- Round 22 of the permutation on the `e512` state. -/
theorem permRound_e512_22 : keccakRound [12342689710916624244, 11956800171336150888, 8716240835154700365, 8162839914133602124, 1336074799595132487, 17399768323417189630, 2041693004687455980, 13350788274853812463, 389425701995264341, 11281841428462070573, 8914198270653550651, 177699696660867307, 212712904452425074, 10220804117321896987, 12447069953861330492, 6919839596294196132, 6559382603120337734, 8371048462663582576, 12052457493837373518, 6695753275063373526, 4602070654639477011, 15079038471003155261, 11806398818111082933, 13802322999928513074, 12310550655872545745] 22 = [4189968515348253582, 11026224448511245085, 2775624654144478491, 13085449550871944021, 11556295976196038016, 344008255498494749, 4439544409284429295, 7049928632600300053, 13694674070222034364, 2960898343967861065, 16230956161442090721, 15163348940432884115, 9232207658069704306, 10981564395640698049, 2205833119572582489, 5083571812469632873, 9521700840565878650, 11493071885140106588, 4356669975768137412, 2603506974342693467, 11728883487166919689, 4423079577629864477, 11547835380525873763, 17202904554145604988, 5247846784895349574] := by decide

/-- Round 23 of the permutation on the `e512` state. -/
theorem permRound_e512_23 : keccakRound [4189968515348253582, 11026224448511245085, 2775624654144478491, 13085449550871944021, 11556295976196038016, 344008255498494749, 4439544409284429295, 7049928632600300053, 13694674070222034364, 2960898343967861065, 16230956161442090721, 15163348940432884115, 9232207658069704306, 10981564395640698049, 2205833119572582489, 5083571812469632873, 9521700840565878650, 11493071885140106588, 4356669975768137412, 2603506974342693467, 11728883487166919689, 4423079577629864477, 11547835380525873763, 17202904554145604988, 5247846784895349574] 23 = [10586621649908574990, 12846210072418843701, 1064740013916826012, 307206793225070414, 8537093136016019392, 12975829166570817210, 1656032908232749109, 1038203092374641164, 11087467328446357224, 13752874854746833709, 11854404711641261348, 3935220359243720649, 9829967564557141113, 1306787595086318082, 10091302982062035461, 13662100581537520582, 10371892282469129604, 5646248436111019588, 1882219641454946778, 2775573311628614456, 15516428590392037230, 8095256482572090888, 13663312708141322826, 12222006079573168068, 17895370277547671203] := by decide

/-- The full permutation on the `e512` state, round lemmas chained. -/
theorem permF_e512 : keccakF [1, 0, 0, 0, 0, 0, 0, 0, 9223372036854775808, 0, 0, 0, 0, 0, 0, 0, 0, 0, 0, 0, 0, 0, 0, 0, 0] = [10586621649908574990, 12846210072418843701, 1064740013916826012, 307206793225070414, 8537093136016019392, 12975829166570817210, 1656032908232749109, 1038203092374641164, 11087467328446357224, 13752874854746833709, 11854404711641261348, 3935220359243720649, 9829967564557141113, 1306787595086318082, 10091302982062035461, 13662100581537520582, 10371892282469129604, 5646248436111019588, 1882219641454946778, 2775573311628614456, 15516428590392037230, 8095256482572090888, 13663312708141322826, 12222006079573168068, 17895370277547671203] := by
  show List.foldl keccakRound [1, 0, 0, 0, 0, 0, 0, 0, 9223372036854775808, 0, 0, 0, 0, 0, 0, 0, 0, 0, 0, 0, 0, 0, 0, 0, 0] (List.range 24) = [10586621649908574990, 12846210072418843701, 1064740013916826012, 307206793225070414, 8537093136016019392, 12975829166570817210, 1656032908232749109, 1038203092374641164, 11087467328446357224, 13752874854746833709, 11854404711641261348, 3935220359243720649, 9829967564557141113, 1306787595086318082, 10091302982062035461, 13662100581537520582, 10371892282469129604, 5646248436111019588, 1882219641454946778, 2775573311628614456, 15516428590392037230, 8095256482572090888, 13663312708141322826, 12222006079573168068, 17895370277547671203]
  rw [range24_eq,
    List.foldl_cons,
    permRound_e512_0,
    List.foldl_cons,
    permRound_e512_1,
    List.foldl_cons,
    permRound_e512_2,
    List.foldl_cons,
    permRound_e512_3,
    List.foldl_cons,
    permRound_e512_4,
    List.foldl_cons,
    permRound_e512_5,
    List.foldl_cons,
    permRound_e512_6,
    List.foldl_cons,
    permRound_e512_7,
    List.foldl_cons,
    permRound_e512_8,
    List.foldl_cons,
    permRound_e512_9,
    List.foldl_cons,
    permRound_e512_10,
    List.foldl_cons,
    permRound_e512_11,
    List.foldl_cons,
    permRound_e512_12,
    List.foldl_cons,
    permRound_e512_13,
    List.foldl_cons,
    permRound_e512_14,
    List.foldl_cons,
    permRound_e512_15,
    List.foldl_cons,
    permRound_e512_16,
    List.foldl_cons,
    permRound_e512_17,
    List.foldl_cons,
    permRound_e512_18,
    List.foldl_cons,
    permRound_e512_19,
    List.foldl_cons,
    permRound_e512_20,
    List.foldl_cons,
    permRound_e512_21,
    List.foldl_cons,
    permRound_e512_22,
    List.foldl_cons,
    permRound_e512_23,
    List.foldl_nil]

/-- Round 0 of the permutation on the `a512` state. -/
theorem permRound_a512_0 : keccakRound [23290465, 0, 0, 0, 0, 0, 0, 0, 9223372036854775808, 0, 0, 0, 0, 0, 0, 0, 0, 0, 0, 0, 0, 0, 0, 0, 0] 0 = [8796116312672, 3901823719349157910, 9559274987520, 4407905, 3901824482531123222, 0, 7803625913599918124, 0, 7803647438698315820, 2305891852859473920, 46580930, 11924718272, 0, 11878401602, 0, 6251976015315968, 0, 23849436160, 6251986659868672, 0, 2531692868041441281, 18014398509481984, 7161393285071473029, 4611686018427387904, 18014398602643844] := by decide

/-- Round 1 of the permutation on the `a512` state. -/
theorem permRound_a512_1 : keccakRound [8796116312672, 3901823719349157910, 9559274987520, 4407905, 3901824482531123222, 0, 7803625913599918124, 0, 7803647438698315820, 2305891852859473920, 46580930, 11924718272, 0, 11878401602, 0, 6251976015315968, 0, 23849436160, 6251986659868672, 0, 2531692868041441281, 18014398509481984, 7161393285071473029, 4611686018427387904, 18014398602643844] 1 = [9976928948919881621, 5958503447080123458, 6365653582759539147, 14788000175517692678, 18424411884484782812, 17115362810012476673, 16636191058427157280, 1268504398560970049, 9202381801829686280, 3190107905491229252, 13816209293147879263, 9740384181914089546, 2241435694247532577, 1154306757615532628, 10737626025061911617, 10419475327308595795, 14757052617036283974, 7150740641044347175, 770417875525738575, 16522907070715420402, 641633757484780089, 14159801393267083638, 1748125213813756404, 9976952311142309617, 15047163211188397025] := by decide

/-- Round 2 of the permutation on the `a512` state. -/
theorem permRound_a512_2 : keccakRound [9976928948919881621, 5958503447080123458, 6365653582759539147, 14788000175517692678, 18424411884484782812, 17115362810012476673, 16636191058427157280, 1268504398560970049, 9202381801829686280, 3190107905491229252, 13816209293147879263, 9740384181914089546, 2241435694247532577, 1154306757615532628, 10737626025061911617, 10419475327308595795, 14757052617036283974, 7150740641044347175, 770417875525738575, 16522907070715420402, 641633757484780089, 14159801393267083638, 1748125213813756404, 9976952311142309617, 15047163211188397025] 2 = [10198142857168809213, 3487874099050688867, 9387061849126759138, 18106126357788498693, 6552504201267731646, 9821525401702251113, 3674686609620126968, 6513768697072207145, 263315148580719426, 13819891941857451670, 14314252880891812226, 11594627509212750873, 6763421449718259077, 8440046937253581893, 14546204596257952301, 11538073895322818591, 17350273723476718309, 2438237707341938296, 7466529450402187856, 829094286005008633, 14255449149599695878, 17438895493979975886, 17556856105229842512, 8083633452297122627, 5586215128596439894] := by decide

/-- Round 3 of the permutation on the `a512` state. -/
theorem permRound_a512_3 : keccakRound [10198142857168809213, 3487874099050688867, 9387061849126759138, 18106126357788498693, 6552504201267731646, 9821525401702251113, 3674686609620126968, 6513768697072207145, 263315148580719426, 13819891941857451670, 14314252880891812226, 11594627509212750873, 6763421449718259077, 8440046937253581893, 14546204596257952301, 11538073895322818591, 17350273723476718309, 2438237707341938296, 7466529450402187856, 829094286005008633, 14255449149599695878, 17438895493979975886, 17556856105229842512, 8083633452297122627, 5586215128596439894] 3 = [7101236131199960139, 1979670295821214608, 6301730137512023269, 4326473387969670468, 1292510489693006910, 7409647099580660672, 16123355310676433762, 3294147678760666079, 10026384057615730559, 6196495140932349753, 5996040463554320200, 10609198046276779431, 16339851005433914026, 11353997233199772636, 5896513689835966922, 2690340201569444485, 17083527407738946989, 6423106267610173365, 17981673298426974912, 4141679448717746360, 9377087197459716088, 3479494189581695705, 6003443057475238768, 813968465444645285, 15471481729828209715] := by decide

/-- Round 4 of the permutation on the `a512` state. -/
theorem permRound_a512_4 : keccakRound [7101236131199960139, 1979670295821214608, 6301730137512023269, 4326473387969670468, 1292510489693006910, 7409647099580660672, 16123355310676433762, 3294147678760666079, 10026384057615730559, 6196495140932349753, 5996040463554320200, 10609198046276779431, 16339851005433914026, 11353997233199772636, 5896513689835966922, 2690340201569444485, 17083527407738946989, 6423106267610173365, 17981673298426974912, 4141679448717746360, 9377087197459716088, 3479494189581695705, 6003443057475238768, 813968465444645285, 15471481729828209715] 4 = [5157555603048844423, 3767253095690765460, 17221017131300031730, 14252373492104378843, 15284523999879563822, 17156480412737273230, 1706103028977798725, 7504796366227940077, 8162513968214471179, 10217093774005140171, 9732108771738138635, 14249034977224637637, 15792203287302987155, 4402950815182163465, 17490227318749180051, 16225722511748081204, 9320641783068779886, 1415521933218203419, 17949904503599894944, 8444153636975992526, 8598907851364307706, 13976816852128912885, 7915226826989406269, 11151032064633170544, 10555895154587710006] := by decide

/-- Round 5 of the permutation on the `a512` state. -/
theorem permRound_a512_5 : keccakRound [5157555603048844423, 3767253095690765460, 17221017131300031730, 14252373492104378843, 15284523999879563822, 17156480412737273230, 1706103028977798725, 7504796366227940077, 8162513968214471179, 10217093774005140171, 9732108771738138635, 14249034977224637637, 15792203287302987155, 4402950815182163465, 17490227318749180051, 16225722511748081204, 9320641783068779886, 1415521933218203419, 17949904503599894944, 8444153636975992526, 8598907851364307706, 13976816852128912885, 7915226826989406269, 11151032064633170544, 10555895154587710006] 5 = [6289442674672381207, 9542949628476504655, 15292295082766850626, 11153910419063189620, 6729662206237577243, 2514651085778924570, 10476768631812875992, 1577699350407541396, 4629158457264341300, 17504683777433501108, 18252050329717588528, 1284738623759193286, 4504860524519446143, 787424215229357807, 5750621730826470972, 6755078924603840232, 6955143155058339702, 13819457671023917540, 3521303530414731906, 16582307383360623771, 9673152615040143263, 15915740209514070072, 14225206067100390276, 13919830151803122812, 11573573302965790196] := by decide

/-- Round 6 of the permutation on the `a512` state. -/
theorem permRound_a512_6 : keccakRound [6289442674672381207, 9542949628476504655, 15292295082766850626, 11153910419063189620, 6729662206237577243, 2514651085778924570, 10476768631812875992, 1577699350407541396, 4629158457264341300, 17504683777433501108, 18252050329717588528, 1284738623759193286, 4504860524519446143, 787424215229357807, 5750621730826470972, 6755078924603840232, 6955143155058339702, 13819457671023917540, 3521303530414731906, 16582307383360623771, 9673152615040143263, 15915740209514070072, 14225206067100390276, 13919830151803122812, 11573573302965790196] 6 = [560811230196870725, 17343808356667320388, 9482986574344812272, 3703014267016718875, 9716027423238916583, 2314464507481353872, 15772588168152308862, 8166699482769429403, 1197930038878427341, 18276137092073333997, 12446170654313391917, 12119535866438341146, 13059043345429808798, 13802571589930319680, 1064922597964189342, 17297791730776429025, 5836310522235124970, 5735974137264826401, 2182741979970724531, 5528493232352901389, 7954588218387181302, 163285320236476944, 13253914239799890319, 7603568297422197049, 1287718413344485254] := by decide

/-- Round 7 of the permutation on the `a512` state. -/
theorem permRound_a512_7 : keccakRound [560811230196870725, 17343808356667320388, 9482986574344812272, 3703014267016718875, 9716027423238916583, 2314464507481353872, 15772588168152308862, 8166699482769429403, 1197930038878427341, 18276137092073333997, 12446170654313391917, 12119535866438341146, 13059043345429808798, 13802571589930319680, 1064922597964189342, 17297791730776429025, 5836310522235124970, 5735974137264826401, 2182741979970724531, 5528493232352901389, 7954588218387181302, 163285320236476944, 13253914239799890319, 7603568297422197049, 1287718413344485254] 7 = [12609015777547150054, 6848402062817822420, 14183345478309816534, 10552219164182857289, 11926924938936595466, 16085267591505959685, 9016790778867598025, 12315833020055016477, 8351001202451449753, 13118154148441836517, 8513755036057110683, 13309465136600405776, 7589660615147411120, 2978408205366251444, 11167402898963614210, 18411896652046733731, 15695259898704528285, 10517063352867965353, 1274352837848677660, 6691270472738660521, 13911613901444152967, 6806426150172151516, 15375788729596978967, 6776940739293512431, 13076604628483709201] := by decide

/-- Round 8 of the permutation on the `a512` state. -/
theorem permRound_a512_8 : keccakRound [12609015777547150054, 6848402062817822420, 14183345478309816534, 10552219164182857289, 11926924938936595466, 16085267591505959685, 9016790778867598025, 12315833020055016477, 8351001202451449753, 13118154148441836517, 8513755036057110683, 13309465136600405776, 7589660615147411120, 2978408205366251444, 11167402898963614210, 18411896652046733731, 15695259898704528285, 10517063352867965353, 1274352837848677660, 6691270472738660521, 13911613901444152967, 6806426150172151516, 15375788729596978967, 6776940739293512431, 13076604628483709201] 8 = [17462285635636157136, 18010348130461421952, 3337202460592294353, 11304168502323215703, 4390923127657313719, 17589183454036724026, 12692165288248226765, 7223840357829136825, 18050829492627259494, 10552352337210827215, 17419910755588285012, 5503413911144356270, 8133368159111768575, 12146849098652780201, 209180292310119175, 9812767019458658896, 13331663841399567325, 12820836455149177410, 10878669150665066757, 13244617099130889174, 8487483629079332157, 9221280602747191206, 7158388193791864820, 15098960186450149327, 686352880906948267] := by decide

/-- Round 9 of the permutation on the `a512` state. -/
theorem permRound_a512_9 : keccakRound [17462285635636157136, 18010348130461421952, 3337202460592294353, 11304168502323215703, 4390923127657313719, 17589183454036724026, 12692165288248226765, 7223840357829136825, 18050829492627259494, 10552352337210827215, 17419910755588285012, 5503413911144356270, 8133368159111768575, 12146849098652780201, 209180292310119175, 9812767019458658896, 13331663841399567325, 12820836455149177410, 10878669150665066757, 13244617099130889174, 8487483629079332157, 9221280602747191206, 7158388193791864820, 15098960186450149327, 686352880906948267] 9 = [16633819497720506395, 3424387960135245832, 14846879792704599930, 13529671076656924437, 15235228453586461959, 2578986551007474653, 2520386875013348675, 3071520700497926971, 13556371361868781661, 11696468657142117467, 10907153722073388130, 2646676161408336133, 6451122023827607491, 2529546539152652330, 12318407207623828645, 3266413526441960935, 16614557574226603276, 13231569656094719606, 4516185080023327699, 2936308728731921655, 2730891067082480692, 16545465498126635232, 790594253970526495, 16702943033335268143, 10668103612340061722] := by decide

/-- Round 10 of the permutation on the `a512` state. -/
theorem permRound_a512_10 : keccakRound [16633819497720506395, 3424387960135245832, 14846879792704599930, 13529671076656924437, 15235228453586461959, 2578986551007474653, 2520386875013348675, 3071520700497926971, 13556371361868781661, 11696468657142117467, 10907153722073388130, 2646676161408336133, 6451122023827607491, 2529546539152652330, 12318407207623828645, 3266413526441960935, 16614557574226603276, 13231569656094719606, 4516185080023327699, 2936308728731921655, 2730891067082480692, 16545465498126635232, 790594253970526495, 16702943033335268143, 10668103612340061722] 10 = [14284868711305536576, 17094041967417879653, 1910300776795079774, 13699979831494263683, 4505882966216981688, 14413462045910850187, 967925372328326797, 3350758234271400725, 1788798610812980598, 1033943603997763476, 14664541193715552147, 6320719212008042046, 5100850314132261110, 9940728101894489120, 11937526834197969939, 11170864955733475777, 12134026641579811402, 8192336205883102522, 16529550348989014834, 14414165279003174395, 15562895043595187835, 2695771231698003668, 406427812914173012, 8028597619563342316, 17863037601047376898] := by decide

/-- Round 11 of the permutation on the `a512` state. -/
theorem permRound_a512_11 : keccakRound [14284868711305536576, 17094041967417879653, 1910300776795079774, 13699979831494263683, 4505882966216981688, 14413462045910850187, 967925372328326797, 3350758234271400725, 1788798610812980598, 1033943603997763476, 14664541193715552147, 6320719212008042046, 5100850314132261110, 9940728101894489120, 11937526834197969939, 11170864955733475777, 12134026641579811402, 8192336205883102522, 16529550348989014834, 14414165279003174395, 15562895043595187835, 2695771231698003668, 406427812914173012, 8028597619563342316, 17863037601047376898] 11 = [11274437783429574780, 3528164114618064266, 10795665168216065632, 13801657095560016019, 11607174152575982865, 2684547854413415781, 7301708692702399967, 12597092812324105896, 16600716360718439779, 7971134931121962009, 15248932318590723842, 10822207550174586537, 15453008145867082561, 917199512587139453, 6264327344452285017, 11308423925304176323, 2374678284556646186, 3066176738029594885, 15487675963134370851, 15144712133378511682, 15098166686194296224, 1441875068443648599, 9892367391771905270, 15681866507370871138, 9390560024806614037] := by decide

/-- Round 12 of the permutation on the `a512` state. -/
theorem permRound_a512_12 : keccakRound [11274437783429574780, 3528164114618064266, 10795665168216065632, 13801657095560016019, 11607174152575982865, 2684547854413415781, 7301708692702399967, 12597092812324105896, 16600716360718439779, 7971134931121962009, 15248932318590723842, 10822207550174586537, 15453008145867082561, 917199512587139453, 6264327344452285017, 11308423925304176323, 2374678284556646186, 3066176738029594885, 15487675963134370851, 15144712133378511682, 15098166686194296224, 1441875068443648599, 9892367391771905270, 15681866507370871138, 9390560024806614037] 12 = [13834282944741743031, 12213831164272993722, 2290881582541245109, 7290732339369435071, 1699368579202172275, 2613972240740956914, 12102554158726523320, 4283923911478486071, 6940595299622398967, 4247631200436366741, 9268737019410006157, 4838310288567804542, 15325290374658257394, 11853376389380079299, 2352402974029280555, 3607122984351584909, 6080509996272363258, 5302221483166965413, 12876774057674699872, 15079537919617305093, 4684864953319787422, 9801658945433380087, 12440262272908621921, 17274388350763238667, 3502118422893166351] := by decide

/-- Round 13 of the permutation on the `a512` state. -/
theorem permRound_a512_13 : keccakRound [13834282944741743031, 12213831164272993722, 2290881582541245109, 7290732339369435071, 1699368579202172275, 2613972240740956914, 12102554158726523320, 4283923911478486071, 6940595299622398967, 4247631200436366741, 9268737019410006157, 4838310288567804542, 15325290374658257394, 11853376389380079299, 2352402974029280555, 3607122984351584909, 6080509996272363258, 5302221483166965413, 12876774057674699872, 15079537919617305093, 4684864953319787422, 9801658945433380087, 12440262272908621921, 17274388350763238667, 3502118422893166351] 13 = [16202083302569918728, 17196348979786946502, 15801571848240365557, 17988511264320511322, 12014689271951544675, 8441588381360426150, 11896006692136097602, 5092105194710172978, 785711659759664775, 12745346568051809595, 15399800112947485720, 17685337566425641780, 1301728367186864413, 17465820648727450620, 7383563844691729426, 1344208873577225175, 10380981303398742651, 18041954249058433568, 3964539695262208456, 13056655476800831053, 6670887534672472779, 18219003422770819153, 4706150032819515336, 1102708650612274864, 10030378571440305459] := by decide

/-- Round 14 of the permutation on the `a512` state. -/
theorem permRound_a512_14 : keccakRound [16202083302569918728, 17196348979786946502, 15801571848240365557, 17988511264320511322, 12014689271951544675, 8441588381360426150, 11896006692136097602, 5092105194710172978, 785711659759664775, 12745346568051809595, 15399800112947485720, 17685337566425641780, 1301728367186864413, 17465820648727450620, 7383563844691729426, 1344208873577225175, 10380981303398742651, 18041954249058433568, 3964539695262208456, 13056655476800831053, 6670887534672472779, 18219003422770819153, 4706150032819515336, 1102708650612274864, 10030378571440305459] 14 = [6522968667319560481, 3436400469954238234, 8445943944275811219, 7870132905113285064, 16356912210846760442, 1186393194146187764, 16357442632632830987, 16819508267605140701, 14617202979394796523, 18280652461114726677, 6112444057112454935, 4082182492638709305, 5756845809663953169, 12827346826042107025, 10051404304799947422, 5419585968806700594, 12800997287648869136, 10984227481926875848, 15584061570552237932, 6496307565606915522, 14971233465781647663, 7967877840689420389, 18139687481302176528, 16161068246420499059, 5497669178553758334] := by decide

/-- Round 15 of the permutation on the `a512` state. -/
theorem permRound_a512_15 : keccakRound [6522968667319560481, 3436400469954238234, 8445943944275811219, 7870132905113285064, 16356912210846760442, 1186393194146187764, 16357442632632830987, 16819508267605140701, 14617202979394796523, 18280652461114726677, 6112444057112454935, 4082182492638709305, 5756845809663953169, 12827346826042107025, 10051404304799947422, 5419585968806700594, 12800997287648869136, 10984227481926875848, 15584061570552237932, 6496307565606915522, 14971233465781647663, 7967877840689420389, 18139687481302176528, 16161068246420499059, 5497669178553758334] 15 = [5736703499430376477, 2321886611183148963, 17902531967732643947, 4759627345500689010, 15805246661063416995, 8845362535711264051, 11745618924148449032, 444216591393003076, 17660879065781967399, 17400761462259467594, 12617761422522018268, 4866344795154491044, 14393844368807920112, 5730309623143354566, 14353447684634999131, 5025873136828218662, 6102774682499478499, 16425141230768205240, 1424348423279236429, 8022198613376130166, 104986361234779553, 13166711304036695065, 12860084573195188177, 5625703454645461003, 12164774036887367364] := by decide

/-- Round 16 of the permutation on the `a512` state. -/
theorem permRound_a512_16 : keccakRound [5736703499430376477, 2321886611183148963, 17902531967732643947, 4759627345500689010, 15805246661063416995, 8845362535711264051, 11745618924148449032, 444216591393003076, 17660879065781967399, 17400761462259467594, 12617761422522018268, 4866344795154491044, 14393844368807920112, 5730309623143354566, 14353447684634999131, 5025873136828218662, 6102774682499478499, 16425141230768205240, 1424348423279236429, 8022198613376130166, 104986361234779553, 13166711304036695065, 12860084573195188177, 5625703454645461003, 12164774036887367364] 16 = [12171231887232955829, 16664322315733455255, 5466655166251118663, 4557637499528514943, 9031559518441350187, 12420624978569038211, 11013565058590736970, 8059394568937892279, 10595073710457803186, 18142844677402557177, 7307918301063127312, 9781370295335585417, 13433309917275094117, 6842538791977159027, 779287888035953913, 16779994014563366726, 837571218760814335, 10221082877768912164, 16571961529644304359, 13714445507199169993, 7141055474835309143, 12147778983212686337, 10343134396638788825, 16895702852658276064, 7544962659597697058] := by decide

/-- Round 17 of the permutation on the `a512` state. -/
theorem permRound_a512_17 : keccakRound [12171231887232955829, 16664322315733455255, 5466655166251118663, 4557637499528514943, 9031559518441350187, 12420624978569038211, 11013565058590736970, 8059394568937892279, 10595073710457803186, 18142844677402557177, 7307918301063127312, 9781370295335585417, 13433309917275094117, 6842538791977159027, 779287888035953913, 16779994014563366726, 837571218760814335, 10221082877768912164, 16571961529644304359, 13714445507199169993, 7141055474835309143, 12147778983212686337, 10343134396638788825, 16895702852658276064, 7544962659597697058] 17 = [14162243480912111622, 17953821650777492040, 5371038291201118158, 973490993434935070, 12087276865695859241, 1230779080352694851, 7940030396659996754, 5255236452546726948, 17427022077828300770, 14692374184475007952, 5340348238910719714, 11471128804986050615, 3482927884750887987, 4777842473960546263, 11098210475787151015, 8826012959125288535, 8958875074898884251, 5685288895589774546, 80229288372053048, 991358670693207357, 8699905838560713647, 4399613758041862837, 2921785127463222960, 2903595085125183282, 17197248773886628749] := by decide

/-- Round 18 of the permutation on the `a512` state. -/
theorem permRound_a512_18 : keccakRound [14162243480912111622, 17953821650777492040, 5371038291201118158, 973490993434935070, 12087276865695859241, 1230779080352694851, 7940030396659996754, 5255236452546726948, 17427022077828300770, 14692374184475007952, 5340348238910719714, 11471128804986050615, 3482927884750887987, 4777842473960546263, 11098210475787151015, 8826012959125288535, 8958875074898884251, 5685288895589774546, 80229288372053048, 991358670693207357, 8699905838560713647, 4399613758041862837, 2921785127463222960, 2903595085125183282, 17197248773886628749] 18 = [8000995416718138341, 10604729169790947548, 13070249570436095579, 8378568319731491025, 6491911819387269323, 7920335540008950499, 12694185329012402056, 7932645614734268480, 17980281906461630281, 715929310356201758, 11580726029624713235, 14317286452393515819, 16685979106834425287, 9604089910427624419, 1817869222145418420, 3273527486374451649, 8313639371290815839, 2265150854748723867, 17193485602856296393, 14399240697202086959, 13719955562487189066, 13854364027159040342, 17590106452410933853, 7969794620808409424, 7165791017438552676] := by decide

/-- Round 19 of the permutation on the `a512` state. -/
theorem permRound_a512_19 : keccakRound [8000995416718138341, 10604729169790947548, 13070249570436095579, 8378568319731491025, 6491911819387269323, 7920335540008950499, 12694185329012402056, 7932645614734268480, 17980281906461630281, 715929310356201758, 11580726029624713235, 14317286452393515819, 16685979106834425287, 9604089910427624419, 1817869222145418420, 3273527486374451649, 8313639371290815839, 2265150854748723867, 17193485602856296393, 14399240697202086959, 13719955562487189066, 13854364027159040342, 17590106452410933853, 7969794620808409424, 7165791017438552676] 19 = [16481498380730939961, 12981197312355370223, 9917355285140996238, 1035195320379416706, 7293319657810601629, 3450097450030825713, 10202492754594856362, 6804272195341270618, 12985740183012105736, 15451911615075917815, 10275456246409535711, 3117298379627474382, 13073866524659034219, 17548404346579054981, 16771599306751977814, 7752919621840081328, 2055244802727991057, 1973923423961699175, 5179143015470738873, 1109527008433511461, 10714749483272636644, 6032966037750542817, 11762386804190323530, 17642335235740454658, 8907234999428313844] := by decide

/-- Round 20 of the permutation on the `a512` state. -/
theorem permRound_a512_20 : keccakRound [16481498380730939961, 12981197312355370223, 9917355285140996238, 1035195320379416706, 7293319657810601629, 3450097450030825713, 10202492754594856362, 6804272195341270618, 12985740183012105736, 15451911615075917815, 10275456246409535711, 3117298379627474382, 13073866524659034219, 17548404346579054981, 16771599306751977814, 7752919621840081328, 2055244802727991057, 1973923423961699175, 5179143015470738873, 1109527008433511461, 10714749483272636644, 6032966037750542817, 11762386804190323530, 17642335235740454658, 8907234999428313844] 20 = [8384123421530043555, 3066088431409687369, 1768841380314913, 7057816346771094723, 14274557601285043880, 1946402437046598800, 11818327468065265454, 15245910229560219240, 7762704109234847491, 9602681336275108710, 2508348721930869201, 12271851799794012221, 15466331533100916158, 2188555985217880723, 11392617710152926056, 5894850693513824227, 16155443903419746969, 963121293816734405, 932687424142359715, 16889018264692658892, 112727656721934962, 17730211063970278986, 12196199359149193218, 17818235185315341256, 15179873328604576669] := by decide

/-- Round 21 of the permutation on the `a512` state. -/
theorem permRound_a512_21 : keccakRound [8384123421530043555, 3066088431409687369, 1768841380314913, 7057816346771094723, 14274557601285043880, 1946402437046598800, 11818327468065265454, 15245910229560219240, 7762704109234847491, 9602681336275108710, 2508348721930869201, 12271851799794012221, 15466331533100916158, 2188555985217880723, 11392617710152926056, 5894850693513824227, 16155443903419746969, 963121293816734405, 932687424142359715, 16889018264692658892, 112727656721934962, 17730211063970278986, 12196199359149193218, 17818235185315341256, 15179873328604576669] 21 = [8656706061008518022, 1432790902584415895, 5281089977782850549, 3529548175723848657, 5152418620680488247, 34571706826120969, 14779513419851961139, 6733435806328523071, 3841983024433087237, 11934215875083383213, 14582444556727277094, 15825027996301702701, 2910467633895883037, 3564806593502806538, 10030183694665131914, 14910123286218237740, 5713809386777319143, 7074123548438149589, 371178663122499709, 1701651818718123761, 7718062324953203006, 16285235435098971191, 5913960119173254877, 10744468920729600117, 11704999270036710755] := by decide

/-- Round 22 of the permutation on the `a512` state. -/
theorem permRound_a512_22 : keccakRound [8656706061008518022, 1432790902584415895, 5281089977782850549, 3529548175723848657, 5152418620680488247, 34571706826120969, 14779513419851961139, 6733435806328523071, 3841983024433087237, 11934215875083383213, 14582444556727277094, 15825027996301702701, 2910467633895883037, 3564806593502806538, 10030183694665131914, 14910123286218237740, 5713809386777319143, 7074123548438149589, 371178663122499709, 1701651818718123761, 7718062324953203006, 16285235435098971191, 5913960119173254877, 10744468920729600117, 11704999270036710755] 22 = [5094100151915059328, 5252265893854218817, 14014996800467809125, 9777073340256958797, 4349394468406052886, 1960051971767249460, 175042032665929256, 144922841483391167, 14014155508235552120, 17761627134061515021, 3281149268097939252, 11787238106944844783, 9217764526094793951, 10776296491860717756, 18255650857049579207, 13433571193538242686, 3337388979699817915, 13607034665248001366, 18207169280012763643, 16947238769871780589, 8793105220150556360, 5746719391816497907, 14694068385522984920, 7660123242049487788, 12757568110722108636] := by decide

/-- Round 23 of the permutation on the `a512` state. -/
theorem permRound_a512_23 : keccakRound [5094100151915059328, 5252265893854218817, 14014996800467809125, 9777073340256958797, 4349394468406052886, 1960051971767249460, 175042032665929256, 144922841483391167, 14014155508235552120, 17761627134061515021, 3281149268097939252, 11787238106944844783, 9217764526094793951, 10776296491860717756, 18255650857049579207, 13433571193538242686, 3337388979699817915, 13607034665248001366, 18207169280012763643, 16947238769871780589, 8793105220150556360, 5746719391816497907, 14694068385522984920, 7660123242049487788, 12757568110722108636] 23 = [11127005904820328472, 2036209992513839893, 2506670942387135649, 16546686613095041193, 3973741070098482896, 3974750360446877997, 11362974568022098069, 10861275601085508215, 7031070499429753218, 10471747969364201541, 15004685405364190424, 13293612798914684804, 12244975731161909786, 6740420175789570637, 14337989555534502466, 10927261690011529755, 15245499220716800393, 3898889383254669870, 7338730623777070235, 18242647155919575349, 18081965152846923585, 13017707423123363864, 1810016583122350548, 7589142119503299797, 13832079467971752785] := by decide

/-- The full permutation on the `a512` state, round lemmas chained. -/
theorem permF_a512 : keccakF [23290465, 0, 0, 0, 0, 0, 0, 0, 9223372036854775808, 0, 0, 0, 0, 0, 0, 0, 0, 0, 0, 0, 0, 0, 0, 0, 0] = [11127005904820328472, 2036209992513839893, 2506670942387135649, 16546686613095041193, 3973741070098482896, 3974750360446877997, 11362974568022098069, 10861275601085508215, 7031070499429753218, 10471747969364201541, 15004685405364190424, 13293612798914684804, 12244975731161909786, 6740420175789570637, 14337989555534502466, 10927261690011529755, 15245499220716800393, 3898889383254669870, 7338730623777070235, 18242647155919575349, 18081965152846923585, 13017707423123363864, 1810016583122350548, 7589142119503299797, 13832079467971752785] := by
  show List.foldl keccakRound [23290465, 0, 0, 0, 0, 0, 0, 0, 9223372036854775808, 0, 0, 0, 0, 0, 0, 0, 0, 0, 0, 0, 0, 0, 0, 0, 0] (List.range 24) = [11127005904820328472, 2036209992513839893, 2506670942387135649, 16546686613095041193, 3973741070098482896, 3974750360446877997, 11362974568022098069, 10861275601085508215, 7031070499429753218, 10471747969364201541, 15004685405364190424, 13293612798914684804, 12244975731161909786, 6740420175789570637, 14337989555534502466, 10927261690011529755, 15245499220716800393, 3898889383254669870, 7338730623777070235, 18242647155919575349, 18081965152846923585, 13017707423123363864, 1810016583122350548, 7589142119503299797, 13832079467971752785]
  rw [range24_eq,
    List.foldl_cons,
    permRound_a512_0,
    List.foldl_cons,
    permRound_a512_1,
    List.foldl_cons,
    permRound_a512_2,
    List.foldl_cons,
    permRound_a512_3,
    List.foldl_cons,
    permRound_a512_4,
    List.foldl_cons,
    permRound_a512_5,
    List.foldl_cons,
    permRound_a512_6,
    List.foldl_cons,
    permRound_a512_7,
    List.foldl_cons,
    permRound_a512_8,
    List.foldl_cons,
    permRound_a512_9,
    List.foldl_cons,
    permRound_a512_10,
    List.foldl_cons,
    permRound_a512_11,
    List.foldl_cons,
    permRound_a512_12,
    List.foldl_cons,
    permRound_a512_13,
    List.foldl_cons,
    permRound_a512_14,
    List.foldl_cons,
    permRound_a512_15,
    List.foldl_cons,
    permRound_a512_16,
    List.foldl_cons,
    permRound_a512_17,
    List.foldl_cons,
    permRound_a512_18,
    List.foldl_cons,
    permRound_a512_19,
    List.foldl_cons,
    permRound_a512_20,
    List.foldl_cons,
    permRound_a512_21,
    List.foldl_cons,
    permRound_a512_22,
    List.foldl_cons,
    permRound_a512_23,
    List.foldl_nil]

/-- The state after absorbing the padded final block for the `e224` message. -/
theorem absorbedState_e224 : xorIntoState (List.replicate 25 0) (padBlock 144 []) = [1, 0, 0, 0, 0, 0, 0, 0, 0, 0, 0, 0, 0, 0, 0, 0, 0, 9223372036854775808, 0, 0, 0, 0, 0, 0, 0] := by decide

/-- The Keccak_224 digest of the empty message equals the published vector. -/
theorem katLemma_e224 :
    ((Keccak_224.init.Update []).TruncatedFinal Keccak_224.DIGESTSIZE).1 = kat224Empty := by
  have h1 : Keccak_224.init.Update [] = ⟨28, List.replicate 25 0, []⟩ := by decide
  rw [h1]
  show squeeze 144 28 (keccakF (xorIntoState (List.replicate 25 0) (padBlock 144 []))) 28 = kat224Empty
  rw [absorbedState_e224, permF_e224]
  decide

/-- The state after absorbing the padded final block for the `a224` message. -/
theorem absorbedState_a224 : xorIntoState (List.replicate 25 0) (padBlock 144 [97, 98, 99]) = [23290465, 0, 0, 0, 0, 0, 0, 0, 0, 0, 0, 0, 0, 0, 0, 0, 0, 9223372036854775808, 0, 0, 0, 0, 0, 0, 0] := by decide

/-- The Keccak_224 digest of "abc" equals the published vector. -/
theorem katLemma_a224 :
    ((Keccak_224.init.Update [97, 98, 99]).TruncatedFinal Keccak_224.DIGESTSIZE).1 = kat224Abc := by
  have h1 : Keccak_224.init.Update [97, 98, 99] = ⟨28, List.replicate 25 0, [97, 98, 99]⟩ := by decide
  rw [h1]
  show squeeze 144 28 (keccakF (xorIntoState (List.replicate 25 0) (padBlock 144 [97, 98, 99]))) 28 = kat224Abc
  rw [absorbedState_a224, permF_a224]
  decide

/-- The state after absorbing the padded final block for the `e256` message. -/
theorem absorbedState_e256 : xorIntoState (List.replicate 25 0) (padBlock 136 []) = [1, 0, 0, 0, 0, 0, 0, 0, 0, 0, 0, 0, 0, 0, 0, 0, 9223372036854775808, 0, 0, 0, 0, 0, 0, 0, 0] := by decide

/-- The Keccak_256 digest of the empty message equals the published vector. -/
theorem katLemma_e256 :
    ((Keccak_256.init.Update []).TruncatedFinal Keccak_256.DIGESTSIZE).1 = kat256Empty := by
  have h1 : Keccak_256.init.Update [] = ⟨32, List.replicate 25 0, []⟩ := by decide
  rw [h1]
  show squeeze 136 32 (keccakF (xorIntoState (List.replicate 25 0) (padBlock 136 []))) 32 = kat256Empty
  rw [absorbedState_e256, permF_e256]
  decide

/-- The state after absorbing the padded final block for the `a256` message. -/
theorem absorbedState_a256 : xorIntoState (List.replicate 25 0) (padBlock 136 [97, 98, 99]) = [23290465, 0, 0, 0, 0, 0, 0, 0, 0, 0, 0, 0, 0, 0, 0, 0, 9223372036854775808, 0, 0, 0, 0, 0, 0, 0, 0] := by decide

/-- The Keccak_256 digest of "abc" equals the published vector. -/
theorem katLemma_a256 :
    ((Keccak_256.init.Update [97, 98, 99]).TruncatedFinal Keccak_256.DIGESTSIZE).1 = kat256Abc := by
  have h1 : Keccak_256.init.Update [97, 98, 99] = ⟨32, List.replicate 25 0, [97, 98, 99]⟩ := by decide
  rw [h1]
  show squeeze 136 32 (keccakF (xorIntoState (List.replicate 25 0) (padBlock 136 [97, 98, 99]))) 32 = kat256Abc
  rw [absorbedState_a256, permF_a256]
  decide

/-- The state after absorbing the padded final block for the `e384` message. -/
theorem absorbedState_e384 : xorIntoState (List.replicate 25 0) (padBlock 104 []) = [1, 0, 0, 0, 0, 0, 0, 0, 0, 0, 0, 0, 9223372036854775808, 0, 0, 0, 0, 0, 0, 0, 0, 0, 0, 0, 0] := by decide

/-- The Keccak_384 digest of the empty message equals the published vector. -/
theorem katLemma_e384 :
    ((Keccak_384.init.Update []).TruncatedFinal Keccak_384.DIGESTSIZE).1 = kat384Empty := by
  have h1 : Keccak_384.init.Update [] = ⟨48, List.replicate 25 0, []⟩ := by decide
  rw [h1]
  show squeeze 104 48 (keccakF (xorIntoState (List.replicate 25 0) (padBlock 104 []))) 48 = kat384Empty
  rw [absorbedState_e384, permF_e384]
  decide

/-- The state after absorbing the padded final block for the `a384` message. -/
theorem absorbedState_a384 : xorIntoState (List.replicate 25 0) (padBlock 104 [97, 98, 99]) = [23290465, 0, 0, 0, 0, 0, 0, 0, 0, 0, 0, 0, 9223372036854775808, 0, 0, 0, 0, 0, 0, 0, 0, 0, 0, 0, 0] := by decide

/-- The Keccak_384 digest of "abc" equals the published vector. -/
theorem katLemma_a384 :
    ((Keccak_384.init.Update [97, 98, 99]).TruncatedFinal Keccak_384.DIGESTSIZE).1 = kat384Abc := by
  have h1 : Keccak_384.init.Update [97, 98, 99] = ⟨48, List.replicate 25 0, [97, 98, 99]⟩ := by decide
  rw [h1]
  show squeeze 104 48 (keccakF (xorIntoState (List.replicate 25 0) (padBlock 104 [97, 98, 99]))) 48 = kat384Abc
  rw [absorbedState_a384, permF_a384]
  decide

/-- The state after absorbing the padded final block for the `e512` message. -/
theorem absorbedState_e512 : xorIntoState (List.replicate 25 0) (padBlock 72 []) = [1, 0, 0, 0, 0, 0, 0, 0, 9223372036854775808, 0, 0, 0, 0, 0, 0, 0, 0, 0, 0, 0, 0, 0, 0, 0, 0] := by decide

/-- The Keccak_512 digest of the empty message equals the published vector. -/
theorem katLemma_e512 :
    ((Keccak_512.init.Update []).TruncatedFinal Keccak_512.DIGESTSIZE).1 = kat512Empty := by
  have h1 : Keccak_512.init.Update [] = ⟨64, List.replicate 25 0, []⟩ := by decide
  rw [h1]
  show squeeze 72 64 (keccakF (xorIntoState (List.replicate 25 0) (padBlock 72 []))) 64 = kat512Empty
  rw [absorbedState_e512, permF_e512]
  decide

/-- The state after absorbing the padded final block for the `a512` message. -/
theorem absorbedState_a512 : xorIntoState (List.replicate 25 0) (padBlock 72 [97, 98, 99]) = [23290465, 0, 0, 0, 0, 0, 0, 0, 9223372036854775808, 0, 0, 0, 0, 0, 0, 0, 0, 0, 0, 0, 0, 0, 0, 0, 0] := by decide

/-- The Keccak_512 digest of "abc" equals the published vector. -/
theorem katLemma_a512 :
    ((Keccak_512.init.Update [97, 98, 99]).TruncatedFinal Keccak_512.DIGESTSIZE).1 = kat512Abc := by
  have h1 : Keccak_512.init.Update [97, 98, 99] = ⟨64, List.replicate 25 0, [97, 98, 99]⟩ := by decide
  rw [h1]
  show squeeze 72 64 (keccakF (xorIntoState (List.replicate 25 0) (padBlock 72 [97, 98, 99]))) 64 = kat512Abc
  rw [absorbedState_a512, permF_a512]
  decide

/-- Claim C1: for each of the four variants, `Update` on the empty input
and on the three-byte input `"abc"` followed by `TruncatedFinal` with
`outputSize = DIGESTSIZE` reproduces the published pre-FIPS-202 Keccak
known-answer digests bit for bit. -/
theorem keccak_known_answer_vectors :
    ((Keccak_224.init.Update []).TruncatedFinal Keccak_224.DIGESTSIZE).1 = kat224Empty ∧
    ((Keccak_224.init.Update abcBytes).TruncatedFinal Keccak_224.DIGESTSIZE).1 = kat224Abc ∧
    ((Keccak_256.init.Update []).TruncatedFinal Keccak_256.DIGESTSIZE).1 = kat256Empty ∧
    ((Keccak_256.init.Update abcBytes).TruncatedFinal Keccak_256.DIGESTSIZE).1 = kat256Abc ∧
    ((Keccak_384.init.Update []).TruncatedFinal Keccak_384.DIGESTSIZE).1 = kat384Empty ∧
    ((Keccak_384.init.Update abcBytes).TruncatedFinal Keccak_384.DIGESTSIZE).1 = kat384Abc ∧
    ((Keccak_512.init.Update []).TruncatedFinal Keccak_512.DIGESTSIZE).1 = kat512Empty ∧
    ((Keccak_512.init.Update abcBytes).TruncatedFinal Keccak_512.DIGESTSIZE).1 = kat512Abc :=
  ⟨katLemma_e224, katLemma_a224, katLemma_e256, katLemma_a256,
    katLemma_e384, katLemma_a384, katLemma_e512, katLemma_a512⟩

/-- Claim C2: the modelled permutation is the reference Keccak-f[1600]:
its verbatim round-constant table equals the table generated by the
standard LFSR definition, its verbatim rotation-offset table equals the
table generated by the standard `(x,y) ← (y, 2x+3y)` walk, on every
25-lane state it coincides with the reference permutation `refKeccakF`
(a deterministic total function of exactly 24 rounds applying theta, rho,
pi, chi, iota in that order), and on the all-zero state it produces the
published reference output. -/
theorem keccak_permutation_matches_reference :
    roundConstants = refRCTable ∧
    rhoOff = refRhoTable ∧
    (∀ st : List Nat, keccakF st = fromFun (refKeccakF (toFun st))) ∧
    keccakF (List.replicate 25 0) = zeroStatePermuted :=
  ⟨roundConstants_eq_ref, rhoOff_eq_ref, keccakF_ref, permF_z.trans (by decide)⟩

/-- Claim C5: for all four variants the rate is `200 − 2 × digestSize`
(144, 136, 104, 72), lies strictly between the digest size and 200, and
`BlockSize()` returns it; the rate `r()` of a constructed instance agrees. -/
theorem rate_digest_invariant :
    (Keccak_224.BLOCKSIZE = 200 - 2 * Keccak_224.DIGESTSIZE ∧
      Keccak_224.BLOCKSIZE = 144 ∧ Keccak_224.BlockSize = Keccak_224.BLOCKSIZE ∧
      Keccak_224.init.r = Keccak_224.BLOCKSIZE ∧
      Keccak_224.DIGESTSIZE < Keccak_224.BLOCKSIZE ∧ Keccak_224.BLOCKSIZE < 200) ∧
    (Keccak_256.BLOCKSIZE = 200 - 2 * Keccak_256.DIGESTSIZE ∧
      Keccak_256.BLOCKSIZE = 136 ∧ Keccak_256.BlockSize = Keccak_256.BLOCKSIZE ∧
      Keccak_256.init.r = Keccak_256.BLOCKSIZE ∧
      Keccak_256.DIGESTSIZE < Keccak_256.BLOCKSIZE ∧ Keccak_256.BLOCKSIZE < 200) ∧
    (Keccak_384.BLOCKSIZE = 200 - 2 * Keccak_384.DIGESTSIZE ∧
      Keccak_384.BLOCKSIZE = 104 ∧ Keccak_384.BlockSize = Keccak_384.BLOCKSIZE ∧
      Keccak_384.init.r = Keccak_384.BLOCKSIZE ∧
      Keccak_384.DIGESTSIZE < Keccak_384.BLOCKSIZE ∧ Keccak_384.BLOCKSIZE < 200) ∧
    (Keccak_512.BLOCKSIZE = 200 - 2 * Keccak_512.DIGESTSIZE ∧
      Keccak_512.BLOCKSIZE = 72 ∧ Keccak_512.BlockSize = Keccak_512.BLOCKSIZE ∧
      Keccak_512.init.r = Keccak_512.BLOCKSIZE ∧
      Keccak_512.DIGESTSIZE < Keccak_512.BLOCKSIZE ∧ Keccak_512.BLOCKSIZE < 200) := by
  decide

/-- Claim C4: for every starting object, every way of splitting an input
into consecutive `Update` calls (any chunk sizes, empty chunks included)
yields the same object as one `Update` of the concatenation, and hence
the same `TruncatedFinal` digest. -/
theorem update_chunk_independence (h : Keccak) (parts : List (List Nat)) (size : Nat) :
    parts.foldl Keccak.Update h = h.Update parts.flatten ∧
    (parts.foldl Keccak.Update h).TruncatedFinal size =
      (h.Update parts.flatten).TruncatedFinal size := by
  have key : ∀ (hh : Keccak) (ps : List (List Nat)),
      ps.foldl Keccak.Update hh = hh.Update ps.flatten := by
    intro hh ps
    induction ps generalizing hh with
    | nil => exact (Update_nil hh).symm
    | cons a rest ih =>
        simp only [List.foldl_cons, List.flatten_cons]
        rw [ih, Update_append]
  exact ⟨key h parts, by rw [key h parts]⟩

/-- Claim C7: `Restart` returns the object exactly to its
post-construction state, so `update(A); restart(); update(B); final()`
equals a fresh instance's `update(B); final()`. -/
theorem restart_correctness :
    (∀ h : Keccak, h.Restart = Keccak.init h.m_digestSize) ∧
    (∀ (d : Nat) (A B : List Nat) (size : Nat),
      ((((Keccak.init d).Update A).Restart).Update B).TruncatedFinal size =
        ((Keccak.init d).Update B).TruncatedFinal size) :=
  ⟨fun _ => rfl, fun _ _ _ _ => rfl⟩

/-- Claim C8: after `TruncatedFinal` the object equals the fresh
post-construction state, so a digest computed immediately afterwards
without an explicit `Restart` equals a fresh instance's digest. -/
theorem truncated_final_resets :
    (∀ (h : Keccak) (size : Nat), (h.TruncatedFinal size).2 = Keccak.init h.m_digestSize) ∧
    (∀ (h : Keccak) (size : Nat) (input : List Nat) (size2 : Nat),
      (((h.TruncatedFinal size).2).Update input).TruncatedFinal size2 =
        ((Keccak.init h.m_digestSize).Update input).TruncatedFinal size2) :=
  ⟨fun _ _ => rfl, fun _ _ _ _ => rfl⟩

/-- Claim C10: `Update`, `Restart` and `TruncatedFinal` never modify
`m_digestSize`, so `DigestSize`, the rate `r` and `AlgorithmName` are the
same at every point of the object's lifetime. -/
theorem digest_size_frame (h : Keccak) (input : List Nat) (size : Nat) :
    (h.Update input).m_digestSize = h.m_digestSize ∧
    (h.Restart).m_digestSize = h.m_digestSize ∧
    ((h.TruncatedFinal size).2).m_digestSize = h.m_digestSize ∧
    (h.Update input).DigestSize = h.DigestSize ∧
    (h.Restart).DigestSize = h.DigestSize ∧
    ((h.TruncatedFinal size).2).DigestSize = h.DigestSize ∧
    (h.Update input).r = h.r ∧
    (h.Restart).r = h.r ∧
    ((h.TruncatedFinal size).2).r = h.r ∧
    (h.Update input).AlgorithmName = h.AlgorithmName ∧
    (h.Restart).AlgorithmName = h.AlgorithmName ∧
    ((h.TruncatedFinal size).2).AlgorithmName = h.AlgorithmName :=
  ⟨rfl, rfl, rfl, rfl, rfl, rfl, rfl, rfl, rfl, rfl, rfl, rfl⟩

/-- `getD` on a list of zeros is zero at every index. -/
theorem getD_replicate_zero (n : Nat) : ∀ m : Nat, (List.replicate n (0 : Nat)).getD m 0 = 0 := by
  induction n with
  | zero => intro m; simp [List.getD]
  | succ k ih =>
      intro m
      cases m with
      | zero => simp [List.replicate_succ]
      | succ m =>
          rw [List.replicate_succ, List.getD_cons_succ]
          exact ih m

/-- The padded final block when the domain byte exactly fills the block:
the single byte `0x81` (`0x01 ||| 0x80`) is appended. -/
theorem padBlock_full (buf : List Nat) :
    padBlock (buf.length + 1) buf = buf ++ [0x81] := by
  show (buf ++ 0x01 :: List.replicate (buf.length + 1 - (buf.length + 1)) 0).take
        (buf.length + 1 - 1) ++
      [(buf ++ 0x01 :: List.replicate (buf.length + 1 - (buf.length + 1)) 0).getD
        (buf.length + 1 - 1) 0 ||| 0x80] = buf ++ [0x81]
  simp only [Nat.sub_self, Nat.add_sub_cancel, List.replicate_zero]
  rw [List.take_left' rfl, List.getD_append_right buf _ 0 buf.length (Nat.le_refl _),
    Nat.sub_self]
  rfl

/-- The padded final block when zero padding is present: the domain byte
`0x01`, then zeros, then the multi-rate end byte `0x80`. -/
theorem padBlock_partial (buf : List Nat) (k : Nat) :
    padBlock (buf.length + 2 + k) buf =
      buf ++ 0x01 :: (List.replicate k 0 ++ [0x80]) := by
  have h1 : buf.length + 2 + k - (buf.length + 1) = k + 1 := by omega
  have h2 : buf.length + 2 + k - 1 = buf.length + (k + 1) := by omega
  show (buf ++ 0x01 :: List.replicate (buf.length + 2 + k - (buf.length + 1)) 0).take
        (buf.length + 2 + k - 1) ++
      [(buf ++ 0x01 :: List.replicate (buf.length + 2 + k - (buf.length + 1)) 0).getD
        (buf.length + 2 + k - 1) 0 ||| 0x80] = buf ++ 0x01 :: (List.replicate k 0 ++ [0x80])
  rw [h1, h2, List.take_append_eq_append_take, List.take_of_length_le (by omega),
    Nat.add_sub_cancel_left, List.take_succ_cons, List.take_replicate,
    List.getD_append_right buf _ 0 _ (by omega), Nat.add_sub_cancel_left,
    List.getD_cons_succ, getD_replicate_zero]
  have h4 : min k (k + 1) = k := by omega
  rw [h4]
  simp

/-- Claim C3: `TruncatedFinal` pads by appending the single Keccak
domain-separation byte `0x01` (not the FIPS-202 suffix `0x06`) to the
residual bytes, zero-padding up to `rate` bytes, OR-ing `0x80` into the
final rate-th byte (`0x81` when the two coincide), XOR-ing the block into
the state as little-endian lanes, and invoking the permutation exactly
once before any output byte is extracted. -/
theorem truncated_final_padding :
    (∀ (rate : Nat) (buf : List Nat), buf.length + 1 = rate →
        padBlock rate buf = buf ++ [0x81]) ∧
    (∀ (rate : Nat) (buf : List Nat), buf.length + 1 < rate →
        padBlock rate buf = buf ++ 0x01 :: (List.replicate (rate - buf.length - 2) 0 ++ [0x80])) ∧
    (∀ (h : Keccak) (size : Nat),
        h.TruncatedFinal size =
          (squeeze h.r size (keccakF (xorIntoState h.m_state (padBlock h.r h.m_buffer))) size,
            h.Restart)) := by
  refine ⟨?_, ?_, fun h size => rfl⟩
  · intro rate buf hr
    rw [← hr]
    exact padBlock_full buf
  · intro rate buf hr
    obtain ⟨k, hk⟩ : ∃ k, rate = buf.length + 2 + k := ⟨rate - buf.length - 2, by omega⟩
    subst hk
    have hk2 : buf.length + 2 + k - buf.length - 2 = k := by omega
    rw [hk2]
    exact padBlock_partial buf k

/-- Witness for C3: the padding equations evaluated at the block
boundary case (`rate = 3`, two residual bytes) and the zero-padding case
(`rate = 8`, one residual byte). -/
theorem truncated_final_padding_witness :
    (([3, 7] : List Nat).length + 1 = 3 ∧ padBlock 3 [3, 7] = [3, 7] ++ [0x81]) ∧
    (([5] : List Nat).length + 1 < 8 ∧
      padBlock 8 [5] = [5] ++ 0x01 :: (List.replicate (8 - ([5] : List Nat).length - 2) 0 ++ [0x80])) :=
  ⟨⟨by decide, truncated_final_padding.1 3 [3, 7] (by decide)⟩,
   ⟨by decide, truncated_final_padding.2.1 8 [5] (by decide)⟩⟩

/-- Claim C6: requesting `outputSize < DigestSize` from `TruncatedFinal`
yields exactly the leading `outputSize` bytes of the full digest, for any
object whose digest size does not exceed its rate (as holds for every
variant the header constructs). -/
theorem truncation_consistency (h : Keccak) (size : Nat)
    (h1 : size < h.m_digestSize) (h2 : h.m_digestSize ≤ h.r) :
    (h.TruncatedFinal size).1 = ((h.TruncatedFinal h.m_digestSize).1).take size := by
  show squeeze h.r size (keccakF (xorIntoState h.m_state (padBlock h.r h.m_buffer))) size =
    (squeeze h.r h.m_digestSize (keccakF (xorIntoState h.m_state (padBlock h.r h.m_buffer)))
      h.m_digestSize).take size
  generalize keccakF (xorIntoState h.m_state (padBlock h.r h.m_buffer)) = st
  obtain ⟨m, hm⟩ : ∃ m, h.m_digestSize = m + 1 := ⟨h.m_digestSize - 1, by omega⟩
  rw [hm] at h1 h2 ⊢
  cases size with
  | zero => simp [squeeze]
  | succ s =>
      rw [squeeze, squeeze, if_pos (by omega), if_pos h2, List.take_take]
      have : min (s + 1) (m + 1) = s + 1 := by omega
      rw [this]

/-- Witness for C6: a fresh Keccak-256 object, truncated to 5 bytes. -/
theorem truncation_consistency_witness :
    5 < (Keccak.init 32).m_digestSize ∧ (Keccak.init 32).m_digestSize ≤ (Keccak.init 32).r ∧
    ((Keccak.init 32).TruncatedFinal 5).1 =
      (((Keccak.init 32).TruncatedFinal (Keccak.init 32).m_digestSize).1).take 5 :=
  ⟨by decide, by decide, truncation_consistency (Keccak.init 32) 5 (by decide) (by decide)⟩

/-- Folding bytes into the sponge keeps the residual buffer strictly
shorter than the rate. -/
theorem absorb_foldl_buflen (rate : Nat) (input : List Nat) :
    ∀ s : List Nat × List Nat, s.2.length < rate →
      ((input.foldl (absorbByte rate) s).2).length < rate := by
  induction input with
  | nil => exact fun s hs => hs
  | cons b bs ih =>
      intro s hs
      rw [List.foldl_cons]
      apply ih
      show ((absorbByte rate s b).2).length < rate
      simp only [absorbByte]
      split
      · simp only [List.length_nil]
        exact Nat.lt_of_le_of_lt (Nat.zero_le _) hs
      · next hb =>
          simp only [List.length_append, List.length_cons, List.length_nil] at hb ⊢
          omega

/-- Claim C9: the residual-buffer invariant: the count of buffered bytes
stays strictly below the rate across any `Update` (given it was below
before, as holds from construction on), is zero after construction,
`Restart` and `TruncatedFinal`, and the moment an incoming byte fills the
buffer to exactly `rate` bytes the block is absorbed (XOR into state plus
one permutation) and the buffer emptied. -/
theorem residual_buffer_invariant :
    (∀ (h : Keccak) (input : List Nat),
        h.m_counter < h.r → (h.Update input).m_counter < h.r) ∧
    (∀ d : Nat, (Keccak.init d).m_counter = 0) ∧
    (∀ h : Keccak, (h.Restart).m_counter = 0) ∧
    (∀ (h : Keccak) (size : Nat), ((h.TruncatedFinal size).2).m_counter = 0) ∧
    (∀ (rate : Nat) (st buf : List Nat) (b : Nat),
        (buf ++ [b]).length = rate →
        absorbByte rate (st, buf) b = (keccakF (xorIntoState st (buf ++ [b])), [])) := by
  refine ⟨?_, fun d => rfl, fun h => rfl, fun h size => rfl, ?_⟩
  · intro h input hc
    exact absorb_foldl_buflen h.r input (h.m_state, h.m_buffer) hc
  · intro rate st buf b hb
    simp only [absorbByte]
    rw [if_pos hb]

/-- Witness for C9: the buffer stays below the rate for a fresh
Keccak-256 object absorbing three bytes, and a rate-3 sponge whose buffer
holds two bytes absorbs and clears on the third. -/
theorem residual_buffer_invariant_witness :
    ((Keccak.init 32).m_counter < (Keccak.init 32).r ∧
      ((Keccak.init 32).Update [1, 2, 3]).m_counter < (Keccak.init 32).r) ∧
    ((([7, 8] : List Nat) ++ [9]).length = 3 ∧
      absorbByte 3 (List.replicate 25 0, [7, 8]) 9 =
        (keccakF (xorIntoState (List.replicate 25 0) ([7, 8] ++ [9])), [])) :=
  ⟨⟨by decide, residual_buffer_invariant.1 (Keccak.init 32) [1, 2, 3] (by decide)⟩,
   ⟨by decide, residual_buffer_invariant.2.2.2.2 3 (List.replicate 25 0) [7, 8] 9 (by decide)⟩⟩
